import Mathlib

/-!
# Link management of the i.MX HDMI transmitter driver (drivers/video/mxc/mxc_hdmi.c)

A shallow embedding of the cable-connected worker, the EDID status logic, the
mode-list builder, the colour space conversion, the PHY configuration, the
hardware set-up, the EDID reader of the HDCP path and the hotplug worker of
`mxc_hdmi.c`, followed by theorems about them.

Conventions.
* C `u32` values are natural numbers; where the C arithmetic can wrap, the
  definitions reduce modulo `2^32` explicitly, and a value stored in a `u8` is
  reduced modulo 256.
* Everything the driver takes from other files of the kernel tree (header
  constants, the CEA timing table, helper functions of the EDID and
  framebuffer cores) is gathered in the structure `Env` and is a parameter of
  every definition that uses it.
* Calls that leave the driver (sleeping, the framebuffer core) are recorded,
  in order, in the `trace` field of the device state.
* The registers are reached through `hdmi_writeb`, `hdmi_mask_writeb` and
  `hdmi_readb` of the HDMI core driver. Writes are recorded, in order, in the
  write log of `hdmi_regs`; what a read returns is decided by the hardware and
  is a parameter (`hdmi_hw`) of every function that reads.
-/

namespace MxcHdmi

/-! ## Data model -/

/-- The status codes for reading the EDID (`HDMI_EDID_*`, lines 74-77). -/
def HDMI_EDID_SUCCESS : Int := 0

/-- Status `HDMI_EDID_FAIL` (line 75). -/
def HDMI_EDID_FAIL : Int := -1

/-- Status `HDMI_EDID_SAME` (line 76). -/
def HDMI_EDID_SAME : Int := -2

/-- Status `HDMI_EDID_NO_MODES` (line 77). -/
def HDMI_EDID_NO_MODES : Int := -3

/-- All ones in 32 bits: the value of `~0` once converted to `u32`. -/
def U32_MAX : Nat := 0xFFFFFFFF

/-- Bitwise complement of a `u32`. -/
def not32 (x : Nat) : Nat := U32_MAX ^^^ (x % 2 ^ 32)

/-- The kernel's `struct fb_videomode`, in the field order of the initialiser
of `vga_mode` (lines 103-107). The `name` pointer is not modelled. -/
structure fb_videomode where
  refresh : Nat
  xres : Nat
  yres : Nat
  pixclock : Nat
  left_margin : Nat
  right_margin : Nat
  upper_margin : Nat
  lower_margin : Nat
  hsync_len : Nat
  vsync_len : Nat
  sync : Nat
  vmode : Nat
  flag : Nat
deriving DecidableEq, Repr

/-- The fields of the kernel's `struct fb_var_screeninfo` that the driver
touches or copies. -/
structure fb_var_screeninfo where
  xres : Nat := 0
  yres : Nat := 0
  xres_virtual : Nat := 0
  yres_virtual : Nat := 0
  bits_per_pixel : Nat := 0
  pixclock : Nat := 0
  left_margin : Nat := 0
  right_margin : Nat := 0
  upper_margin : Nat := 0
  lower_margin : Nat := 0
  hsync_len : Nat := 0
  vsync_len : Nat := 0
  sync : Nat := 0
  vmode : Nat := 0
  activate : Nat := 0
deriving DecidableEq, Repr

/-- One entry of the sink's per-timing 3D descriptor list
(`edid_cfg.hdmi_3d_format[j]`, lines 2277-2288). -/
structure mxc_hdmi_3d_format where
  vic_order_2d : Nat
  struct_3d : Nat
deriving DecidableEq, Repr

/-- The fields of `struct mxc_edid_cfg` (the capability record) that the
driver reads or writes. -/
structure mxc_edid_cfg where
  hdmi_cap : Bool := false
  cea_underscan : Bool := false
  cea_ycbcr444 : Bool := false
  cea_ycbcr422 : Bool := false
  cea_rgb_range_selectable : Bool := false
  hdmi_3d_present : Nat := 0
  hdmi_3d_multi_present : Nat := 0
  hdmi_3d_mask_all : Nat := 0
  hdmi_3d_struct_all : Nat := 0
  hdmi_3d_len : Nat := 0
  hdmi_3d_format : List mxc_hdmi_3d_format := []
  ext_edid : Bool := false
deriving DecidableEq, Repr

/-- The type `enum hotplug_state` (lines 162-167). -/
inductive hotplug_state where
  | HDMI_HOTPLUG_DISCONNECTED
  | HDMI_HOTPLUG_CONNECTED_NO_EDID
  | HDMI_HOTPLUG_CONNECTED_DVI
  | HDMI_HOTPLUG_CONNECTED_HDMI
deriving DecidableEq, Repr

/-- The type `struct hdmi_vmode` (lines 128-138). -/
structure hdmi_vmode where
  mDVI : Bool := false
  mHSyncPolarity : Bool := false
  mVSyncPolarity : Bool := false
  mInterlaced : Bool := false
  mDataEnablePolarity : Bool := false
  mPixelClock : Nat := 0
  mPixelRepetitionInput : Nat := 0
  mPixelRepetitionOutput : Nat := 0
deriving DecidableEq, Repr

/-- The fields of `struct hdmi_data_info` (lines 140-153) used below. -/
structure hdmi_data_info where
  enc_in_format : Nat := 0
  enc_out_format : Nat := 0
  enc_color_depth : Nat := 0
  colorimetry : Nat := 0
  pix_repet_factor : Nat := 0
  hdcp_enable : Nat := 0
  rgb_out_enable : Nat := 0
  rgb_quant_range : Nat := 0
  enable_3d : Nat := 0
  enable_fract : Nat := 0
  edid_filename : String := ""
  video_mode : hdmi_vmode := {}
deriving DecidableEq, Repr

/-- The type `struct hdmi_phy_reg_config` (lines 155-160): the board-specific
values of three PHY registers. -/
structure hdmi_phy_reg_config where
  reg_vlev : Nat := 0
  reg_cksymtx : Nat := 0
  reg_txterm : Nat := 0
deriving DecidableEq, Repr

/-- The kernel's `struct fb_monspecs`, reduced to the timing database
`modedb`; `modedb_len` is the length of the list. -/
structure fb_monspecs where
  modedb : List fb_videomode := []
deriving DecidableEq, Repr

/-- The fields of the kernel's `struct fb_info` the driver uses: the current
variable screen info, the mode list, the monitor specs, the current mode and
the flags word. -/
structure fb_info where
  var : fb_var_screeninfo := {}
  modelist : List fb_videomode := []
  monspecs : fb_monspecs := {}
  mode : Option fb_videomode := none
  flags : Nat := 0
deriving DecidableEq, Repr

/-- A call that leaves the functions modelled here, kept in call order in
`mxc_hdmi.trace`. -/
inductive hdmi_event where
  | edid_read
  | hdcp_clk (disable : Bool)
  | release_firmware
  | msleep (ms : Nat)
  | fb_new_modelist
  | hdmi_set_edid_cfg (edid_status : Int)
  | fb_blank_unblank
  | mxc_hdmi_setup
  | mxc_hdmi_phy_disable
  | fb_set_var (var : fb_var_screeninfo)
  | hdmi_set_cable_state (state : Nat)
  | request_firmware_nowait
  | kobject_uevent (plugin : Bool)
  | mxc_hdmi_abort_stream
  | fb_blank_powerdown
deriving DecidableEq, Repr

/-- The fields of `struct mxc_hdmi` (lines 169-213) used by the functions
below, with the framebuffer object `fbi` held by value. The work item
`hdmi_connected` is reduced to its pending bit: it is `true` from
`schedule_work(&hdmi->hdmi_connected)` until the work queue starts
`mxc_hdmi_cable_connected_worker`. The last field, `trace`, is not a field of
the C structure: it lists the calls made into other subsystems, oldest
first. -/
structure mxc_hdmi where
  fbi : fb_info := {}
  hdmi_connected : Bool := false
  hdmi_data : hdmi_data_info := {}
  vic : Int := 0
  edid_cfg : mxc_edid_cfg := {}
  edid : List Nat := []
  fb_reg : Bool := false
  hp_state : hotplug_state := .HDMI_HOTPLUG_DISCONNECTED
  blank : Nat := 0
  dft_mode_set : Bool := false
  latest_intr_stat : Nat := 0
  plug_event : Nat := 0
  plug_mask : Nat := 0
  phy_enabled : Bool := false
  default_mode : fb_videomode := ⟨0, 0, 0, 0, 0, 0, 0, 0, 0, 0, 0, 0, 0⟩
  previous_non_vga_mode : fb_var_screeninfo := {}
  requesting_vga_for_initialization : Bool := false
  phy_config : hdmi_phy_reg_config := {}
  trace : List hdmi_event := []
deriving DecidableEq, Repr

/-- What the driver takes from the rest of the kernel tree: constants of
`linux/fb.h` and of the HDMI register header, the table `mxc_cea_mode` and
the helper functions of `mxc_edid.c` and of the framebuffer core. None of
them is defined in `mxc_hdmi.c`; every definition below is parametric in
them. -/
structure Env where
  FB_VMODE_NONINTERLACED : Nat
  FB_VMODE_MASK : Nat
  FB_VMODE_ASPECT_MASK : Nat
  FB_VMODE_ASPECT_4_3 : Nat
  FB_VMODE_ASPECT_16_9 : Nat
  FB_VMODE_FRACTIONAL : Nat
  FB_VMODE_3D_TOP_BOTTOM : Nat
  FB_VMODE_3D_FRAME_PACK : Nat
  FB_VMODE_3D_SBS_HALF : Nat
  FB_VMODE_3D_SBS_FULL : Nat
  FB_MODE_IS_DETAILED : Nat
  FB_MODE_IS_STANDARD : Nat
  FB_MODE_IS_VESA : Nat
  FB_MODE_IS_FIRST : Nat
  FB_MODE_IS_3D : Nat
  FB_ACTIVATE_FORCE : Nat
  FBINFO_MISC_USEREVENT : Nat
  HDMI_IH_PHY_STAT0_HPD : Nat
  HDMI_DVI_IH_STAT : Nat
  HDMI_PHY_HPD : Nat
  HDMI_DVI_STAT : Nat
  FB_VMODE_INTERLACED : Nat
  FB_SYNC_HOR_HIGH_ACT : Nat
  FB_SYNC_VERT_HIGH_ACT : Nat
  FB_BLANK_UNBLANK : Nat
  HDMI_FC_AVICONF2_RGB_QUANT_MASK : Nat
  HDMI_FC_AVICONF2_RGB_QUANT_DEFAULT : Nat
  HDMI_FC_AVICONF2_RGB_QUANT_LIMITED_RANGE : Nat
  HDMI_FC_AVICONF2_RGB_QUANT_FULL_RANGE : Nat
  HDMI_CSC_SCALE_CSCSCALE_MASK : Nat
  HDMI_CSC_SCALE_CSC_COLORDE_PTH_MASK : Nat
  HDMI_CSC_SCALE_CSC_COLORDE_PTH_24BPP : Nat
  HDMI_CSC_SCALE_CSC_COLORDE_PTH_30BPP : Nat
  HDMI_CSC_SCALE_CSC_COLORDE_PTH_36BPP : Nat
  HDMI_CSC_SCALE_CSC_COLORDE_PTH_48BPP : Nat
  HDMI_CSC_CFG_INTMODE_DISABLE : Nat
  HDMI_CSC_CFG_INTMODE_CHROMA_INT_FORMULA1 : Nat
  HDMI_CSC_CFG_DECMODE_DISABLE : Nat
  HDMI_CSC_CFG_DECMODE_CHROMA_INT_FORMULA3 : Nat
  HDMI_MC_FLOWCTRL_FEED_THROUGH_OFF_CSC_IN_PATH : Nat
  HDMI_MC_FLOWCTRL_FEED_THROUGH_OFF_CSC_BYPASS : Nat
  HDMI_MC_PHYRSTZ_DEASSERT : Nat
  HDMI_MC_PHYRSTZ_ASSERT : Nat
  HDMI_MC_HEACPHY_RST_ASSERT : Nat
  HDMI_PHY_I2CM_SLAVE_ADDR_PHY_GEN2 : Nat
  HDMI_PHY_I2CM_OPERATION_ADDR_WRITE : Nat
  HDMI_PHY_TX_PHY_LOCK : Nat
  HDMI_PHY_TST0_TSTCLR_MASK : Nat
  HDMI_PHY_TST0_TSTCLR_OFFSET : Nat
  HDMI_PHY_CONF0_PDZ_MASK : Nat
  HDMI_PHY_CONF0_PDZ_OFFSET : Nat
  HDMI_PHY_CONF0_ENTMDS_MASK : Nat
  HDMI_PHY_CONF0_ENTMDS_OFFSET : Nat
  HDMI_PHY_CONF0_GEN2_PDDQ_MASK : Nat
  HDMI_PHY_CONF0_GEN2_PDDQ_OFFSET : Nat
  HDMI_PHY_CONF0_GEN2_TXPWRON_MASK : Nat
  HDMI_PHY_CONF0_GEN2_TXPWRON_OFFSET : Nat
  HDMI_PHY_CONF0_SELDATAENPOL_MASK : Nat
  HDMI_PHY_CONF0_SELDATAENPOL_OFFSET : Nat
  HDMI_PHY_CONF0_SELDIPIF_MASK : Nat
  HDMI_PHY_CONF0_SELDIPIF_OFFSET : Nat
  HDMI_IH_MUTE_FC_STAT2_OVERFLOW_MASK : Nat
  HDMI_IH_FC_STAT2_OVERFLOW_MASK : Nat
  HDMI_MC_CLKDIS_CECCLK_DISABLE : Nat
  HDMI_I2CM_INT_DONE_POL : Nat
  HDMI_I2CM_CTLINT_NAC_POL : Nat
  HDMI_I2CM_CTLINT_ARBITRATION_POL : Nat
  HDMI_I2CM_OPERATION_READ : Nat
  HDMI_I2CM_OPERATION_READ_EXT : Nat
  /-- The length of one EDID block, `EDID_LENGTH`. -/
  EDID_LENGTH : Nat
  /-- The error number `ENOENT`. -/
  ENOENT : Nat
  /-- The macro `mxcPICOS2KHZ(pixclock, vmode)`: the pixel clock in kHz of a
  timing given by its pixel period in picoseconds and its vmode. -/
  mxcPICOS2KHZ : Nat → Nat → Nat
  /-- The table `mxc_cea_mode[64]` of canonical CEA timings, by VIC. -/
  mxc_cea_mode : Nat → fb_videomode
  /-- The function `mxc_edid_mode_to_vic(mode, arg)` of `mxc_edid.c`. -/
  mxc_edid_mode_to_vic : fb_videomode → Nat → Nat
  /-- The function `fb_var_to_videomode(&mode, var)`. -/
  fb_var_to_videomode : fb_var_screeninfo → fb_videomode
  /-- The function `fb_videomode_to_var(var, mode)`: the updated `var`. -/
  fb_videomode_to_var : fb_var_screeninfo → fb_videomode → fb_var_screeninfo
  /-- The function `mxc_fb_find_nearest_mode(mode, head, relax)`. -/
  mxc_fb_find_nearest_mode : fb_videomode → List fb_videomode → Bool → Option fb_videomode
  /-- The function `mxc_edid_fb_mode_is_equal(use_aspect, m1, m2, mask)`. -/
  mxc_edid_fb_mode_is_equal : Bool → fb_videomode → fb_videomode → Nat → Bool
  /-- The function `fb_edid_to_monspecs(edid, specs)` of the framebuffer core:
  the monitor specs it fills in from the EDID buffer. -/
  fb_edid_to_monspecs : List Nat → fb_monspecs
  /-- The function `fb_edid_add_monspecs(edid, specs)` of the framebuffer
  core: the monitor specs after the timings of an extension block are
  added. -/
  fb_edid_add_monspecs : List Nat → fb_monspecs → fb_monspecs
  /-- The function `mxc_edid_parse_ext_blk(edid, cfg, specs)` of `mxc_edid.c`:
  its return value, the capability record and the monitor specs after it. -/
  mxc_edid_parse_ext_blk : List Nat → mxc_edid_cfg → fb_monspecs →
    Int × mxc_edid_cfg × fb_monspecs

/-- The constant `vga_mode` (lines 103-107): 640x480 at 60 Hz. -/
def vga_mode (E : Env) : fb_videomode where
  refresh := 60
  xres := 640
  yres := 480
  pixclock := 39721
  left_margin := 48
  right_margin := 16
  upper_margin := 33
  lower_margin := 10
  hsync_len := 96
  vsync_len := 2
  sync := 0
  vmode := E.FB_VMODE_NONINTERLACED ||| E.FB_VMODE_ASPECT_4_3
  flag := E.FB_MODE_IS_VESA

/-- The kernel macro `ALIGN(x, a)` for a power of two `a`, on `u32`:
`(x + a - 1) & ~(a - 1)`, the sum taken modulo `2^32`. -/
def ALIGN (x a : Nat) : Nat := ((x + (a - 1)) % 2 ^ 32) &&& not32 (a - 1)

/-- The macro `ALIGN2(x, a)` (line 88):
`ALIGN(x, a) != x ? ALIGN(x, a) - a : x`, the difference modulo `2^32`. -/
def ALIGN2 (x a : Nat) : Nat :=
  if ALIGN x a ≠ x then (ALIGN x a + 2 ^ 32 - a) % 2 ^ 32 else x

/-- Append an event to the trace. -/
def emit (hdmi : mxc_hdmi) (e : hdmi_event) : mxc_hdmi :=
  { hdmi with trace := hdmi.trace ++ [e] }

/-! ## EDID acquisition -/

/-- What one run of the EDID reader called from `mxc_hdmi_read_edid`
(`mxc_edid_read`, or `mxc_edid_read_internal` once HDCP is initialised)
leaves behind: its return value and the contents of `hdmi->edid`,
`hdmi->edid_cfg` and `fbi->monspecs` after it. The reader talks to the sink
over I2C, so its result is an input of the model. -/
structure edid_reply where
  ret : Int
  edid : List Nat
  cfg : mxc_edid_cfg
  modedb : List fb_videomode
deriving DecidableEq, Repr

/-- The function `mxc_hdmi_read_edid` (lines 1932-1991). `hdcp_init` is the
file-scope flag of that name; `r` is what the reader does on this call. -/
def mxc_hdmi_read_edid (hdcp_init : Bool) (r : edid_reply) (hdmi : mxc_hdmi) :
    Int × mxc_hdmi :=
  -- save old edid
  let edid_old := hdmi.edid
  let gate : Bool := hdcp_init && hdmi.hdmi_data.hdcp_enable != 0
  let hdmi := if gate then emit hdmi (.hdcp_clk true) else hdmi
  let hdmi := emit { hdmi with
    edid := r.edid, edid_cfg := r.cfg,
    fbi := { hdmi.fbi with monspecs := { modedb := r.modedb } } } .edid_read
  let ret := r.ret
  let degrade : Bool := !hdcp_init && decide (ret < 0) &&
    decide (hdmi.fbi.monspecs.modedb.length > 0)
  let hdmi := if degrade then
    { hdmi with edid_cfg := { hdmi.edid_cfg with hdmi_cap := false } } else hdmi
  let ret := if degrade then 0 else ret
  let hdmi := if gate then emit hdmi (.hdcp_clk false) else hdmi
  let hdmi := if hdmi.edid_cfg.ext_edid then
    emit { hdmi with edid_cfg := { hdmi.edid_cfg with ext_edid := false } }
      .release_firmware
    else hdmi
  let status :=
    if ret < 0 then HDMI_EDID_FAIL
    else if edid_old = hdmi.edid then HDMI_EDID_SAME
    else if hdmi.fbi.monspecs.modedb.length = 0 then HDMI_EDID_NO_MODES
    else HDMI_EDID_SUCCESS
  (status, hdmi)

/-! ## Mode list builder -/

/-- Modelled from the spec: `fb_add_videomode` of the framebuffer core, which
is not part of `mxc_hdmi.c`. The spec's builder appends each timing it adds to
the ordered mode list; the call reports success (0). The result is the return
value and the new list. The spec does not say what becomes of a timing that
is in the list already; this append lists it again. The statement that turns
on it, about the mandatory 3D timings, is made over the builder with the
function as a parameter (`rebuild_modelist_on`). -/
def fb_add_videomode (mode : fb_videomode) (head : List fb_videomode) :
    Int × List fb_videomode :=
  (0, head ++ [mode])

/-- The function `mxc_fb_add_videomode` (lines 2145-2153): copy `src_mode`,
replace its flag, or `mod_vmode` into its vmode, add it. The logging call is
omitted. -/
def mxc_fb_add_videomode (src_mode : fb_videomode) (modelist : List fb_videomode)
    (new_flag mod_vmode : Nat) : List fb_videomode :=
  let mode := { src_mode with flag := new_flag, vmode := src_mode.vmode ||| mod_vmode }
  (fb_add_videomode mode modelist).2

/-- An entry of `stereo_mandatory_modes` (`struct stereo_mandatory_mode`,
lines 2155-2158). -/
structure stereo_mandatory_mode where
  vic : Nat
  vmode : Nat
deriving DecidableEq, Repr

/-- The table `stereo_mandatory_modes` (lines 2160-2177), in source order. -/
def stereo_mandatory_modes (E : Env) : List stereo_mandatory_mode :=
  [ ⟨4, E.FB_VMODE_3D_TOP_BOTTOM⟩,
    ⟨32, E.FB_VMODE_3D_TOP_BOTTOM⟩,
    ⟨4, E.FB_VMODE_3D_FRAME_PACK⟩,
    ⟨32, E.FB_VMODE_3D_FRAME_PACK⟩,
    ⟨5, E.FB_VMODE_3D_SBS_HALF⟩,
    ⟨19, E.FB_VMODE_3D_TOP_BOTTOM⟩,
    ⟨19, E.FB_VMODE_3D_FRAME_PACK⟩,
    ⟨20, E.FB_VMODE_3D_SBS_HALF⟩ ]

/-- The part of `vmode` compared by `mxc_fb_check_existing`:
`vmode & (FB_VMODE_MASK ^ FB_VMODE_ASPECT_MASK)` (line 2191). -/
def vmode_key (E : Env) (vmode : Nat) : Nat :=
  vmode &&& (E.FB_VMODE_MASK ^^^ E.FB_VMODE_ASPECT_MASK)

/-- The comparison made by `mxc_fb_check_existing` for one list entry
(lines 2188-2191). -/
def same_key (E : Env) (a b : fb_videomode) : Bool :=
  a.xres == b.xres && a.yres == b.yres && a.refresh == b.refresh &&
    vmode_key E a.vmode == vmode_key E b.vmode

/-- The function `mxc_fb_check_existing` (lines 2179-2195); `true` stands for
the return value 1. The argument `vic` is unused, as in the source. -/
def mxc_fb_check_existing (E : Env) (mtch : fb_videomode) (_vic : Nat)
    (head : List fb_videomode) : Bool :=
  head.any (fun mode => same_key E mtch mode)

/-- The C expression `1 << n` on `int`, as a bit pattern. A shift count
outside 0..31 is undefined in C; the model yields 0 there. -/
def shl1 (n : Int) : Nat := if 0 ≤ n ∧ n < 32 then 2 ^ n.toNat else 0

/-- The in-place rewrite of a raw timing entry (lines 2236-2244): infer the
aspect ratio when none is tagged, then align width and height down to 8. -/
def rebuild_fixup (E : Env) (mode : fb_videomode) : fb_videomode :=
  let vmode :=
    if mode.vmode &&& E.FB_VMODE_ASPECT_MASK = 0 then
      if mode.yres = (mode.xres * 3 % 2 ^ 32) / 4 then
        mode.vmode ||| E.FB_VMODE_ASPECT_4_3
      else
        mode.vmode ||| E.FB_VMODE_ASPECT_16_9
    else mode.vmode
  { mode with vmode := vmode, xres := ALIGN2 mode.xres 8, yres := ALIGN2 mode.yres 8 }

/-- The loop over `stereo_mandatory_modes` (lines 2258-2263): the mandatory 3D
timings of `vic`, built from `mxc_cea_mode[vic]`. -/
def rebuild_mandatory_3d (E : Env) (vic : Nat) (modelist : List fb_videomode) :
    List fb_videomode :=
  (stereo_mandatory_modes E).foldl
    (fun l smm =>
      if smm.vic ≠ vic then l
      else mxc_fb_add_videomode (E.mxc_cea_mode vic) l E.FB_MODE_IS_3D smm.vmode)
    modelist

/-- The block for sinks whose 2D modes all support 3D (lines 2265-2275). -/
def rebuild_all_3d (E : Env) (cfg : mxc_edid_cfg) (mode : fb_videomode) (nvic : Int)
    (modelist : List fb_videomode) : List fb_videomode :=
  if (cfg.hdmi_3d_multi_present = 2 ∧ cfg.hdmi_3d_mask_all &&& shl1 (nvic - 1) ≠ 0) ∨
      (cfg.hdmi_3d_multi_present = 1 ∧ nvic ≤ 16) then
    let l := modelist
    let l := if cfg.hdmi_3d_struct_all &&& 0x1 ≠ 0 then
      mxc_fb_add_videomode mode l E.FB_MODE_IS_3D E.FB_VMODE_3D_FRAME_PACK else l
    let l := if cfg.hdmi_3d_struct_all &&& 0x6 ≠ 0 then
      mxc_fb_add_videomode mode l E.FB_MODE_IS_3D E.FB_VMODE_3D_SBS_FULL else l
    let l := if cfg.hdmi_3d_struct_all &&& 0x40 ≠ 0 then
      mxc_fb_add_videomode mode l E.FB_MODE_IS_3D E.FB_VMODE_3D_TOP_BOTTOM else l
    let l := if cfg.hdmi_3d_struct_all &&& 0x100 ≠ 0 then
      mxc_fb_add_videomode mode l E.FB_MODE_IS_3D E.FB_VMODE_3D_SBS_HALF else l
    l
  else modelist

/-- The loop over the sink's per-timing 3D descriptors (lines 2277-2289). -/
def rebuild_format_3d (E : Env) (cfg : mxc_edid_cfg) (mode : fb_videomode) (nvic : Int)
    (modelist : List fb_videomode) : List fb_videomode :=
  (cfg.hdmi_3d_format.take cfg.hdmi_3d_len).foldl
    (fun l f =>
      if (f.vic_order_2d : Int) ≠ nvic - 1 then l
      else
        let l := if f.struct_3d = 0 then
          mxc_fb_add_videomode mode l E.FB_MODE_IS_3D E.FB_VMODE_3D_FRAME_PACK else l
        let l := if f.struct_3d = 3 then
          mxc_fb_add_videomode mode l E.FB_MODE_IS_3D E.FB_VMODE_3D_SBS_FULL else l
        let l := if f.struct_3d = 6 then
          mxc_fb_add_videomode mode l E.FB_MODE_IS_3D E.FB_VMODE_3D_TOP_BOTTOM else l
        let l := if f.struct_3d = 8 then
          mxc_fb_add_videomode mode l E.FB_MODE_IS_3D E.FB_VMODE_3D_SBS_HALF else l
        l)
    modelist

/-- The variables of `mxc_hdmi_edid_rebuild_modelist` that live across
iterations: the mode list under construction and the counter `nvic`. -/
structure rebuild_state where
  modelist : List fb_videomode
  nvic : Int
deriving DecidableEq, Repr

/-- The body of the inner `for` loop of `mxc_hdmi_edid_rebuild_modelist`
(lines 2217-2289) for one raw entry `mode` under the pass mask `fmask`. The
result is the entry as the body leaves it in `modedb` and the new state; a
`continue` returns at once. -/
def rebuild_entry (E : Env) (hdmi : mxc_hdmi) (fmask : Nat) (mode : fb_videomode)
    (s : rebuild_state) : fb_videomode × rebuild_state :=
  if hdmi.edid_cfg.hdmi_cap = true ∧ fmask ≠ U32_MAX ∧ mode.flag &&& fmask = 0 then
    (mode, s)
  else
    let vic := E.mxc_edid_mode_to_vic mode 0
    let nvic := if vic ≠ 0 then s.nvic + 1 else s.nvic
    -- allow detailed timing specification with vic=0 for HDMI mode
    if hdmi.edid_cfg.hdmi_cap = true ∧
        ((¬ (mode.flag &&& E.FB_MODE_IS_DETAILED ≠ 0 ∨ mode.flag = 0) ∧ vic = 0) ∨
          mode.flag &&& E.FB_MODE_IS_VESA ≠ 0) then
      (mode, { s with nvic := nvic })
    else if mode.xres = 0 ∨ mode.refresh = 0 then
      (mode, { s with nvic := nvic })
    else
      let mode := rebuild_fixup E mode
      if mxc_fb_check_existing E mode vic s.modelist = true then
        (mode, { s with nvic := nvic })
      else
        let added := fb_add_videomode mode s.modelist
        if added.1 ≠ 0 then
          (mode, { modelist := added.2, nvic := nvic })
        else
          let l := added.2
          let l :=
            if vic ≠ 0 ∧ hdmi.hdmi_data.enable_fract ≠ 0 ∧
                (mode.refresh = 24 ∨ mode.refresh = 30 ∨ mode.refresh = 60) then
              mxc_fb_add_videomode mode l mode.flag E.FB_VMODE_FRACTIONAL
            else l
          if hdmi.hdmi_data.enable_3d = 0 ∨ hdmi.edid_cfg.hdmi_3d_present = 0 then
            (mode, { modelist := l, nvic := nvic })
          else
            -- mandatory modes for 50 and 60Hz existing 2d modes
            let l := rebuild_mandatory_3d E vic l
            let l := rebuild_all_3d E hdmi.edid_cfg mode nvic l
            let l := rebuild_format_3d E hdmi.edid_cfg mode nvic l
            (mode, { modelist := l, nvic := nvic })

/-- The inner `for` loop (line 2211) over the entries of `modedb`, in index
order, for one pass mask; the result is the rewritten `modedb` and the
state. -/
def rebuild_pass (E : Env) (hdmi : mxc_hdmi) (fmask : Nat) :
    List fb_videomode → rebuild_state → List fb_videomode × rebuild_state
  | [], s => ([], s)
  | mode :: rest, s =>
    let r := rebuild_entry E hdmi fmask mode s
    let rr := rebuild_pass E hdmi fmask rest r.2
    (r.1 :: rr.1, rr.2)

/-- The array `fmasks` (line 2201), the terminating 0 included. -/
def fmasks (E : Env) : List Nat :=
  [ E.FB_MODE_IS_FIRST,
    not32 (E.FB_MODE_IS_DETAILED ||| E.FB_MODE_IS_FIRST),
    E.FB_MODE_IS_DETAILED,
    U32_MAX,
    0 ]

/-- The outer loop `while (fmasks[k])` (lines 2210-2292): one pass per mask,
stopping at the first mask that is 0. -/
def rebuild_passes (E : Env) (hdmi : mxc_hdmi) :
    List Nat → List fb_videomode → rebuild_state → List fb_videomode × rebuild_state
  | [], modedb, s => (modedb, s)
  | fmask :: rest, modedb, s =>
    if fmask = 0 then (modedb, s)
    else
      let r := rebuild_pass E hdmi fmask modedb s
      rebuild_passes E hdmi rest r.1 r.2

/-- The function `mxc_hdmi_edid_rebuild_modelist` (lines 2197-2297): empty
the mode list, add `vga_mode`, run the passes over `modedb` (rewriting its
entries in place), publish the list. -/
def mxc_hdmi_edid_rebuild_modelist (E : Env) (hdmi : mxc_hdmi) : mxc_hdmi :=
  let l0 : List fb_videomode := []
  let l1 := (fb_add_videomode (vga_mode E) l0).2
  let r := rebuild_passes E hdmi (fmasks E) hdmi.fbi.monspecs.modedb
    { modelist := l1, nvic := 0 }
  emit { hdmi with
    fbi := { hdmi.fbi with modelist := r.2.modelist, monspecs := { modedb := r.1 } } }
    .fb_new_modelist

/-- The function `mxc_hdmi_default_edid_cfg` (lines 2299-2303). -/
def mxc_hdmi_default_edid_cfg (hdmi : mxc_hdmi) : mxc_hdmi :=
  -- Default setting HDMI working in HDMI mode
  { hdmi with edid_cfg := { hdmi.edid_cfg with hdmi_cap := true } }

/-- The function `mxc_hdmi_default_modelist` (lines 2305-2335): empty the
list, add the mode of the current `var`, then every entry of `mxc_cea_mode`
(64 entries, line 224) whose `xres` is not 0, flagged standard. -/
def mxc_hdmi_default_modelist (E : Env) (hdmi : mxc_hdmi) : mxc_hdmi :=
  let l0 : List fb_videomode := []
  let mode := E.fb_var_to_videomode hdmi.fbi.var
  let l1 := (fb_add_videomode mode l0).2
  let l2 := (List.range 64).foldl
    (fun l i =>
      let mode := E.mxc_cea_mode i
      if mode.xres ≠ 0 then
        (fb_add_videomode { mode with flag := mode.flag ||| E.FB_MODE_IS_STANDARD } l).2
      else l)
    l1
  emit { hdmi with fbi := { hdmi.fbi with modelist := l2 } } .fb_new_modelist

/-! ### Auxiliary definitions for the statements about the builder -/

/-- The loop body of the rebuild appends its entry: none of the `continue`
statements before line 2249 is taken. -/
def rebuild_accepts (E : Env) (hdmi : mxc_hdmi) (fmask : Nat) (mode : fb_videomode)
    (s : rebuild_state) : Prop :=
  ¬ (hdmi.edid_cfg.hdmi_cap = true ∧ fmask ≠ U32_MAX ∧ mode.flag &&& fmask = 0) ∧
  ¬ (hdmi.edid_cfg.hdmi_cap = true ∧
      ((¬ (mode.flag &&& E.FB_MODE_IS_DETAILED ≠ 0 ∨ mode.flag = 0) ∧
          E.mxc_edid_mode_to_vic mode 0 = 0) ∨
        mode.flag &&& E.FB_MODE_IS_VESA ≠ 0)) ∧
  ¬ (mode.xres = 0 ∨ mode.refresh = 0) ∧
  mxc_fb_check_existing E (rebuild_fixup E mode) (E.mxc_edid_mode_to_vic mode 0)
    s.modelist = false

instance (E : Env) (hdmi : mxc_hdmi) (fmask : Nat) (mode : fb_videomode)
    (s : rebuild_state) : Decidable (rebuild_accepts E hdmi fmask mode s) := by
  unfold rebuild_accepts
  infer_instance

/-- The value of `nvic` after line 2223 for the entry `mode`. -/
def rebuild_nvic (E : Env) (mode : fb_videomode) (s : rebuild_state) : Int :=
  if E.mxc_edid_mode_to_vic mode 0 ≠ 0 then s.nvic + 1 else s.nvic

/-- What lines 2251-2289 append behind an accepted entry `mode` (already
rewritten): the fractional variant, then the 3D variants. -/
def rebuild_appended (E : Env) (hdmi : mxc_hdmi) (mode : fb_videomode) (vic : Nat)
    (nvic : Int) : List fb_videomode :=
  let l : List fb_videomode :=
    if vic ≠ 0 ∧ hdmi.hdmi_data.enable_fract ≠ 0 ∧
        (mode.refresh = 24 ∨ mode.refresh = 30 ∨ mode.refresh = 60) then
      mxc_fb_add_videomode mode [] mode.flag E.FB_VMODE_FRACTIONAL
    else []
  if hdmi.hdmi_data.enable_3d = 0 ∨ hdmi.edid_cfg.hdmi_3d_present = 0 then l
  else
    rebuild_format_3d E hdmi.edid_cfg mode nvic
      (rebuild_all_3d E hdmi.edid_cfg mode nvic (rebuild_mandatory_3d E vic l))

/-- The iterations of the inner loop in one pass: each raw entry as the loop
body finds it, paired with the state before the body runs. -/
def pass_iterations (E : Env) (hdmi : mxc_hdmi) (fmask : Nat) :
    List fb_videomode → rebuild_state → List (fb_videomode × rebuild_state)
  | [], _ => []
  | mode :: rest, s =>
    (mode, s) :: pass_iterations E hdmi fmask rest (rebuild_entry E hdmi fmask mode s).2

/-- The iterations of the loop body over all passes, in execution order: the
pass mask, the raw entry as the body finds it, and the state before the body
runs. -/
def rebuild_iterations (E : Env) (hdmi : mxc_hdmi) :
    List Nat → List fb_videomode → rebuild_state →
      List (Nat × fb_videomode × rebuild_state)
  | [], _, _ => []
  | fmask :: rest, modedb, s =>
    if fmask = 0 then []
    else
      (pass_iterations E hdmi fmask modedb s).map (fun it => (fmask, it)) ++
        rebuild_iterations E hdmi rest (rebuild_pass E hdmi fmask modedb s).1
          (rebuild_pass E hdmi fmask modedb s).2

/-- The start state of the passes: the list holding `vga_mode` alone, and
`nvic = 0` (lines 2199 and 2207-2208). -/
def rebuild_start (E : Env) : rebuild_state := { modelist := [vga_mode E], nvic := 0 }

/-- The iterations of the loop body in a run of
`mxc_hdmi_edid_rebuild_modelist` on the device `hdmi`. -/
def rebuild_run (E : Env) (hdmi : mxc_hdmi) : List (Nat × fb_videomode × rebuild_state) :=
  rebuild_iterations E hdmi (fmasks E) hdmi.fbi.monspecs.modedb (rebuild_start E)

/-- The first `continue` of the loop body (line 2219) is taken: the entry
fails the pass mask of an HDMI sink. -/
def rebuild_filtered (hdmi : mxc_hdmi) (fmask : Nat) (mode : fb_videomode) : Prop :=
  hdmi.edid_cfg.hdmi_cap = true ∧ fmask ≠ U32_MAX ∧ mode.flag &&& fmask = 0

instance (hdmi : mxc_hdmi) (fmask : Nat) (mode : fb_videomode) :
    Decidable (rebuild_filtered hdmi fmask mode) := by
  unfold rebuild_filtered
  infer_instance

/-- The loop body leaves the raw entry as it is: one of the three `continue`
statements before the in-place rewrite (lines 2219, 2227 and 2233) is
taken. -/
def rebuild_untouched (E : Env) (hdmi : mxc_hdmi) (fmask : Nat) (mode : fb_videomode) :
    Prop :=
  rebuild_filtered hdmi fmask mode ∨
  (hdmi.edid_cfg.hdmi_cap = true ∧
      ((¬ (mode.flag &&& E.FB_MODE_IS_DETAILED ≠ 0 ∨ mode.flag = 0) ∧
          E.mxc_edid_mode_to_vic mode 0 = 0) ∨
        mode.flag &&& E.FB_MODE_IS_VESA ≠ 0)) ∨
  (mode.xres = 0 ∨ mode.refresh = 0)

instance (E : Env) (hdmi : mxc_hdmi) (fmask : Nat) (mode : fb_videomode) :
    Decidable (rebuild_untouched E hdmi fmask mode) := by
  unfold rebuild_untouched
  infer_instance

/-- A raw entry on which a second run of the builder decides as the first
run did: its width and height fit in 32 bits, its width is 0 or at least 8,
and the in-place rewrite does not change its VIC. -/
def rewrite_stable (E : Env) (m : fb_videomode) : Prop :=
  m.xres < 2 ^ 32 ∧ m.yres < 2 ^ 32 ∧ (m.xres = 0 ∨ 8 ≤ m.xres) ∧
    E.mxc_edid_mode_to_vic (rebuild_fixup E m) 0 = E.mxc_edid_mode_to_vic m 0

instance (E : Env) (m : fb_videomode) : Decidable (rewrite_stable E m) := by
  unfold rewrite_stable
  infer_instance

/-- The entry `b` is the entry `a`, as it is or rewritten in place. -/
def rewritten (E : Env) (a b : fb_videomode) : Prop := b = a ∨ b = rebuild_fixup E a

/-- The flag `FB_VMODE_FRACTIONAL` shares no bit with the vmode of
`vga_mode`, with the aspect flags the builder infers, with the 3D layout
flags, or with the vmode of the canonical timings of the VICs in
`stereo_mandatory_modes`. -/
def fract_bit_unused (E : Env) : Prop :=
  (E.FB_VMODE_NONINTERLACED ||| E.FB_VMODE_ASPECT_4_3) &&& E.FB_VMODE_FRACTIONAL = 0 ∧
  E.FB_VMODE_ASPECT_16_9 &&& E.FB_VMODE_FRACTIONAL = 0 ∧
  E.FB_VMODE_3D_TOP_BOTTOM &&& E.FB_VMODE_FRACTIONAL = 0 ∧
  E.FB_VMODE_3D_FRAME_PACK &&& E.FB_VMODE_FRACTIONAL = 0 ∧
  E.FB_VMODE_3D_SBS_HALF &&& E.FB_VMODE_FRACTIONAL = 0 ∧
  E.FB_VMODE_3D_SBS_FULL &&& E.FB_VMODE_FRACTIONAL = 0 ∧
  ∀ smm ∈ stereo_mandatory_modes E,
    (E.mxc_cea_mode smm.vic).vmode &&& E.FB_VMODE_FRACTIONAL = 0

instance (E : Env) : Decidable (fract_bit_unused E) := by
  unfold fract_bit_unused
  infer_instance

/-- The entry `b` is the fractional variant that line 2252 synthesizes from
the entry `a`: `a` is not fractional, `b` is `a` with `FB_VMODE_FRACTIONAL`
set, the refresh rate of `a` is 24, 30 or 60, fractional generation is
enabled, and `a` is the rewritten form of a raw entry that an iteration of the
loop body accepted with a VIC that is not 0. -/
def is_fract_variant (E : Env) (hdmi : mxc_hdmi) (a b : fb_videomode) : Prop :=
  a.vmode &&& E.FB_VMODE_FRACTIONAL = 0 ∧
  b = { a with vmode := a.vmode ||| E.FB_VMODE_FRACTIONAL } ∧
  (a.refresh = 24 ∨ a.refresh = 30 ∨ a.refresh = 60) ∧
  hdmi.hdmi_data.enable_fract ≠ 0 ∧
  ∃ it ∈ rebuild_run E hdmi,
    rebuild_accepts E hdmi it.1 it.2.1 it.2.2 ∧ a = rebuild_fixup E it.2.1 ∧
      E.mxc_edid_mode_to_vic it.2.1 0 ≠ 0

/-- The relation between neighbours in the mode list used to state C9: if the
second entry is fractional, it is the fractional variant of the first. -/
def fract_chain (E : Env) (hdmi : mxc_hdmi) (a b : fb_videomode) : Prop :=
  b.vmode &&& E.FB_VMODE_FRACTIONAL ≠ 0 → is_fract_variant E hdmi a b

/-- The structured timing that line 2261 builds for the table entry `smm`:
the canonical timing `mxc_cea_mode[smm.vic]` flagged 3D, with the layout of
`smm`. -/
def mandatory_timing (E : Env) (smm : stereo_mandatory_mode) : fb_videomode :=
  { E.mxc_cea_mode smm.vic with
    flag := E.FB_MODE_IS_3D, vmode := (E.mxc_cea_mode smm.vic).vmode ||| smm.vmode }

/-! ## The mode list builder over the framebuffer core's `fb_add_videomode`

Every timing that the builder lists is handed to `fb_add_videomode` of the
framebuffer core, which is not part of `mxc_hdmi.c`. The definitions of this
section are the functions of the builder once more, with that function as
the parameter `add`; taken at `fb_add_videomode` they are the definitions of
the section before. -/

/-- The type of `fb_add_videomode(mode, head)`: from the mode and the list,
the return value and the list after the call. -/
abbrev fb_add_fn := fb_videomode → List fb_videomode → Int × List fb_videomode

/-- The function `mxc_fb_add_videomode` (lines 2145-2153) over `add`. -/
def mxc_fb_add_videomode_on (add : fb_add_fn) (src_mode : fb_videomode)
    (modelist : List fb_videomode) (new_flag mod_vmode : Nat) : List fb_videomode :=
  let mode := { src_mode with flag := new_flag, vmode := src_mode.vmode ||| mod_vmode }
  (add mode modelist).2

/-- The loop over `stereo_mandatory_modes` (lines 2258-2263) over `add`. -/
def rebuild_mandatory_3d_on (add : fb_add_fn) (E : Env) (vic : Nat)
    (modelist : List fb_videomode) : List fb_videomode :=
  (stereo_mandatory_modes E).foldl
    (fun l smm =>
      if smm.vic ≠ vic then l
      else mxc_fb_add_videomode_on add (E.mxc_cea_mode vic) l E.FB_MODE_IS_3D smm.vmode)
    modelist

/-- The block for sinks whose 2D modes all support 3D (lines 2265-2275) over
`add`. -/
def rebuild_all_3d_on (add : fb_add_fn) (E : Env) (cfg : mxc_edid_cfg) (mode : fb_videomode)
    (nvic : Int) (modelist : List fb_videomode) : List fb_videomode :=
  if (cfg.hdmi_3d_multi_present = 2 ∧ cfg.hdmi_3d_mask_all &&& shl1 (nvic - 1) ≠ 0) ∨
      (cfg.hdmi_3d_multi_present = 1 ∧ nvic ≤ 16) then
    let l := modelist
    let l := if cfg.hdmi_3d_struct_all &&& 0x1 ≠ 0 then
      mxc_fb_add_videomode_on add mode l E.FB_MODE_IS_3D E.FB_VMODE_3D_FRAME_PACK else l
    let l := if cfg.hdmi_3d_struct_all &&& 0x6 ≠ 0 then
      mxc_fb_add_videomode_on add mode l E.FB_MODE_IS_3D E.FB_VMODE_3D_SBS_FULL else l
    let l := if cfg.hdmi_3d_struct_all &&& 0x40 ≠ 0 then
      mxc_fb_add_videomode_on add mode l E.FB_MODE_IS_3D E.FB_VMODE_3D_TOP_BOTTOM else l
    let l := if cfg.hdmi_3d_struct_all &&& 0x100 ≠ 0 then
      mxc_fb_add_videomode_on add mode l E.FB_MODE_IS_3D E.FB_VMODE_3D_SBS_HALF else l
    l
  else modelist

/-- The loop over the sink's per-timing 3D descriptors (lines 2277-2289) over
`add`. -/
def rebuild_format_3d_on (add : fb_add_fn) (E : Env) (cfg : mxc_edid_cfg)
    (mode : fb_videomode) (nvic : Int) (modelist : List fb_videomode) : List fb_videomode :=
  (cfg.hdmi_3d_format.take cfg.hdmi_3d_len).foldl
    (fun l f =>
      if (f.vic_order_2d : Int) ≠ nvic - 1 then l
      else
        let l := if f.struct_3d = 0 then
          mxc_fb_add_videomode_on add mode l E.FB_MODE_IS_3D E.FB_VMODE_3D_FRAME_PACK else l
        let l := if f.struct_3d = 3 then
          mxc_fb_add_videomode_on add mode l E.FB_MODE_IS_3D E.FB_VMODE_3D_SBS_FULL else l
        let l := if f.struct_3d = 6 then
          mxc_fb_add_videomode_on add mode l E.FB_MODE_IS_3D E.FB_VMODE_3D_TOP_BOTTOM else l
        let l := if f.struct_3d = 8 then
          mxc_fb_add_videomode_on add mode l E.FB_MODE_IS_3D E.FB_VMODE_3D_SBS_HALF else l
        l)
    modelist

/-- The body of the inner `for` loop of `mxc_hdmi_edid_rebuild_modelist`
(lines 2217-2289) over `add`, for one raw entry `mode` under the pass mask
`fmask`. -/
def rebuild_entry_on (add : fb_add_fn) (E : Env) (hdmi : mxc_hdmi) (fmask : Nat)
    (mode : fb_videomode) (s : rebuild_state) : fb_videomode × rebuild_state :=
  if hdmi.edid_cfg.hdmi_cap = true ∧ fmask ≠ U32_MAX ∧ mode.flag &&& fmask = 0 then
    (mode, s)
  else
    let vic := E.mxc_edid_mode_to_vic mode 0
    let nvic := if vic ≠ 0 then s.nvic + 1 else s.nvic
    -- allow detailed timing specification with vic=0 for HDMI mode
    if hdmi.edid_cfg.hdmi_cap = true ∧
        ((¬ (mode.flag &&& E.FB_MODE_IS_DETAILED ≠ 0 ∨ mode.flag = 0) ∧ vic = 0) ∨
          mode.flag &&& E.FB_MODE_IS_VESA ≠ 0) then
      (mode, { s with nvic := nvic })
    else if mode.xres = 0 ∨ mode.refresh = 0 then
      (mode, { s with nvic := nvic })
    else
      let mode := rebuild_fixup E mode
      if mxc_fb_check_existing E mode vic s.modelist = true then
        (mode, { s with nvic := nvic })
      else
        let added := add mode s.modelist
        if added.1 ≠ 0 then
          (mode, { modelist := added.2, nvic := nvic })
        else
          let l := added.2
          let l :=
            if vic ≠ 0 ∧ hdmi.hdmi_data.enable_fract ≠ 0 ∧
                (mode.refresh = 24 ∨ mode.refresh = 30 ∨ mode.refresh = 60) then
              mxc_fb_add_videomode_on add mode l mode.flag E.FB_VMODE_FRACTIONAL
            else l
          if hdmi.hdmi_data.enable_3d = 0 ∨ hdmi.edid_cfg.hdmi_3d_present = 0 then
            (mode, { modelist := l, nvic := nvic })
          else
            -- mandatory modes for 50 and 60Hz existing 2d modes
            let l := rebuild_mandatory_3d_on add E vic l
            let l := rebuild_all_3d_on add E hdmi.edid_cfg mode nvic l
            let l := rebuild_format_3d_on add E hdmi.edid_cfg mode nvic l
            (mode, { modelist := l, nvic := nvic })

/-- The inner `for` loop (line 2211) over `add`. -/
def rebuild_pass_on (add : fb_add_fn) (E : Env) (hdmi : mxc_hdmi) (fmask : Nat) :
    List fb_videomode → rebuild_state → List fb_videomode × rebuild_state
  | [], s => ([], s)
  | mode :: rest, s =>
    let r := rebuild_entry_on add E hdmi fmask mode s
    let rr := rebuild_pass_on add E hdmi fmask rest r.2
    (r.1 :: rr.1, rr.2)

/-- The outer loop `while (fmasks[k])` (lines 2210-2292) over `add`. -/
def rebuild_passes_on (add : fb_add_fn) (E : Env) (hdmi : mxc_hdmi) :
    List Nat → List fb_videomode → rebuild_state → List fb_videomode × rebuild_state
  | [], modedb, s => (modedb, s)
  | fmask :: rest, modedb, s =>
    if fmask = 0 then (modedb, s)
    else
      let r := rebuild_pass_on add E hdmi fmask modedb s
      rebuild_passes_on add E hdmi rest r.1 r.2

/-- The state in which the passes start (lines 2199 and 2207-2208) over
`add`: the list emptied by `fb_destroy_modelist`, then `vga_mode` added. -/
def rebuild_start_on (add : fb_add_fn) (E : Env) : rebuild_state :=
  { modelist := (add (vga_mode E) []).2, nvic := 0 }

/-- The mode list that `mxc_hdmi_edid_rebuild_modelist` (lines 2197-2297)
publishes, over `add`. -/
def rebuild_modelist_on (add : fb_add_fn) (E : Env) (hdmi : mxc_hdmi) : List fb_videomode :=
  (rebuild_passes_on add E hdmi (fmasks E) hdmi.fbi.monspecs.modedb
    (rebuild_start_on add E)).2.modelist

/-- The loop body over `add` goes on behind line 2246 for its entry: none of
the `continue` statements before line 2249 is taken, so `fb_add_videomode`
returned 0. -/
def rebuild_accepts_on (add : fb_add_fn) (E : Env) (hdmi : mxc_hdmi) (fmask : Nat)
    (mode : fb_videomode) (s : rebuild_state) : Prop :=
  ¬ (hdmi.edid_cfg.hdmi_cap = true ∧ fmask ≠ U32_MAX ∧ mode.flag &&& fmask = 0) ∧
  ¬ (hdmi.edid_cfg.hdmi_cap = true ∧
      ((¬ (mode.flag &&& E.FB_MODE_IS_DETAILED ≠ 0 ∨ mode.flag = 0) ∧
          E.mxc_edid_mode_to_vic mode 0 = 0) ∨
        mode.flag &&& E.FB_MODE_IS_VESA ≠ 0)) ∧
  ¬ (mode.xres = 0 ∨ mode.refresh = 0) ∧
  mxc_fb_check_existing E (rebuild_fixup E mode) (E.mxc_edid_mode_to_vic mode 0)
    s.modelist = false ∧
  (add (rebuild_fixup E mode) s.modelist).1 = 0

instance (add : fb_add_fn) (E : Env) (hdmi : mxc_hdmi) (fmask : Nat) (mode : fb_videomode)
    (s : rebuild_state) : Decidable (rebuild_accepts_on add E hdmi fmask mode s) := by
  unfold rebuild_accepts_on
  infer_instance

/-- The iterations of the inner loop in one pass, over `add`: each raw entry
as the loop body finds it, paired with the state before the body runs. -/
def pass_iterations_on (add : fb_add_fn) (E : Env) (hdmi : mxc_hdmi) (fmask : Nat) :
    List fb_videomode → rebuild_state → List (fb_videomode × rebuild_state)
  | [], _ => []
  | mode :: rest, s =>
    (mode, s) ::
      pass_iterations_on add E hdmi fmask rest (rebuild_entry_on add E hdmi fmask mode s).2

/-- The iterations of the loop body over all passes, over `add`, in execution
order. -/
def rebuild_iterations_on (add : fb_add_fn) (E : Env) (hdmi : mxc_hdmi) :
    List Nat → List fb_videomode → rebuild_state →
      List (Nat × fb_videomode × rebuild_state)
  | [], _, _ => []
  | fmask :: rest, modedb, s =>
    if fmask = 0 then []
    else
      (pass_iterations_on add E hdmi fmask modedb s).map (fun it => (fmask, it)) ++
        rebuild_iterations_on add E hdmi rest (rebuild_pass_on add E hdmi fmask modedb s).1
          (rebuild_pass_on add E hdmi fmask modedb s).2

/-- The iterations of the loop body in a run of the builder over `add` on the
device `hdmi`. -/
def rebuild_run_on (add : fb_add_fn) (E : Env) (hdmi : mxc_hdmi) :
    List (Nat × fb_videomode × rebuild_state) :=
  rebuild_iterations_on add E hdmi (fmasks E) hdmi.fbi.monspecs.modedb (rebuild_start_on add E)

/-- Modelled from the spec: `fb_add_videomode` of the framebuffer core and
the comparison of modes it uses, neither of which is part of `mxc_hdmi.c`.
The spec's mode list is a deduplicated sequence that the builder appends to:
`eq`, the comparison, is an equivalence, and `add` leaves the list as it is
when it holds a mode equal to the one to add, and otherwise returns the list
with that one mode added, at whatever position. -/
structure adds_once (eq : fb_videomode → fb_videomode → Bool) (add : fb_add_fn) : Prop where
  refl : ∀ a, eq a a = true
  symm : ∀ a b, eq a b = true → eq b a = true
  trans : ∀ a b c, eq a b = true → eq b c = true → eq a c = true
  skip : ∀ m l, (∃ e ∈ l, eq e m = true) → (add m l).2 = l
  fresh : ∀ m l, (∀ e ∈ l, eq e m = false) → (add m l).2.Perm (m :: l)

/-! ## Mode application and the cable-connected worker -/

/-- The function `mxc_hdmi_notify_fb` (lines 2098-2122): disable the PHY,
force the current `var` through `fb_set_var`. The register writes of
`mxc_hdmi_phy_disable` (lines 1993-2013) and the call of `fb_set_var` are
trace events. -/
def mxc_hdmi_notify_fb (E : Env) (hdmi : mxc_hdmi) : mxc_hdmi :=
  let hdmi := if hdmi.phy_enabled then
    emit { hdmi with phy_enabled := false } .mxc_hdmi_phy_disable else hdmi
  let var := { hdmi.fbi.var with activate := hdmi.fbi.var.activate ||| E.FB_ACTIVATE_FORCE }
  let hdmi := { hdmi with fbi := { hdmi.fbi with var := var } }
  let hdmi := emit hdmi (.fb_set_var var)
  { hdmi with fbi := { hdmi.fbi with
      flags := (hdmi.fbi.flags ||| E.FBINFO_MISC_USEREVENT) &&& not32 E.FBINFO_MISC_USEREVENT } }

/-- The function `mxc_hdmi_set_mode` (lines 2337-2400). The hardware set-up
`mxc_hdmi_setup`, `fb_blank` and `hdmi_set_cable_state` are trace events. -/
def mxc_hdmi_set_mode (E : Env) (hdmi : mxc_hdmi) (edid_status : Int) : mxc_hdmi :=
  -- Set the default mode only once.
  let var := if !hdmi.dft_mode_set then E.fb_videomode_to_var {} hdmi.default_mode
    else hdmi.previous_non_vga_mode
  let hdmi := if !hdmi.dft_mode_set then
    { hdmi with dft_mode_set := true, requesting_vga_for_initialization := false }
    else hdmi
  let m := E.fb_var_to_videomode var
  match E.mxc_fb_find_nearest_mode m hdmi.fbi.modelist false with
  | none => hdmi
  | some mode =>
    let hdmi := emit hdmi .fb_blank_unblank
    let hdmi :=
      if E.mxc_edid_fb_mode_is_equal true m mode U32_MAX = true ∧
          edid_status = HDMI_EDID_SAME then
        -- Video mode and EDID same as previous
        emit { hdmi with fbi := { hdmi.fbi with
          mode := some mode, var := hdmi.previous_non_vga_mode } } .mxc_hdmi_setup
      else if E.mxc_edid_fb_mode_is_equal true m mode U32_MAX = true ∧
          edid_status ≠ HDMI_EDID_SAME then
        -- Video mode same as previous, EDID changed
        mxc_hdmi_notify_fb E { hdmi with fbi := { hdmi.fbi with
          mode := some mode, var := hdmi.previous_non_vga_mode } }
      else if edid_status ≠ HDMI_EDID_SAME then
        -- New video mode
        mxc_hdmi_notify_fb E { hdmi with fbi := { hdmi.fbi with
          var := E.fb_videomode_to_var hdmi.fbi.var mode } }
      else hdmi
    emit hdmi (.hdmi_set_cable_state 1)

/-- Lines 2411-2427 of `mxc_hdmi_cable_connected_worker`: the first read of
the EDID and, when it reports no modes or a failure, the single retry. `first`
and `retry` are what the reader does on the first and on the second call. The
result is the final `edid_status` and the state. -/
def worker_read_edid (ignore_edid hdcp_init : Bool) (first retry : edid_reply)
    (hdmi : mxc_hdmi) : Int × mxc_hdmi :=
  let r1 : Int × mxc_hdmi :=
    if ignore_edid then (HDMI_EDID_FAIL, hdmi) else mxc_hdmi_read_edid hdcp_init first hdmi
  let edid_status := r1.1
  let hdmi := r1.2
  -- Read EDID again if first EDID read failed
  if !ignore_edid ∧ (edid_status = HDMI_EDID_NO_MODES ∨ edid_status = HDMI_EDID_FAIL) then
    let hdmi := emit hdmi (.msleep 200)
    let r2 := mxc_hdmi_read_edid hdcp_init retry hdmi
    let retry_status := r2.1
    -- If we get NO_MODES on the 1st and SAME on the 2nd attempt we
    -- want NO_MODES as final result.
    if retry_status ≠ HDMI_EDID_SAME then (retry_status, r2.2) else (edid_status, r2.2)
  else (edid_status, hdmi)

/-- The `switch (edid_status)` of `mxc_hdmi_cable_connected_worker`
(lines 2430-2446), with the fall-through from `HDMI_EDID_FAIL` into the
default branch. -/
def worker_switch (E : Env) (edid_status : Int) (hdmi : mxc_hdmi) : mxc_hdmi :=
  if edid_status = HDMI_EDID_SUCCESS then mxc_hdmi_edid_rebuild_modelist E hdmi
  else if edid_status = HDMI_EDID_SAME then hdmi
  else if edid_status = HDMI_EDID_FAIL then
    mxc_hdmi_default_modelist E (mxc_hdmi_default_edid_cfg hdmi)
  else mxc_hdmi_default_modelist E hdmi

/-- Lines 2448-2451: the link state and the plug event and mask follow
`edid_cfg.hdmi_cap`. -/
def worker_set_hp_state (E : Env) (hdmi : mxc_hdmi) : mxc_hdmi :=
  { hdmi with
    hp_state := if hdmi.edid_cfg.hdmi_cap then .HDMI_HOTPLUG_CONNECTED_HDMI
      else .HDMI_HOTPLUG_CONNECTED_DVI
    plug_event := if hdmi.edid_cfg.hdmi_cap then E.HDMI_IH_PHY_STAT0_HPD
      else E.HDMI_DVI_IH_STAT
    plug_mask := if hdmi.edid_cfg.hdmi_cap then E.HDMI_PHY_HPD else E.HDMI_DVI_STAT }

/-- The function `mxc_hdmi_cable_connected_worker` (lines 2402-2461).
`ignore_edid` is the module parameter of that name. -/
def mxc_hdmi_cable_connected_worker (E : Env) (ignore_edid hdcp_init : Bool)
    (first retry : edid_reply) (hdmi : mxc_hdmi) : mxc_hdmi :=
  let r := worker_read_edid ignore_edid hdcp_init first retry hdmi
  let edid_status := r.1
  let hdmi := worker_switch E edid_status r.2
  let hdmi := worker_set_hp_state E hdmi
  -- Save edid cfg for audio driver
  let hdmi := emit hdmi (.hdmi_set_edid_cfg edid_status)
  -- Setting video mode
  mxc_hdmi_set_mode E hdmi edid_status

/-! ## The register file -/

/-- The registers of the HDMI transmitter that the functions below access, by
the names the register header gives them. -/
inductive hdmi_reg where
  | HDMI_CSC_CFG
  | HDMI_CSC_SCALE
  | HDMI_CSC_COEF_A1_MSB
  | HDMI_CSC_COEF_A1_LSB
  | HDMI_CSC_COEF_A2_MSB
  | HDMI_CSC_COEF_A2_LSB
  | HDMI_CSC_COEF_A3_MSB
  | HDMI_CSC_COEF_A3_LSB
  | HDMI_CSC_COEF_A4_MSB
  | HDMI_CSC_COEF_A4_LSB
  | HDMI_CSC_COEF_B1_MSB
  | HDMI_CSC_COEF_B1_LSB
  | HDMI_CSC_COEF_B2_MSB
  | HDMI_CSC_COEF_B2_LSB
  | HDMI_CSC_COEF_B3_MSB
  | HDMI_CSC_COEF_B3_LSB
  | HDMI_CSC_COEF_B4_MSB
  | HDMI_CSC_COEF_B4_LSB
  | HDMI_CSC_COEF_C1_MSB
  | HDMI_CSC_COEF_C1_LSB
  | HDMI_CSC_COEF_C2_MSB
  | HDMI_CSC_COEF_C2_LSB
  | HDMI_CSC_COEF_C3_MSB
  | HDMI_CSC_COEF_C3_LSB
  | HDMI_CSC_COEF_C4_MSB
  | HDMI_CSC_COEF_C4_LSB
  | HDMI_MC_FLOWCTRL
  | HDMI_MC_PHYRSTZ
  | HDMI_MC_HEACPHY_RST
  | HDMI_PHY_CONF0
  | HDMI_PHY_TST0
  | HDMI_PHY_STAT0
  | HDMI_PHY_I2CM_SLAVE_ADDR
  | HDMI_PHY_I2CM_ADDRESS_ADDR
  | HDMI_PHY_I2CM_DATAO_1_ADDR
  | HDMI_PHY_I2CM_DATAO_0_ADDR
  | HDMI_PHY_I2CM_OPERATION_ADDR
  | HDMI_IH_I2CMPHY_STAT0
  | HDMI_IH_MUTE_FC_STAT2
  | HDMI_FC_MASK2
  | HDMI_IH_FC_STAT2
  | HDMI_IH_MUTE_PHY_STAT0
  | HDMI_PHY_POL0
  | HDMI_PHY_MASK0
  | HDMI_MC_CLKDIS
  | HDMI_I2CM_DIV
  | HDMI_I2CM_SS_SCL_HCNT_1_ADDR
  | HDMI_I2CM_SS_SCL_HCNT_0_ADDR
  | HDMI_I2CM_SS_SCL_LCNT_1_ADDR
  | HDMI_I2CM_SS_SCL_LCNT_0_ADDR
  | HDMI_I2CM_FS_SCL_HCNT_1_ADDR
  | HDMI_I2CM_FS_SCL_HCNT_0_ADDR
  | HDMI_I2CM_FS_SCL_LCNT_1_ADDR
  | HDMI_I2CM_FS_SCL_LCNT_0_ADDR
  | HDMI_I2CM_SLAVE
  | HDMI_I2CM_SEGADDR
  | HDMI_I2CM_INT
  | HDMI_I2CM_CTLINT
  | HDMI_I2CM_ADDRESS
  | HDMI_I2CM_OPERATION
  | HDMI_I2CM_DATAI
  | HDMI_IH_I2CM_STAT0
deriving DecidableEq, Repr

/-- The steps of `mxc_hdmi_setup` whose register programming is not followed
register by register: each is one entry of the write log. None of them
stores to `struct mxc_hdmi`, except `hdmi_av_composer`, whose stores are
modelled. -/
inductive setup_step where
  | hdmi_set_dvi_mode (dvi : Nat)
  | hdmi_av_composer
  | mxc_hdmi_enable_video_path
  | hdmi_enable_audio_clk
  | hdmi_config_AVI
  | hdmi_video_packetize
  | hdmi_video_sample
  | mxc_hdmi_clear_overflow
deriving DecidableEq, Repr

/-- An entry of the write log: a call of `hdmi_writeb(value, reg)`, a call of
`hdmi_mask_writeb(data, reg, shift, mask)` (both live in the HDMI core driver,
outside `mxc_hdmi.c`), or a step of `mxc_hdmi_setup` that programs registers
of its own. -/
inductive reg_write where
  | hdmi_writeb (value : Nat) (reg : hdmi_reg)
  | hdmi_mask_writeb (data : Nat) (reg : hdmi_reg) (shift mask : Nat)
  | programmed (step : setup_step)
deriving DecidableEq, Repr

/-- The register side of the device: the log of the writes made so far,
oldest first, and the number of register reads made so far. -/
structure hdmi_regs where
  writes : List reg_write := []
  nread : Nat := 0
deriving DecidableEq, Repr

/-- The hardware seen through `hdmi_readb`: `hw reg n` is the value that a
read of the register `reg` returns when `n` reads have been made before
it. -/
abbrev hdmi_hw := hdmi_reg → Nat → Nat

/-- A call of `hdmi_writeb(value, reg)`. -/
def hdmi_writeb (value : Nat) (reg : hdmi_reg) (io : hdmi_regs) : hdmi_regs :=
  { io with writes := io.writes ++ [.hdmi_writeb value reg] }

/-- A call of `hdmi_mask_writeb(data, reg, shift, mask)`. -/
def hdmi_mask_writeb (data : Nat) (reg : hdmi_reg) (shift mask : Nat) (io : hdmi_regs) :
    hdmi_regs :=
  { io with writes := io.writes ++ [.hdmi_mask_writeb data reg shift mask] }

/-- A call of `hdmi_readb(reg)`: the value read and the register side after
it. -/
def hdmi_readb (hw : hdmi_hw) (reg : hdmi_reg) (io : hdmi_regs) : Nat × hdmi_regs :=
  (hw reg io.nread, { io with nread := io.nread + 1 })

/-- A step of `mxc_hdmi_setup` that is kept as one log entry. -/
def programmed (step : setup_step) (io : hdmi_regs) : hdmi_regs :=
  { io with writes := io.writes ++ [.programmed step] }

/-! ## Colour space conversion -/

/-- The encoding `RGB` (line 82). -/
def RGB : Nat := 0

/-- The encoding `YCBCR444` (line 83). -/
def YCBCR444 : Nat := 1

/-- The encoding `YCBCR422_16BITS` (line 84). -/
def YCBCR422_16BITS : Nat := 2

/-- The encoding `YCBCR422_8BITS` (line 85). -/
def YCBCR422_8BITS : Nat := 3

/-- The encoding `XVYCC444` (line 86). -/
def XVYCC444 : Nat := 4

/-- The enumerator `eITU601` of `enum hdmi_mxc_colorimetry` (lines 123-126). -/
def eITU601 : Nat := 0

/-- The enumerator `eITU709` of `enum hdmi_mxc_colorimetry`. -/
def eITU709 : Nat := 1

/-- The function `getRGBQuantRange` (lines 647-654). -/
def getRGBQuantRange (E : Env) (hdmi : mxc_hdmi) : Nat :=
  if hdmi.hdmi_data.rgb_quant_range ≠ E.HDMI_FC_AVICONF2_RGB_QUANT_MASK then
    hdmi.hdmi_data.rgb_quant_range
  else if hdmi.edid_cfg.cea_rgb_range_selectable then
    E.HDMI_FC_AVICONF2_RGB_QUANT_FULL_RANGE
  else E.HDMI_FC_AVICONF2_RGB_QUANT_DEFAULT

/-- The function `isColorSpaceConversion` (lines 656-664); `true` stands for
a result that is not 0. -/
def isColorSpaceConversion (E : Env) (hdmi : mxc_hdmi) : Bool :=
  let rgb_quant_range := getRGBQuantRange E hdmi
  decide (hdmi.hdmi_data.enc_in_format ≠ hdmi.hdmi_data.enc_out_format) ||
    (decide (hdmi.hdmi_data.enc_out_format = RGB) &&
      (decide (rgb_quant_range = E.HDMI_FC_AVICONF2_RGB_QUANT_LIMITED_RANGE) ||
        (decide (rgb_quant_range = E.HDMI_FC_AVICONF2_RGB_QUANT_DEFAULT) &&
          decide (hdmi.vic > 1))))

/-- The function `isColorSpaceDecimation` (lines 666-671). -/
def isColorSpaceDecimation (hdmi : mxc_hdmi) : Bool :=
  decide (hdmi.hdmi_data.enc_out_format = YCBCR422_8BITS) &&
    (decide (hdmi.hdmi_data.enc_in_format = RGB) ||
      decide (hdmi.hdmi_data.enc_in_format = YCBCR444))

/-- The function `isColorSpaceInterpolation` (lines 673-678). -/
def isColorSpaceInterpolation (hdmi : mxc_hdmi) : Bool :=
  decide (hdmi.hdmi_data.enc_in_format = YCBCR422_8BITS) &&
    (decide (hdmi.hdmi_data.enc_out_format = RGB) ||
      decide (hdmi.hdmi_data.enc_out_format = YCBCR444))

/-- The locals `csc_coeff[3][4]` and `csc_scale` of `update_csc_coeffs`. -/
structure csc_choice where
  csc_coeff : List (List Nat)
  csc_scale : Nat
deriving DecidableEq, Repr

/-- Lines 685-805 of `update_csc_coeffs`: the coefficient set and the scale
that the function selects. `none` in the first step stands for
`coeff_selected == false`. -/
def csc_select (E : Env) (hdmi : mxc_hdmi) : csc_choice :=
  let selected : Option csc_choice :=
    if isColorSpaceConversion E hdmi = true then -- csc needed
      if hdmi.hdmi_data.enc_out_format = RGB then
        if hdmi.hdmi_data.enc_in_format = RGB then
          some ⟨[[0x1b80, 0x0000, 0x0000, 0x0020],
                 [0x0000, 0x1b80, 0x0000, 0x0020],
                 [0x0000, 0x0000, 0x1b80, 0x0020]], 1⟩
        else if hdmi.hdmi_data.colorimetry = eITU601 then
          some ⟨[[0x2000, 0x6926, 0x74fd, 0x010e],
                 [0x2000, 0x2cdd, 0x0000, 0x7e9a],
                 [0x2000, 0x0000, 0x38b4, 0x7e3b]], 1⟩
        else if hdmi.hdmi_data.colorimetry = eITU709 then
          some ⟨[[0x2000, 0x7106, 0x7a02, 0x00a7],
                 [0x2000, 0x3264, 0x0000, 0x7e6d],
                 [0x2000, 0x0000, 0x3b61, 0x7e25]], 1⟩
        else none
      else if hdmi.hdmi_data.enc_in_format = RGB then
        if hdmi.hdmi_data.colorimetry = eITU601 then
          some ⟨[[0x2591, 0x1322, 0x074b, 0x0000],
                 [0x6535, 0x2000, 0x7acc, 0x0200],
                 [0x6acd, 0x7534, 0x2000, 0x0200]], 0⟩
        else if hdmi.hdmi_data.colorimetry = eITU709 then
          some ⟨[[0x2dc5, 0x0d9b, 0x049e, 0x0000],
                 [0x62f0, 0x2000, 0x7d11, 0x0200],
                 [0x6756, 0x78ab, 0x2000, 0x0200]], 0⟩
        else none
      else none
    else none
  match selected with
  | some c => c
  | none =>
    ⟨[[0x2000, 0x0000, 0x0000, 0x0000],
      [0x0000, 0x2000, 0x0000, 0x0000],
      [0x0000, 0x0000, 0x2000, 0x0000]], 1⟩

/-- The registers of the coefficient in row `i`, column `j`: low byte, high
byte (lines 808-857). -/
def csc_coef_regs : List (List (hdmi_reg × hdmi_reg)) :=
  [ [ (.HDMI_CSC_COEF_A1_LSB, .HDMI_CSC_COEF_A1_MSB),
      (.HDMI_CSC_COEF_A2_LSB, .HDMI_CSC_COEF_A2_MSB),
      (.HDMI_CSC_COEF_A3_LSB, .HDMI_CSC_COEF_A3_MSB),
      (.HDMI_CSC_COEF_A4_LSB, .HDMI_CSC_COEF_A4_MSB) ],
    [ (.HDMI_CSC_COEF_B1_LSB, .HDMI_CSC_COEF_B1_MSB),
      (.HDMI_CSC_COEF_B2_LSB, .HDMI_CSC_COEF_B2_MSB),
      (.HDMI_CSC_COEF_B3_LSB, .HDMI_CSC_COEF_B3_MSB),
      (.HDMI_CSC_COEF_B4_LSB, .HDMI_CSC_COEF_B4_MSB) ],
    [ (.HDMI_CSC_COEF_C1_LSB, .HDMI_CSC_COEF_C1_MSB),
      (.HDMI_CSC_COEF_C2_LSB, .HDMI_CSC_COEF_C2_MSB),
      (.HDMI_CSC_COEF_C3_LSB, .HDMI_CSC_COEF_C3_MSB),
      (.HDMI_CSC_COEF_C4_LSB, .HDMI_CSC_COEF_C4_MSB) ] ]

/-- The function `update_csc_coeffs` (lines 683-863): select the coefficients,
write each as a low and a high byte, row by row, then set the scale field of
`HDMI_CSC_SCALE`. -/
def update_csc_coeffs (E : Env) (hw : hdmi_hw) (hdmi : mxc_hdmi) (io : hdmi_regs) :
    hdmi_regs :=
  let c := csc_select E hdmi
  -- Update CSC parameters in HDMI CSC registers
  let io := (List.zip c.csc_coeff csc_coef_regs).foldl
    (fun io row =>
      (List.zip row.1 row.2).foldl
        (fun io cell =>
          let io := hdmi_writeb (cell.1 &&& 0xFF) cell.2.1 io
          hdmi_writeb ((cell.1 >>> 8) % 256) cell.2.2 io)
        io)
    io
  let r := hdmi_readb hw .HDMI_CSC_SCALE io
  let val := r.1 % 256
  let val := (val &&& not32 E.HDMI_CSC_SCALE_CSCSCALE_MASK) % 256
  let val := (val ||| (c.csc_scale &&& E.HDMI_CSC_SCALE_CSCSCALE_MASK)) % 256
  hdmi_writeb val .HDMI_CSC_SCALE r.2

/-- The function `hdmi_video_csc` (lines 865-897). -/
def hdmi_video_csc (E : Env) (hw : hdmi_hw) (hdmi : mxc_hdmi) (io : hdmi_regs) : hdmi_regs :=
  -- YCC422 interpolation to 444 mode
  let interpolation := if isColorSpaceInterpolation hdmi = true then
    E.HDMI_CSC_CFG_INTMODE_CHROMA_INT_FORMULA1 else E.HDMI_CSC_CFG_INTMODE_DISABLE
  let decimation :=
    if isColorSpaceInterpolation hdmi = true then E.HDMI_CSC_CFG_DECMODE_DISABLE
    else if isColorSpaceDecimation hdmi = true then
      E.HDMI_CSC_CFG_DECMODE_CHROMA_INT_FORMULA3
    else E.HDMI_CSC_CFG_DECMODE_DISABLE
  let color_depth : Option Nat :=
    if hdmi.hdmi_data.enc_color_depth = 8 then some E.HDMI_CSC_SCALE_CSC_COLORDE_PTH_24BPP
    else if hdmi.hdmi_data.enc_color_depth = 10 then
      some E.HDMI_CSC_SCALE_CSC_COLORDE_PTH_30BPP
    else if hdmi.hdmi_data.enc_color_depth = 12 then
      some E.HDMI_CSC_SCALE_CSC_COLORDE_PTH_36BPP
    else if hdmi.hdmi_data.enc_color_depth = 16 then
      some E.HDMI_CSC_SCALE_CSC_COLORDE_PTH_48BPP
    else none
  match color_depth with
  | none => io
  | some color_depth =>
    -- configure the CSC registers
    let io := hdmi_writeb (interpolation ||| decimation) .HDMI_CSC_CFG io
    let r := hdmi_readb hw .HDMI_CSC_SCALE io
    let val := r.1 % 256
    let val := (val &&& not32 E.HDMI_CSC_SCALE_CSC_COLORDE_PTH_MASK) % 256
    let val := (val ||| color_depth) % 256
    let io := hdmi_writeb val .HDMI_CSC_SCALE r.2
    update_csc_coeffs E hw hdmi io

/-! ## The PHY -/

/-- The function `hdmi_phy_test_clear` (lines 1052-1060). -/
def hdmi_phy_test_clear (E : Env) (hw : hdmi_hw) (bit : Nat) (io : hdmi_regs) : hdmi_regs :=
  let r := hdmi_readb hw .HDMI_PHY_TST0 io
  let val := r.1 % 256
  let val := (val &&& not32 E.HDMI_PHY_TST0_TSTCLR_MASK) % 256
  let val := (val ||| ((bit <<< E.HDMI_PHY_TST0_TSTCLR_OFFSET) &&&
    E.HDMI_PHY_TST0_TSTCLR_MASK)) % 256
  hdmi_writeb val .HDMI_PHY_TST0 r.2

/-- The loop of `hdmi_phy_wait_i2c_done` (lines 1098-1104), entered with the
masked status `val` and `msec` polls left: `true` once the status is not 0,
`false` when the budget is used up. -/
def phy_wait_i2c_loop (hw : hdmi_hw) : Nat → Nat → hdmi_regs → Bool × hdmi_regs
  | msec, val, io =>
    if val ≠ 0 then (true, io)
    else
      match msec with
      | 0 => (false, io)
      | msec + 1 =>
        let r := hdmi_readb hw .HDMI_IH_I2CMPHY_STAT0 io
        phy_wait_i2c_loop hw msec ((r.1 &&& 0x3) % 256) r.2

/-- The function `hdmi_phy_wait_i2c_done` (lines 1094-1105). The budget `msec`
is an `int` in the source; every caller passes 1000. The delays are not
modelled. -/
def hdmi_phy_wait_i2c_done (hw : hdmi_hw) (msec : Nat) (io : hdmi_regs) : Bool × hdmi_regs :=
  let r := hdmi_readb hw .HDMI_IH_I2CMPHY_STAT0 io
  phy_wait_i2c_loop hw msec ((r.1 &&& 0x3) % 256) r.2

/-- The function `hdmi_phy_i2c_write` (lines 1107-1119): write the 16-bit word
`data` to the PHY register `addr` through the I2C master, then wait for the
transfer; the result of the wait is dropped, as in the source. -/
def hdmi_phy_i2c_write (E : Env) (hw : hdmi_hw) (data addr : Nat) (io : hdmi_regs) :
    hdmi_regs :=
  let io := hdmi_writeb 0xFF .HDMI_IH_I2CMPHY_STAT0 io
  let io := hdmi_writeb addr .HDMI_PHY_I2CM_ADDRESS_ADDR io
  let io := hdmi_writeb ((data >>> 8) % 256) .HDMI_PHY_I2CM_DATAO_1_ADDR io
  let io := hdmi_writeb ((data >>> 0) % 256) .HDMI_PHY_I2CM_DATAO_0_ADDR io
  let io := hdmi_writeb E.HDMI_PHY_I2CM_OPERATION_ADDR_WRITE .HDMI_PHY_I2CM_OPERATION_ADDR io
  (hdmi_phy_wait_i2c_done hw 1000 io).2

/-- The function `mxc_hdmi_phy_enable_power` (lines 1191-1196). -/
def mxc_hdmi_phy_enable_power (E : Env) (enable : Nat) (io : hdmi_regs) : hdmi_regs :=
  hdmi_mask_writeb enable .HDMI_PHY_CONF0 E.HDMI_PHY_CONF0_PDZ_OFFSET
    E.HDMI_PHY_CONF0_PDZ_MASK io

/-- The function `mxc_hdmi_phy_enable_tmds` (lines 1198-1203). -/
def mxc_hdmi_phy_enable_tmds (E : Env) (enable : Nat) (io : hdmi_regs) : hdmi_regs :=
  hdmi_mask_writeb enable .HDMI_PHY_CONF0 E.HDMI_PHY_CONF0_ENTMDS_OFFSET
    E.HDMI_PHY_CONF0_ENTMDS_MASK io

/-- The function `mxc_hdmi_phy_gen2_pddq` (lines 1205-1210). -/
def mxc_hdmi_phy_gen2_pddq (E : Env) (enable : Nat) (io : hdmi_regs) : hdmi_regs :=
  hdmi_mask_writeb enable .HDMI_PHY_CONF0 E.HDMI_PHY_CONF0_GEN2_PDDQ_OFFSET
    E.HDMI_PHY_CONF0_GEN2_PDDQ_MASK io

/-- The function `mxc_hdmi_phy_gen2_txpwron` (lines 1212-1217). -/
def mxc_hdmi_phy_gen2_txpwron (E : Env) (enable : Nat) (io : hdmi_regs) : hdmi_regs :=
  hdmi_mask_writeb enable .HDMI_PHY_CONF0 E.HDMI_PHY_CONF0_GEN2_TXPWRON_OFFSET
    E.HDMI_PHY_CONF0_GEN2_TXPWRON_MASK io

/-- The function `mxc_hdmi_phy_sel_data_en_pol` (lines 1228-1233). -/
def mxc_hdmi_phy_sel_data_en_pol (E : Env) (enable : Nat) (io : hdmi_regs) : hdmi_regs :=
  hdmi_mask_writeb enable .HDMI_PHY_CONF0 E.HDMI_PHY_CONF0_SELDATAENPOL_OFFSET
    E.HDMI_PHY_CONF0_SELDATAENPOL_MASK io

/-- The function `mxc_hdmi_phy_sel_interface_control` (lines 1235-1240). -/
def mxc_hdmi_phy_sel_interface_control (E : Env) (enable : Nat) (io : hdmi_regs) :
    hdmi_regs :=
  hdmi_mask_writeb enable .HDMI_PHY_CONF0 E.HDMI_PHY_CONF0_SELDIPIF_OFFSET
    E.HDMI_PHY_CONF0_SELDIPIF_MASK io

/-- Lines 1290-1356 of `hdmi_phy_configure`: the PLL/MPLL configuration word
(PHY register 0x06) and the GMPCTRL word (0x15), by pixel clock bracket and
colour resolution. The first component is `false` when the block executes
`return false`. In the brackets above 45.25 MHz the case for 12 bits has no
`break` and runs on into `default`. -/
def phy_configure_mpll (E : Env) (hw : hdmi_hw) (mPixelClock cRes : Nat) (io : hdmi_regs) :
    Bool × hdmi_regs :=
  if mPixelClock ≤ 45250000 then
    if cRes = 8 then
      -- PLL/MPLL Cfg
      let io := hdmi_phy_i2c_write E hw 0x01e0 0x06 io
      (true, hdmi_phy_i2c_write E hw 0x0000 0x15 io) -- GMPCTRL
    else if cRes = 10 then
      let io := hdmi_phy_i2c_write E hw 0x21e1 0x06 io
      (true, hdmi_phy_i2c_write E hw 0x0000 0x15 io)
    else if cRes = 12 then
      let io := hdmi_phy_i2c_write E hw 0x41e2 0x06 io
      (true, hdmi_phy_i2c_write E hw 0x0000 0x15 io)
    else (false, io)
  else if mPixelClock ≤ 92500000 then
    if cRes = 8 then
      let io := hdmi_phy_i2c_write E hw 0x0140 0x06 io
      (true, hdmi_phy_i2c_write E hw 0x0005 0x15 io)
    else if cRes = 10 then
      let io := hdmi_phy_i2c_write E hw 0x2141 0x06 io
      (true, hdmi_phy_i2c_write E hw 0x0005 0x15 io)
    else if cRes = 12 then
      let io := hdmi_phy_i2c_write E hw 0x4142 0x06 io
      (false, hdmi_phy_i2c_write E hw 0x0005 0x15 io)
    else (false, io)
  else if mPixelClock ≤ 148500000 then
    if cRes = 8 then
      let io := hdmi_phy_i2c_write E hw 0x00a0 0x06 io
      (true, hdmi_phy_i2c_write E hw 0x000a 0x15 io)
    else if cRes = 10 then
      let io := hdmi_phy_i2c_write E hw 0x20a1 0x06 io
      (true, hdmi_phy_i2c_write E hw 0x000a 0x15 io)
    else if cRes = 12 then
      let io := hdmi_phy_i2c_write E hw 0x40a2 0x06 io
      (false, hdmi_phy_i2c_write E hw 0x000a 0x15 io)
    else (false, io)
  else
    if cRes = 8 then
      let io := hdmi_phy_i2c_write E hw 0x00a0 0x06 io
      (true, hdmi_phy_i2c_write E hw 0x000a 0x15 io)
    else if cRes = 10 then
      let io := hdmi_phy_i2c_write E hw 0x2001 0x06 io
      (true, hdmi_phy_i2c_write E hw 0x000f 0x15 io)
    else if cRes = 12 then
      let io := hdmi_phy_i2c_write E hw 0x4002 0x06 io
      (false, hdmi_phy_i2c_write E hw 0x000f 0x15 io)
    else (false, io)

/-- One `switch (cRes)` of lines 1358-1441: write the current-control word
(PHY register 0x10, CURRCTRL) chosen for 8, 10 or 12 bits; any other
resolution executes `return false`. -/
def phy_currctrl_switch (E : Env) (hw : hdmi_hw) (cRes w8 w10 w12 : Nat) (io : hdmi_regs) :
    Bool × hdmi_regs :=
  if cRes = 8 then (true, hdmi_phy_i2c_write E hw w8 0x10 io)
  else if cRes = 10 then (true, hdmi_phy_i2c_write E hw w10 0x10 io)
  else if cRes = 12 then (true, hdmi_phy_i2c_write E hw w12 0x10 io)
  else (false, io)

/-- Lines 1358-1447 of `hdmi_phy_configure`: the current-control word by
pixel clock bracket and colour resolution; a pixel clock above 216 MHz
executes `return false`. -/
def phy_configure_currctrl (E : Env) (hw : hdmi_hw) (mPixelClock cRes : Nat)
    (io : hdmi_regs) : Bool × hdmi_regs :=
  if mPixelClock ≤ 54000000 then phy_currctrl_switch E hw cRes 0x091c 0x091c 0x06dc io
  else if mPixelClock ≤ 58400000 then phy_currctrl_switch E hw cRes 0x091c 0x06dc 0x06dc io
  else if mPixelClock ≤ 72000000 then phy_currctrl_switch E hw cRes 0x06dc 0x06dc 0x091c io
  else if mPixelClock ≤ 74250000 then phy_currctrl_switch E hw cRes 0x06dc 0x0b5c 0x091c io
  else if mPixelClock ≤ 118800000 then phy_currctrl_switch E hw cRes 0x091c 0x091c 0x06dc io
  else if mPixelClock ≤ 216000000 then phy_currctrl_switch E hw cRes 0x06dc 0x0b5c 0x091c io
  else (false, io)

/-- The loop of lines 1491-1498 of `hdmi_phy_configure`, entered with the
masked lock status `val` and the counter `msec`: `true` once the PHY reports
lock. -/
def phy_wait_lock_loop (E : Env) (hw : hdmi_hw) : Nat → Nat → hdmi_regs → Bool × hdmi_regs
  | msec, val, io =>
    if val ≠ 0 then (true, io)
    else
      match msec with
      | 0 => (false, io)
      | msec + 1 =>
        let r := hdmi_readb hw .HDMI_PHY_STAT0 io
        phy_wait_lock_loop E hw msec ((r.1 &&& E.HDMI_PHY_TX_PHY_LOCK) % 256) r.2

/-- Lines 1449-1500 of `hdmi_phy_configure`: the fixed PHY words, the board
values of `hdmi->phy_config`, power-up, and the wait for the PLL lock. -/
def phy_configure_finish (E : Env) (hw : hdmi_hw) (hdmi : mxc_hdmi) (io : hdmi_regs) :
    Bool × hdmi_regs :=
  let io := hdmi_phy_i2c_write E hw 0x0000 0x13 io -- PLLPHBYCTRL
  let io := hdmi_phy_i2c_write E hw 0x0006 0x17 io
  -- RESISTANCE TERM 133Ohm Cfg
  let io := hdmi_phy_i2c_write E hw 0x0005 0x19 io -- TXTERM
  -- PREEMP Cgf 0.00
  let io := hdmi_phy_i2c_write E hw 0x800d 0x09 io -- CKSYMTXCTRL
  -- TX/CK LVL 10
  let io := hdmi_phy_i2c_write E hw 0x01ad 0x0E io -- VLEVCTRL
  -- Board specific setting for PHY register 0x09, 0x0e to pass HCT
  let io := if hdmi.phy_config.reg_cksymtx ≠ 0 then
    hdmi_phy_i2c_write E hw hdmi.phy_config.reg_cksymtx 0x09 io else io
  let io := if 0 ≤ hdmi.phy_config.reg_vlev ∧ hdmi.phy_config.reg_vlev ≤ 1023 then
    hdmi_phy_i2c_write E hw hdmi.phy_config.reg_vlev 0x0E io else io
  -- TXTERM
  let io := if 0 ≤ hdmi.phy_config.reg_txterm ∧ hdmi.phy_config.reg_txterm ≤ 7 then
    hdmi_phy_i2c_write E hw hdmi.phy_config.reg_txterm 0x19 io else io
  -- REMOVE CLK TERM
  let io := hdmi_phy_i2c_write E hw 0x8000 0x05 io -- CKCALCTRL
  let io := if hdmi.hdmi_data.video_mode.mPixelClock > 148500000 then
    hdmi_phy_i2c_write E hw 0x0129 0x0E (hdmi_phy_i2c_write E hw 0x800b 0x09 io) else io
  let io := mxc_hdmi_phy_enable_power E 1 io
  -- toggle TMDS enable
  let io := mxc_hdmi_phy_enable_tmds E 0 io
  let io := mxc_hdmi_phy_enable_tmds E 1 io
  -- gen2 tx power on
  let io := mxc_hdmi_phy_gen2_txpwron E 1 io
  let io := mxc_hdmi_phy_gen2_pddq E 0 io
  -- Wait for PHY PLL lock
  let r := hdmi_readb hw .HDMI_PHY_STAT0 io
  phy_wait_lock_loop E hw 4 ((r.1 &&& E.HDMI_PHY_TX_PHY_LOCK) % 256) r.2

/-- Lines 1259-1282 of `hdmi_phy_configure`: select the flow through or past
the colour space converter, power the transmitter down, reset the PHY and name
its I2C slave address. -/
def phy_configure_start (E : Env) (hw : hdmi_hw) (cscOn : Int) (io : hdmi_regs) : hdmi_regs :=
  -- Enable csc path
  let val := if cscOn ≠ 0 then E.HDMI_MC_FLOWCTRL_FEED_THROUGH_OFF_CSC_IN_PATH
    else E.HDMI_MC_FLOWCTRL_FEED_THROUGH_OFF_CSC_BYPASS
  let io := hdmi_writeb (val % 256) .HDMI_MC_FLOWCTRL io
  -- gen2 tx power off
  let io := mxc_hdmi_phy_gen2_txpwron E 0 io
  -- gen2 pddq
  let io := mxc_hdmi_phy_gen2_pddq E 1 io
  -- PHY reset
  let io := hdmi_writeb E.HDMI_MC_PHYRSTZ_DEASSERT .HDMI_MC_PHYRSTZ io
  let io := hdmi_writeb E.HDMI_MC_PHYRSTZ_ASSERT .HDMI_MC_PHYRSTZ io
  let io := hdmi_writeb E.HDMI_MC_HEACPHY_RST_ASSERT .HDMI_MC_HEACPHY_RST io
  let io := hdmi_phy_test_clear E hw 1 io
  let io := hdmi_writeb E.HDMI_PHY_I2CM_SLAVE_ADDR_PHY_GEN2 .HDMI_PHY_I2CM_SLAVE_ADDR io
  hdmi_phy_test_clear E hw 0 io

/-- The function `hdmi_phy_configure` (lines 1242-1501). The result is the
return value (`true` or `false`, as the source writes them) and the register
side after the call. `pRep` and `cRes` are `unsigned char`, `cscOn` is an
`int`; `mPixelClock` is unsigned, so the test of line 1284 never holds. -/
def hdmi_phy_configure (E : Env) (hw : hdmi_hw) (hdmi : mxc_hdmi) (pRep cRes : Nat)
    (cscOn : Int) (io : hdmi_regs) : Bool × hdmi_regs :=
  -- color resolution 0 is 8 bit colour depth
  let cRes := if cRes = 0 then 8 else cRes
  if pRep ≠ 0 then (false, io)
  else if cRes ≠ 8 ∧ cRes ≠ 12 then (false, io)
  else
    let io := phy_configure_start E hw cscOn io
    if hdmi.hdmi_data.video_mode.mPixelClock < 0 then (false, io)
    else
      let r := phy_configure_mpll E hw hdmi.hdmi_data.video_mode.mPixelClock cRes io
      if r.1 = false then (false, r.2)
      else
        let r := phy_configure_currctrl E hw hdmi.hdmi_data.video_mode.mPixelClock cRes r.2
        if r.1 = false then (false, r.2)
        else phy_configure_finish E hw hdmi r.2

/-- The function `mxc_hdmi_phy_init` (lines 1503-1535). -/
def mxc_hdmi_phy_init (E : Env) (hw : hdmi_hw) (hdmi : mxc_hdmi) (io : hdmi_regs) :
    mxc_hdmi × hdmi_regs :=
  -- Never do phy init if pixel clock is gated.
  if hdmi.fb_reg = false ∨ hdmi.hp_state = .HDMI_HOTPLUG_DISCONNECTED ∨
      hdmi.blank ≠ E.FB_BLANK_UNBLANK then (hdmi, io)
  else
    -- check csc whether needed activated in HDMI mode
    let cscon : Bool := isColorSpaceConversion E hdmi &&
      decide (hdmi.hp_state = .HDMI_HOTPLUG_CONNECTED_HDMI)
    -- HDMI Phy spec says to do the phy initialization sequence twice
    let io := (List.range 2).foldl
      (fun io _ =>
        let io := mxc_hdmi_phy_sel_data_en_pol E 1 io
        let io := mxc_hdmi_phy_sel_interface_control E 0 io
        let io := mxc_hdmi_phy_enable_tmds E 0 io
        let io := mxc_hdmi_phy_enable_power E 0 io
        -- Enable CSC
        (hdmi_phy_configure E hw hdmi 0 8 (if cscon then 1 else 0) io).2)
      io
    ({ hdmi with phy_enabled := true }, io)

/-! ## The hardware set-up -/

/-- The function `hdmi_enable_overflow_interrupts` (lines 2083-2088). -/
def hdmi_enable_overflow_interrupts (io : hdmi_regs) : hdmi_regs :=
  let io := hdmi_writeb 0 .HDMI_FC_MASK2 io
  hdmi_writeb 0 .HDMI_IH_MUTE_FC_STAT2 io

/-- The function `hdmi_disable_overflow_interrupts` (lines 2090-2096). -/
def hdmi_disable_overflow_interrupts (E : Env) (io : hdmi_regs) : hdmi_regs :=
  let io := hdmi_writeb E.HDMI_IH_MUTE_FC_STAT2_OVERFLOW_MASK .HDMI_IH_MUTE_FC_STAT2 io
  hdmi_writeb 0x7f .HDMI_FC_MASK2 io

/-- The function `hdmi_av_composer` (lines 1736-1833): the stores to
`hdmi->hdmi_data.video_mode` (lines 1748-1751); the frame-composer registers
it programs are one entry of the write log. -/
def hdmi_av_composer (E : Env) (hdmi : mxc_hdmi) (io : hdmi_regs) : mxc_hdmi × hdmi_regs :=
  let fb_mode := E.fb_var_to_videomode hdmi.fbi.var
  let vmode : hdmi_vmode := { hdmi.hdmi_data.video_mode with
    mHSyncPolarity := decide (fb_mode.sync &&& E.FB_SYNC_HOR_HIGH_ACT ≠ 0)
    mVSyncPolarity := decide (fb_mode.sync &&& E.FB_SYNC_VERT_HIGH_ACT ≠ 0)
    mInterlaced := decide (fb_mode.vmode &&& E.FB_VMODE_INTERLACED ≠ 0)
    mPixelClock := (E.mxcPICOS2KHZ fb_mode.pixclock fb_mode.vmode * 1000) % 2 ^ 32 }
  ({ hdmi with hdmi_data := { hdmi.hdmi_data with video_mode := vmode } },
    programmed .hdmi_av_composer io)

/-- Lines 2718-2799 of `mxc_hdmi_setup`: everything after `hdmi->vic` is
known. -/
def mxc_hdmi_setup_configure (E : Env) (hw : hdmi_hw) (hdmi : mxc_hdmi) (io : hdmi_regs) :
    mxc_hdmi × hdmi_regs :=
  let io := hdmi_disable_overflow_interrupts E io
  let io :=
    if hdmi.hp_state = .HDMI_HOTPLUG_CONNECTED_HDMI ∨
        hdmi.hp_state = .HDMI_HOTPLUG_CONNECTED_NO_EDID then
      programmed (.hdmi_set_dvi_mode 0) io
    else programmed (.hdmi_set_dvi_mode 1) io
  let colorimetry :=
    if hdmi.vic = 6 ∨ hdmi.vic = 7 ∨ hdmi.vic = 21 ∨ hdmi.vic = 22 ∨
        hdmi.vic = 2 ∨ hdmi.vic = 3 ∨ hdmi.vic = 17 ∨ hdmi.vic = 18 then eITU601
    else eITU709
  let mPixelRepetitionOutput :=
    if hdmi.vic = 10 ∨ hdmi.vic = 11 ∨ hdmi.vic = 12 ∨ hdmi.vic = 13 ∨
        hdmi.vic = 14 ∨ hdmi.vic = 15 ∨ hdmi.vic = 25 ∨ hdmi.vic = 26 ∨
        hdmi.vic = 27 ∨ hdmi.vic = 28 ∨ hdmi.vic = 29 ∨ hdmi.vic = 30 ∨
        hdmi.vic = 35 ∨ hdmi.vic = 36 ∨ hdmi.vic = 37 ∨ hdmi.vic = 38 then 1
    else 0
  -- YCbCr only enabled in HDMI mode
  let enc_out_format :=
    if hdmi.hp_state = .HDMI_HOTPLUG_CONNECTED_HDMI ∧ hdmi.hdmi_data.rgb_out_enable = 0 then
      if hdmi.edid_cfg.cea_ycbcr444 then YCBCR444
      else if hdmi.edid_cfg.cea_ycbcr422 then YCBCR422_8BITS
      else RGB
    else RGB
  let hdmi := { hdmi with hdmi_data := { hdmi.hdmi_data with
    colorimetry := colorimetry
    enc_in_format := RGB
    enc_out_format := enc_out_format
    -- IPU not support depth color output
    enc_color_depth := 8
    pix_repet_factor := 0
    video_mode := { hdmi.hdmi_data.video_mode with
      mPixelRepetitionOutput := mPixelRepetitionOutput
      mPixelRepetitionInput := 0
      mDataEnablePolarity := true } } }
  -- HDMI Initialization Step B.1
  let r := hdmi_av_composer E hdmi io
  -- HDMI Initializateion Step B.2
  let r := mxc_hdmi_phy_init E hw r.1 r.2
  let hdmi := r.1
  -- HDMI Initialization Step B.3
  let io := programmed .mxc_hdmi_enable_video_path r.2
  -- not for DVI mode
  let io :=
    if hdmi.hp_state = .HDMI_HOTPLUG_CONNECTED_HDMI then
      programmed .hdmi_config_AVI (programmed .hdmi_enable_audio_clk io)
    else io
  let io := programmed .hdmi_video_packetize io
  let io := hdmi_video_csc E hw hdmi io
  let io := programmed .hdmi_video_sample io
  let io := programmed .mxc_hdmi_clear_overflow io
  let io :=
    if hdmi.hp_state = .HDMI_HOTPLUG_CONNECTED_HDMI then hdmi_enable_overflow_interrupts io
    else io
  (hdmi, io)

/-- Lines 2698-2716 of `mxc_hdmi_setup`: `hdmi->vic` and `fbi->mode` follow
the entry of the mode list nearest to the current `var`, unless the VGA
timing is being requested for initialisation or the list is empty. The source
hands the result of the search to `mxc_edid_mode_to_vic` unchecked; `none`
stands for the run in which that result is the null pointer. -/
def mxc_hdmi_setup_vic (E : Env) (hdmi : mxc_hdmi) : Option mxc_hdmi :=
  let m := E.fb_var_to_videomode hdmi.fbi.var
  let hdmi := { hdmi with vic := 0 }
  if hdmi.requesting_vga_for_initialization = false then
    -- Save mode if this isn't the result of requesting vga default.
    let hdmi := { hdmi with previous_non_vga_mode := hdmi.fbi.var }
    if hdmi.fbi.modelist ≠ [] then
      match E.mxc_fb_find_nearest_mode m hdmi.fbi.modelist false with
      | none => none
      | some edid_mode =>
        -- update fbi mode
        some { hdmi with
          fbi := { hdmi.fbi with mode := some edid_mode }
          vic := (E.mxc_edid_mode_to_vic edid_mode 0 : Nat) }
    else some hdmi
  else some hdmi

/-- The function `mxc_hdmi_setup` (lines 2691-2801); the argument `event` is
not used by the source. -/
def mxc_hdmi_setup (E : Env) (hw : hdmi_hw) (hdmi : mxc_hdmi) (_event : Nat)
    (io : hdmi_regs) : Option (mxc_hdmi × hdmi_regs) :=
  match mxc_hdmi_setup_vic E hdmi with
  | none => none
  | some hdmi => some (mxc_hdmi_setup_configure E hw hdmi io)

/-! ## The EDID reader of the HDCP path -/

/-- The loop of `hdmi_edid_wait_i2c_done` (lines 1152-1161), entered with the
masked status `val` and `msec` polls left: `true` once the status is not 0,
`false` when the budget is used up. -/
def edid_wait_i2c_loop (hw : hdmi_hw) : Nat → Nat → hdmi_regs → Bool × hdmi_regs
  | msec, val, io =>
    if val ≠ 0 then (true, io)
    else
      match msec with
      | 0 => (false, io)
      | msec + 1 =>
        let r := hdmi_readb hw .HDMI_IH_I2CM_STAT0 io
        edid_wait_i2c_loop hw msec ((r.1 &&& 0x2) % 256) r.2

/-- The function `hdmi_edid_wait_i2c_done` (lines 1148-1163). The delays are
not modelled. -/
def hdmi_edid_wait_i2c_done (hw : hdmi_hw) (msec : Nat) (io : hdmi_regs) : Bool × hdmi_regs :=
  let r := hdmi_readb hw .HDMI_IH_I2CM_STAT0 io
  edid_wait_i2c_loop hw msec ((r.1 &&& 0x2) % 256) r.2

/-- The function `hdmi_edid_i2c_read` (lines 1165-1186): read the byte at
`addr` of the EDID block `blockno` through the I2C master. The result of the
wait is dropped, as in the source. -/
def hdmi_edid_i2c_read (E : Env) (hw : hdmi_hw) (addr blockno : Nat) (io : hdmi_regs) :
    Nat × hdmi_regs :=
  let spointer := (blockno % 256) / 2
  let edidaddress := (((blockno % 256) % 2) * 0x80 + addr % 256) % 256
  let io := hdmi_writeb 0xFF .HDMI_IH_I2CM_STAT0 io
  let io := hdmi_writeb edidaddress .HDMI_I2CM_ADDRESS io
  let io := hdmi_writeb spointer .HDMI_I2CM_SEGADDR io
  let io :=
    if spointer = 0 then hdmi_writeb E.HDMI_I2CM_OPERATION_READ .HDMI_I2CM_OPERATION io
    else hdmi_writeb E.HDMI_I2CM_OPERATION_READ_EXT .HDMI_I2CM_OPERATION io
  let io := (hdmi_edid_wait_i2c_done hw 30 io).2
  let r := hdmi_readb hw .HDMI_I2CM_DATAI io
  let data := r.1 % 256
  let io := hdmi_writeb 0xFF .HDMI_IH_I2CM_STAT0 r.2
  (data, io)

/-- Store `bytes` into the byte buffer `buf` from the offset `off` on. -/
def buf_store (buf : List Nat) (off : Nat) (bytes : List Nat) : List Nat :=
  buf.take off ++ bytes ++ buf.drop (off + bytes.length)

/-- The loops of lines 1883-1886 and 1894-1897: the 128 bytes of the block
`blockno`, read one by one. -/
def edid_read_block (E : Env) (hw : hdmi_hw) (blockno : Nat) (io : hdmi_regs) :
    List Nat × hdmi_regs :=
  (List.range 128).foldl
    (fun acc i =>
      let r := hdmi_edid_i2c_read E hw i blockno acc.2
      (acc.1 ++ [r.1], r.2))
    ([], io)

/-- Lines 1849-1898 of `mxc_edid_read_internal`: set up the I2C master, clear
the buffer and the capability record, check the first three bytes of the
head, read block 0 and block 1 into the buffer. The first component is
`false` when the head check fails (line 1880); the second is `extblknum`,
taken from byte 0x7E before block 1 is stored. The three reads of the head
check are made in turn and stop at the first mismatch. -/
def edid_fetch (E : Env) (hw : hdmi_hw) (hdmi : mxc_hdmi) (io : hdmi_regs) :
    Bool × Nat × mxc_hdmi × hdmi_regs :=
  -- init HDMI I2CM for read edid
  let io := hdmi_writeb 0x0 .HDMI_I2CM_DIV io
  let io := hdmi_writeb 0x00 .HDMI_I2CM_SS_SCL_HCNT_1_ADDR io
  let io := hdmi_writeb 0x79 .HDMI_I2CM_SS_SCL_HCNT_0_ADDR io
  let io := hdmi_writeb 0x00 .HDMI_I2CM_SS_SCL_LCNT_1_ADDR io
  let io := hdmi_writeb 0x91 .HDMI_I2CM_SS_SCL_LCNT_0_ADDR io
  let io := hdmi_writeb 0x00 .HDMI_I2CM_FS_SCL_HCNT_1_ADDR io
  let io := hdmi_writeb 0x0F .HDMI_I2CM_FS_SCL_HCNT_0_ADDR io
  let io := hdmi_writeb 0x00 .HDMI_I2CM_FS_SCL_LCNT_1_ADDR io
  let io := hdmi_writeb 0x21 .HDMI_I2CM_FS_SCL_LCNT_0_ADDR io
  let io := hdmi_writeb 0x50 .HDMI_I2CM_SLAVE io
  let io := hdmi_writeb 0x30 .HDMI_I2CM_SEGADDR io
  -- Umask edid interrupt
  let io := hdmi_writeb E.HDMI_I2CM_INT_DONE_POL .HDMI_I2CM_INT io
  let io := hdmi_writeb ((E.HDMI_I2CM_CTLINT_NAC_POL ||| E.HDMI_I2CM_CTLINT_ARBITRATION_POL) % 256)
    .HDMI_I2CM_CTLINT io
  -- reset edid data zero
  let hdmi := { hdmi with
    edid := buf_store hdmi.edid 0 (List.replicate (E.EDID_LENGTH * 4) 0)
    edid_cfg := {} }
  -- Check first three byte of EDID head
  let r0 := hdmi_edid_i2c_read E hw 0 0 io
  if r0.1 ≠ 0x00 then (false, 0, hdmi, r0.2)
  else
    let r1 := hdmi_edid_i2c_read E hw 1 0 r0.2
    if r1.1 ≠ 0xFF then (false, 0, hdmi, r1.2)
    else
      let r2 := hdmi_edid_i2c_read E hw 2 0 r1.2
      if r2.1 ≠ 0xFF then (false, 0, hdmi, r2.2)
      else
        let b0 := edid_read_block E hw 0 r2.2
        let hdmi := { hdmi with edid := buf_store hdmi.edid 0 b0.1 }
        let extblknum := hdmi.edid.getD 0x7E 0
        let b1 := edid_read_block E hw 1 b0.2
        let hdmi := { hdmi with edid := buf_store hdmi.edid E.EDID_LENGTH b1.1 }
        (true, extblknum, hdmi, b1.2)

/-- The loop of lines 1917-1926 over the segment blocks `j`. Each of the 128
bytes read for a block is stored to `tmpedid[1]` (line 1919); the parser is
then handed `tmpedid + EDID_LENGTH`, which lies past the end of the local
array `tmpedid[EDID_LENGTH]`: what it finds there is not decided by this
function and is the parameter `beyond` (by `j`). The first component is
`false` at the `return -ENOENT` of line 1925. -/
def edid_read_segments (E : Env) (hw : hdmi_hw) (beyond : Nat → List Nat) :
    List Nat → mxc_edid_cfg × fb_monspecs × hdmi_regs →
      Bool × mxc_edid_cfg × fb_monspecs × hdmi_regs
  | [], s => (true, s)
  | j :: js, s =>
    let b := edid_read_block E hw j s.2.2
    -- edid ext block parsing
    let p := E.mxc_edid_parse_ext_blk (beyond j) s.1 s.2.1
    if p.1 < 0 then (false, p.2.1, p.2.2, b.2)
    else edid_read_segments E hw beyond js (p.2.1, p.2.2, b.2)

/-- Lines 1914-1929 of `mxc_edid_read_internal`: the segment blocks, read
only when more than one extension is announced. -/
def edid_parse_tail (E : Env) (hw : hdmi_hw) (beyond : Nat → List Nat) (extblknum : Nat)
    (hdmi : mxc_hdmi) (io : hdmi_regs) : Int × mxc_hdmi × hdmi_regs :=
  -- need read segment block?
  if extblknum > 1 then
    let s := edid_read_segments E hw beyond (List.range' 1 extblknum)
      (hdmi.edid_cfg, hdmi.fbi.monspecs, io)
    let hdmi := { hdmi with edid_cfg := s.2.1, fbi := { hdmi.fbi with monspecs := s.2.2.1 } }
    if s.1 = false then (-(E.ENOENT : Int), hdmi, s.2.2.2) else (0, hdmi, s.2.2.2)
  else (0, hdmi, io)

/-- Lines 1900-1929 of `mxc_edid_read_internal`: parse the base block and the
first extension block, then the further blocks. `cfg` of the source is
`&hdmi->edid_cfg` (line 1961), so the store of line 1909 goes to the record
the parser has just filled. -/
def edid_parse_blocks (E : Env) (hw : hdmi_hw) (beyond : Nat → List Nat) (extblknum : Nat)
    (hdmi : mxc_hdmi) (io : hdmi_regs) : Int × mxc_hdmi × hdmi_regs :=
  -- edid first block parsing
  let specs := E.fb_edid_to_monspecs hdmi.edid
  let p := E.mxc_edid_parse_ext_blk (hdmi.edid.drop E.EDID_LENGTH) hdmi.edid_cfg specs
  let hdmi := { hdmi with edid_cfg := p.2.1, fbi := { hdmi.fbi with monspecs := p.2.2 } }
  if p.1 < 0 then
    let hdmi := { hdmi with fbi := { hdmi.fbi with
      monspecs := E.fb_edid_add_monspecs (hdmi.edid.drop E.EDID_LENGTH) hdmi.fbi.monspecs } }
    if hdmi.fbi.monspecs.modedb.length > 0 then
      edid_parse_tail E hw beyond extblknum
        { hdmi with edid_cfg := { hdmi.edid_cfg with hdmi_cap := false } } io
    else (-(E.ENOENT : Int), hdmi, io)
  else edid_parse_tail E hw beyond extblknum hdmi io

/-- The function `mxc_edid_read_internal` (lines 1835-1930), called at line
1960 with `edid = hdmi->edid`, `cfg = &hdmi->edid_cfg` and `fbi = hdmi->fbi`,
none of which is null there. The result is the return value, the device
state and the register side. `extblknum` is read from an `unsigned char`, so
the test `extblknum < 0` of line 1890 never holds. -/
def mxc_edid_read_internal (E : Env) (hw : hdmi_hw) (beyond : Nat → List Nat)
    (hdmi : mxc_hdmi) (io : hdmi_regs) : Int × mxc_hdmi × hdmi_regs :=
  let f := edid_fetch E hw hdmi io
  if f.1 = false then (-(E.ENOENT : Int), f.2.2.1, f.2.2.2)
  else edid_parse_blocks E hw beyond f.2.1 f.2.2.1 f.2.2.2

/-! ## The hotplug worker -/

/-- The function `mxc_hdmi_phy_disable` (lines 1993-2013). -/
def mxc_hdmi_phy_disable (E : Env) (hdmi : mxc_hdmi) (io : hdmi_regs) : mxc_hdmi × hdmi_regs :=
  if !hdmi.phy_enabled then (hdmi, io)
  else
    let io := hdmi_disable_overflow_interrupts E io
    -- Setting PHY to reset status
    let io := hdmi_writeb E.HDMI_MC_PHYRSTZ_DEASSERT .HDMI_MC_PHYRSTZ io
    -- Power down PHY
    let io := mxc_hdmi_phy_enable_tmds E 0 io
    let io := mxc_hdmi_phy_enable_power E 0 io
    let io := mxc_hdmi_phy_gen2_txpwron E 0 io
    let io := mxc_hdmi_phy_gen2_pddq E 1 io
    ({ hdmi with phy_enabled := false }, io)

/-- A call of `schedule_work(&hdmi->hdmi_connected)`: the work item is
queued; when it is queued already, nothing changes. -/
def schedule_work (hdmi : mxc_hdmi) : mxc_hdmi :=
  { hdmi with hdmi_connected := true }

/-- The function `mxc_hdmi_edid_from_file` (lines 2463-2472), the callback of
`request_firmware_nowait`; `fw` tells whether a firmware image is handed
over. -/
def mxc_hdmi_edid_from_file (fw : Bool) (hdmi : mxc_hdmi) : mxc_hdmi :=
  schedule_work { hdmi with edid_cfg := { hdmi.edid_cfg with ext_edid := fw } }

/-- The function `mxc_hdmi_cable_connected` (lines 2474-2490). -/
def mxc_hdmi_cable_connected (hdmi : mxc_hdmi) : mxc_hdmi :=
  let has_ext_edid : Bool := decide (hdmi.hdmi_data.edid_filename ≠ "")
  let hdmi := { hdmi with hp_state := .HDMI_HOTPLUG_CONNECTED_NO_EDID }
  let hdmi := if has_ext_edid then emit hdmi .request_firmware_nowait else hdmi
  if !has_ext_edid || !hdmi.dft_mode_set then schedule_work hdmi else hdmi

/-- The function `mxc_hdmi_cable_disconnected` (lines 2512-2535). The call
`fb_blank(hdmi->fbi, FB_BLANK_POWERDOWN)` is a trace event; the notifier it
runs (lines 2867-2920) stores neither to `hp_state` nor to the work item. -/
def mxc_hdmi_cable_disconnected (E : Env) (hw : hdmi_hw) (hdmi : mxc_hdmi) (io : hdmi_regs) :
    mxc_hdmi × hdmi_regs :=
  -- Save CEC clock
  let r := hdmi_readb hw .HDMI_MC_CLKDIS io
  let clkdis := ((r.1 % 256) &&& E.HDMI_MC_CLKDIS_CECCLK_DISABLE) % 256
  let clkdis := (clkdis ||| not32 E.HDMI_MC_CLKDIS_CECCLK_DISABLE) % 256
  -- Disable All HDMI clock
  let io := hdmi_writeb 0x7f .HDMI_MC_CLKDIS r.2
  let d := mxc_hdmi_phy_disable E hdmi io
  let hdmi := d.1
  let io := hdmi_disable_overflow_interrupts E d.2
  let io := hdmi_writeb clkdis .HDMI_MC_CLKDIS io
  let hdmi := emit hdmi .fb_blank_powerdown
  ({ hdmi with hp_state := .HDMI_HOTPLUG_DISCONNECTED }, io)

/-- The function `hotplug_worker` (lines 2537-2600). The uevents, the stream
abort and the cable state report are trace events; `mxc_hdmi_clear_overflow`
is one entry of the write log. -/
def hotplug_worker (E : Env) (hw : hdmi_hw) (hdmi : mxc_hdmi) (io : hdmi_regs) :
    mxc_hdmi × hdmi_regs :=
  let r := hdmi_readb hw .HDMI_PHY_STAT0 io
  let r := hdmi_readb hw .HDMI_PHY_POL0 r.2
  let hdmi_phy_pol0 := r.1 % 256
  -- Make HPD intr active low to capture unplug event or
  -- active high to capture plugin event
  let io := hdmi_writeb ((hdmi.plug_mask &&& not32 hdmi_phy_pol0) % 256) .HDMI_PHY_POL0 r.2
  -- cable connection changes
  let s : mxc_hdmi × hdmi_regs :=
    if hdmi_phy_pol0 &&& hdmi.plug_mask ≠ 0 then
      -- Plugin event
      let hdmi := mxc_hdmi_cable_connected hdmi
      (emit hdmi (.kobject_uevent true), io)
    else
      -- Plugout event
      let hdmi := emit hdmi .mxc_hdmi_abort_stream
      let hdmi := emit hdmi (.hdmi_set_cable_state 0)
      let d := mxc_hdmi_cable_disconnected E hw hdmi io
      (emit d.1 (.kobject_uevent false), d.2)
  let hdmi := s.1
  -- Re-enable HPD interrupts
  let r := hdmi_readb hw .HDMI_PHY_MASK0 s.2
  let hdmi_phy_mask0 := (r.1 % 256) &&& not32 hdmi.plug_mask
  let io := hdmi_writeb (hdmi_phy_mask0 % 256) .HDMI_PHY_MASK0 r.2
  -- Unmute interrupts
  let io := hdmi_writeb (not32 hdmi.plug_event % 256) .HDMI_IH_MUTE_PHY_STAT0 io
  let r := hdmi_readb hw .HDMI_IH_FC_STAT2 io
  let io :=
    if (r.1 % 256) &&& E.HDMI_IH_FC_STAT2_OVERFLOW_MASK ≠ 0 then
      programmed .mxc_hdmi_clear_overflow r.2
    else r.2
  (hdmi, io)

/-! ### Auxiliary definitions for the statements about mode application and the PHY -/

/-- The native 1920x1080 entry `m` as the builder lists it: `m` itself when
it carries an aspect tag, else `m` tagged 16:9 (lines 2236-2241; 1920 and 1080
are multiples of 8, so lines 2243-2244 change nothing). -/
def native_listed (E : Env) (m : fb_videomode) : fb_videomode :=
  { m with vmode := if m.vmode &&& E.FB_VMODE_ASPECT_MASK = 0 then
      m.vmode ||| E.FB_VMODE_ASPECT_16_9 else m.vmode }

/-- The timing that `mxc_hdmi_set_mode` asks for (lines 2348-2356): the
default mode on the first call, the last mode that was not the VGA timing
afterwards. -/
def set_mode_request (E : Env) (hdmi : mxc_hdmi) : fb_videomode :=
  E.fb_var_to_videomode
    (if !hdmi.dft_mode_set then E.fb_videomode_to_var {} hdmi.default_mode
      else hdmi.previous_non_vga_mode)

/-- The events of `mxc_hdmi_notify_fb` when the current `var` is `var`: the
PHY is disabled if it was enabled, and `var` goes to `fb_set_var` with
`FB_ACTIVATE_FORCE` set. -/
def notify_events (E : Env) (hdmi : mxc_hdmi) (var : fb_var_screeninfo) : List hdmi_event :=
  (if hdmi.phy_enabled then [hdmi_event.mxc_hdmi_phy_disable] else []) ++
    [.fb_set_var { var with activate := var.activate ||| E.FB_ACTIVATE_FORCE }]

/-- The five `hdmi_writeb` calls that `hdmi_phy_i2c_write` makes to send the
word `data` to the PHY register `addr`. -/
def phy_i2c_frame (E : Env) (data addr : Nat) : List reg_write :=
  [ .hdmi_writeb 0xFF .HDMI_IH_I2CMPHY_STAT0,
    .hdmi_writeb addr .HDMI_PHY_I2CM_ADDRESS_ADDR,
    .hdmi_writeb ((data >>> 8) % 256) .HDMI_PHY_I2CM_DATAO_1_ADDR,
    .hdmi_writeb (data % 256) .HDMI_PHY_I2CM_DATAO_0_ADDR,
    .hdmi_writeb E.HDMI_PHY_I2CM_OPERATION_ADDR_WRITE .HDMI_PHY_I2CM_OPERATION_ADDR ]

/-- One turn of the loop of `mxc_hdmi_phy_init` (lines 1525-1531): the value
that `hdmi_phy_configure` returns, which the source drops, and the register
side after the turn. -/
def phy_init_round (E : Env) (hw : hdmi_hw) (hdmi : mxc_hdmi) (io : hdmi_regs) :
    Bool × hdmi_regs :=
  let cscon : Bool := isColorSpaceConversion E hdmi &&
    decide (hdmi.hp_state = .HDMI_HOTPLUG_CONNECTED_HDMI)
  let io := mxc_hdmi_phy_sel_data_en_pol E 1 io
  let io := mxc_hdmi_phy_sel_interface_control E 0 io
  let io := mxc_hdmi_phy_enable_tmds E 0 io
  let io := mxc_hdmi_phy_enable_power E 0 io
  hdmi_phy_configure E hw hdmi 0 8 (if cscon then 1 else 0) io

/-- The words sent to the PHY over I2C, read off a write log: for every
group of writes to the address register and the two data registers, the PHY
register address and the 16-bit word, oldest first. -/
def phy_i2c_words : List reg_write → List (Nat × Nat)
  | [] => []
  | .hdmi_writeb addr .HDMI_PHY_I2CM_ADDRESS_ADDR ::
      .hdmi_writeb hi .HDMI_PHY_I2CM_DATAO_1_ADDR ::
      .hdmi_writeb lo .HDMI_PHY_I2CM_DATAO_0_ADDR :: rest =>
    (addr, hi * 256 + lo) :: phy_i2c_words rest
  | _ :: rest => phy_i2c_words rest

/-- The last word sent to the PHY register `addr` in a write log. -/
def phy_last_word (addr : Nat) (log : List reg_write) : Option Nat :=
  (((phy_i2c_words log).filter (fun w => w.1 == addr)).getLast?).map (fun w => w.2)

/-- The test `hdmi_3d_mask_all & (1 << (nvic-1))` of line 2265 is evaluated in
the iteration `it` of the loop body: the entry is appended (line 2246), 3D
generation is on and the sink has 3D support (line 2254), and
`hdmi_3d_multi_present == 2`. -/
def mask_test_evaluated (E : Env) (hdmi : mxc_hdmi) (it : Nat × fb_videomode × rebuild_state) :
    Prop :=
  rebuild_accepts E hdmi it.1 it.2.1 it.2.2 ∧ hdmi.hdmi_data.enable_3d ≠ 0 ∧
    hdmi.edid_cfg.hdmi_3d_present ≠ 0 ∧ hdmi.edid_cfg.hdmi_3d_multi_present = 2

instance (E : Env) (hdmi : mxc_hdmi) (it : Nat × fb_videomode × rebuild_state) :
    Decidable (mask_test_evaluated E hdmi it) := by
  unfold mask_test_evaluated
  infer_instance

/-- The shift count `nvic - 1` of line 2265 in the iteration `it`. -/
def mask_shift (E : Env) (it : Nat × fb_videomode × rebuild_state) : Int :=
  rebuild_nvic E it.2.1 it.2.2 - 1

/-- What `mxc_edid_read_internal`, called at line 1960 on the device `hdmi`,
leaves behind, in the form `mxc_hdmi_read_edid` takes it. -/
def internal_reply (E : Env) (hw : hdmi_hw) (beyond : Nat → List Nat) (hdmi : mxc_hdmi)
    (io : hdmi_regs) : edid_reply :=
  let r := mxc_edid_read_internal E hw beyond hdmi io
  { ret := r.1, edid := r.2.1.edid, cfg := r.2.1.edid_cfg,
    modedb := r.2.1.fbi.monspecs.modedb }

/-- The value returned by the call of `mxc_edid_parse_ext_blk` at line 1904,
made on the device state `hdmi` that `edid_fetch` leaves. -/
def ext_parse_ret (E : Env) (hdmi : mxc_hdmi) : Int :=
  (E.mxc_edid_parse_ext_blk (hdmi.edid.drop E.EDID_LENGTH) hdmi.edid_cfg
    (E.fb_edid_to_monspecs hdmi.edid)).1

/-- The timings recovered when the parse of line 1904 fails: the timing
database after `fb_edid_add_monspecs` (line 1907). -/
def ext_timings (E : Env) (hdmi : mxc_hdmi) : List fb_videomode :=
  (E.fb_edid_add_monspecs (hdmi.edid.drop E.EDID_LENGTH)
    (E.mxc_edid_parse_ext_blk (hdmi.edid.drop E.EDID_LENGTH) hdmi.edid_cfg
      (E.fb_edid_to_monspecs hdmi.edid)).2.2).modedb

/-- The hotplug worker takes its plug-in branch (line 2558): the polarity
register, read second, has a bit of `plug_mask` set. -/
def plug_asserted (hw : hdmi_hw) (hdmi : mxc_hdmi) (io : hdmi_regs) : Prop :=
  ((hdmi_readb hw .HDMI_PHY_POL0 (hdmi_readb hw .HDMI_PHY_STAT0 io).2).1 % 256) &&&
    hdmi.plug_mask ≠ 0

instance (hw : hdmi_hw) (hdmi : mxc_hdmi) (io : hdmi_regs) :
    Decidable (plug_asserted hw hdmi io) := by
  unfold plug_asserted
  infer_instance

/-- The work queue runs the item `hdmi_connected`: the pending bit is cleared
and `mxc_hdmi_cable_connected_worker` is called; `first` and `retry` are what
the EDID reader does in that run. -/
def run_hdmi_connected (E : Env) (ignore_edid hdcp_init : Bool) (first retry : edid_reply)
    (hdmi : mxc_hdmi) : mxc_hdmi :=
  mxc_hdmi_cable_connected_worker E ignore_edid hdcp_init first retry
    { hdmi with hdmi_connected := false }

/-- A step of the link state machine, from the device state and register side
`s` to `t`: either the hotplug worker runs, or the work queue runs the
cable-connected worker, which it does only when the work item is queued. -/
def link_step (E : Env) (hw : hdmi_hw) (ignore_edid hdcp_init : Bool)
    (s t : mxc_hdmi × hdmi_regs) : Prop :=
  t = hotplug_worker E hw s.1 s.2 ∨
  (s.1.hdmi_connected = true ∧
    ∃ first retry : edid_reply,
      t = (run_hdmi_connected E ignore_edid hdcp_init first retry s.1, s.2))

/-! ## A concrete environment

The theorems below hold for every `Env`. To evaluate the definitions on
concrete inputs one environment is fixed here: the flag values of
`linux/fb.h` (the bits this tree adds for aspect ratio, 3D layout and
fractional refresh placed on distinct bits inside `FB_VMODE_MASK`), values for
the constants of the register header, a few rows of the CEA-861 timing table,
and simple stand-ins for the helper functions. -/

/-- One row of the CEA timing table: progressive, 16:9, both syncs active
high. -/
def cea_row (refresh xres yres pixclock left right upper lower hsync vsync : Nat) :
    fb_videomode where
  refresh := refresh
  xres := xres
  yres := yres
  pixclock := pixclock
  left_margin := left
  right_margin := right
  upper_margin := upper
  lower_margin := lower
  hsync_len := hsync
  vsync_len := vsync
  sync := 3
  vmode := 0x20
  flag := 0

/-- Rows 1, 4, 16, 19 and 32 of the CEA timing table; every other row is
empty (`xres = 0`). -/
def ref_cea_mode (vic : Nat) : fb_videomode :=
  match vic with
  | 1 => { cea_row 60 640 480 39722 48 16 33 10 96 2 with sync := 0, vmode := 0x10 }
  | 4 => cea_row 60 1280 720 13468 220 110 20 5 40 5
  | 16 => cea_row 60 1920 1080 6734 148 88 36 4 44 5
  | 19 => cea_row 50 1280 720 13468 220 440 20 5 40 5
  | 32 => cea_row 24 1920 1080 13468 148 638 36 4 44 5
  | _ => ⟨0, 0, 0, 0, 0, 0, 0, 0, 0, 0, 0, 0, 0⟩

/-- A stand-in for `mxc_edid_mode_to_vic`: the first VIC among the rows above
whose resolution, refresh and interlace bit are those of `mode`, else 0. -/
def ref_mode_to_vic (mode : fb_videomode) (_arg : Nat) : Nat :=
  ([1, 4, 16, 19, 32].find? (fun v =>
    (ref_cea_mode v).xres == mode.xres && (ref_cea_mode v).yres == mode.yres &&
    (ref_cea_mode v).refresh == mode.refresh &&
    (ref_cea_mode v).vmode &&& 1 == mode.vmode &&& 1)).getD 0

/-- A stand-in for `fb_var_to_videomode`: copy the timing fields, flag the
mode as made from a `var` (`FB_MODE_IS_FROM_VAR = 32`), and compute the
refresh rate from the pixel clock and the totals as the framebuffer core
does. -/
def ref_var_to_videomode (var : fb_var_screeninfo) : fb_videomode :=
  let htotal := var.xres + var.right_margin + var.hsync_len + var.left_margin
  let vtotal := var.yres + var.lower_margin + var.vsync_len + var.upper_margin
  let vtotal := if var.vmode &&& 1 ≠ 0 then vtotal / 2 else vtotal
  let vtotal := if var.vmode &&& 2 ≠ 0 then vtotal * 2 else vtotal
  let pixclock := (1000000000 / var.pixclock) * 1000
  { refresh := if var.pixclock = 0 then 0 else pixclock / htotal / vtotal
    xres := var.xres
    yres := var.yres
    pixclock := var.pixclock
    left_margin := var.left_margin
    right_margin := var.right_margin
    upper_margin := var.upper_margin
    lower_margin := var.lower_margin
    hsync_len := var.hsync_len
    vsync_len := var.vsync_len
    sync := var.sync
    vmode := var.vmode &&& 0xFFFF
    flag := 32 }

/-- A stand-in for `fb_videomode_to_var`: copy the timing fields into `var`. -/
def ref_videomode_to_var (var : fb_var_screeninfo) (mode : fb_videomode) :
    fb_var_screeninfo :=
  { var with
    xres := mode.xres
    yres := mode.yres
    xres_virtual := mode.xres
    yres_virtual := mode.yres
    pixclock := mode.pixclock
    left_margin := mode.left_margin
    right_margin := mode.right_margin
    upper_margin := mode.upper_margin
    lower_margin := mode.lower_margin
    hsync_len := mode.hsync_len
    vsync_len := mode.vsync_len
    sync := mode.sync
    vmode := mode.vmode &&& 0xFFFF }

/-- A stand-in for `mxc_edid_fb_mode_is_equal`: same resolution, refresh and
masked vmode. -/
def ref_mode_is_equal (_use_aspect : Bool) (a b : fb_videomode) (mask : Nat) : Bool :=
  a.xres == b.xres && a.yres == b.yres && a.refresh == b.refresh &&
    a.vmode &&& mask == b.vmode &&& mask

/-- A stand-in for `mxc_fb_find_nearest_mode`: the first entry equal to the
request, else the first entry of the list. -/
def ref_find_nearest_mode (mode : fb_videomode) (head : List fb_videomode)
    (_relax : Bool) : Option fb_videomode :=
  match head.find? (fun m => ref_mode_is_equal true mode m U32_MAX) with
  | some m => some m
  | none => head.head?

/-- A stand-in for the macro `mxcPICOS2KHZ`: `10^9 / pixclock`, lowered by
one part in a thousand for a fractional timing; 0 for a pixel period of 0. -/
def ref_picos2khz (pixclock vmode : Nat) : Nat :=
  if pixclock = 0 then 0
  else if vmode &&& 0x1000 ≠ 0 then 1000000000 / pixclock * 1000 / 1001
  else 1000000000 / pixclock

/-- A stand-in for `fb_edid_to_monspecs`: the timing database holds the
640x480 at 60 Hz timing when bit 5 of the established-timings byte 35 is set,
and nothing otherwise. -/
def ref_edid_to_monspecs (edid : List Nat) : fb_monspecs :=
  { modedb := if edid.getD 35 0 &&& 0x20 ≠ 0 then [{ ref_cea_mode 1 with flag := 4 }] else [] }

/-- A stand-in for `fb_edid_add_monspecs`: an extension block that does not
carry the CEA tag adds nothing; a CEA block adds nothing either, its timings
being taken by `ref_parse_ext_blk`. -/
def ref_edid_add_monspecs (_edid : List Nat) (specs : fb_monspecs) : fb_monspecs := specs

/-- A stand-in for `mxc_edid_parse_ext_blk`: a block whose tag (byte 0) is not
the CEA tag 0x02 is refused with -1; a CEA block marks the sink as HDMI and
adds 1280x720 at 60 Hz. -/
def ref_parse_ext_blk (edid : List Nat) (cfg : mxc_edid_cfg) (specs : fb_monspecs) :
    Int × mxc_edid_cfg × fb_monspecs :=
  if edid.getD 0 0 ≠ 0x02 then (-1, cfg, specs)
  else (0, { cfg with hdmi_cap := true },
    { specs with modedb := specs.modedb ++ [{ ref_cea_mode 4 with flag := 0 }] })

/-- The concrete environment. -/
def refEnv : Env where
  FB_VMODE_NONINTERLACED := 0
  FB_VMODE_MASK := 0xFFFF
  FB_VMODE_ASPECT_MASK := 0x70
  FB_VMODE_ASPECT_4_3 := 0x10
  FB_VMODE_ASPECT_16_9 := 0x20
  FB_VMODE_FRACTIONAL := 0x1000
  FB_VMODE_3D_TOP_BOTTOM := 0x100
  FB_VMODE_3D_FRAME_PACK := 0x200
  FB_VMODE_3D_SBS_HALF := 0x400
  FB_VMODE_3D_SBS_FULL := 0x800
  FB_MODE_IS_DETAILED := 1
  FB_MODE_IS_STANDARD := 2
  FB_MODE_IS_VESA := 4
  FB_MODE_IS_FIRST := 16
  FB_MODE_IS_3D := 64
  FB_ACTIVATE_FORCE := 128
  FBINFO_MISC_USEREVENT := 0x10000
  HDMI_IH_PHY_STAT0_HPD := 0x1
  HDMI_DVI_IH_STAT := 0x4
  HDMI_PHY_HPD := 0x2
  HDMI_DVI_STAT := 0x10
  FB_VMODE_INTERLACED := 1
  FB_SYNC_HOR_HIGH_ACT := 1
  FB_SYNC_VERT_HIGH_ACT := 2
  FB_BLANK_UNBLANK := 0
  HDMI_FC_AVICONF2_RGB_QUANT_MASK := 0x0C
  HDMI_FC_AVICONF2_RGB_QUANT_DEFAULT := 0x00
  HDMI_FC_AVICONF2_RGB_QUANT_LIMITED_RANGE := 0x04
  HDMI_FC_AVICONF2_RGB_QUANT_FULL_RANGE := 0x08
  HDMI_CSC_SCALE_CSCSCALE_MASK := 0x03
  HDMI_CSC_SCALE_CSC_COLORDE_PTH_MASK := 0xF0
  HDMI_CSC_SCALE_CSC_COLORDE_PTH_24BPP := 0x00
  HDMI_CSC_SCALE_CSC_COLORDE_PTH_30BPP := 0x50
  HDMI_CSC_SCALE_CSC_COLORDE_PTH_36BPP := 0x60
  HDMI_CSC_SCALE_CSC_COLORDE_PTH_48BPP := 0x70
  HDMI_CSC_CFG_INTMODE_DISABLE := 0x00
  HDMI_CSC_CFG_INTMODE_CHROMA_INT_FORMULA1 := 0x10
  HDMI_CSC_CFG_DECMODE_DISABLE := 0x0
  HDMI_CSC_CFG_DECMODE_CHROMA_INT_FORMULA3 := 0x3
  HDMI_MC_FLOWCTRL_FEED_THROUGH_OFF_CSC_IN_PATH := 0x1
  HDMI_MC_FLOWCTRL_FEED_THROUGH_OFF_CSC_BYPASS := 0x0
  HDMI_MC_PHYRSTZ_DEASSERT := 0x0
  HDMI_MC_PHYRSTZ_ASSERT := 0x1
  HDMI_MC_HEACPHY_RST_ASSERT := 0x1
  HDMI_PHY_I2CM_SLAVE_ADDR_PHY_GEN2 := 0x69
  HDMI_PHY_I2CM_OPERATION_ADDR_WRITE := 0x10
  HDMI_PHY_TX_PHY_LOCK := 0x01
  HDMI_PHY_TST0_TSTCLR_MASK := 0x20
  HDMI_PHY_TST0_TSTCLR_OFFSET := 5
  HDMI_PHY_CONF0_PDZ_MASK := 0x80
  HDMI_PHY_CONF0_PDZ_OFFSET := 7
  HDMI_PHY_CONF0_ENTMDS_MASK := 0x40
  HDMI_PHY_CONF0_ENTMDS_OFFSET := 6
  HDMI_PHY_CONF0_GEN2_PDDQ_MASK := 0x10
  HDMI_PHY_CONF0_GEN2_PDDQ_OFFSET := 4
  HDMI_PHY_CONF0_GEN2_TXPWRON_MASK := 0x8
  HDMI_PHY_CONF0_GEN2_TXPWRON_OFFSET := 3
  HDMI_PHY_CONF0_SELDATAENPOL_MASK := 0x2
  HDMI_PHY_CONF0_SELDATAENPOL_OFFSET := 1
  HDMI_PHY_CONF0_SELDIPIF_MASK := 0x1
  HDMI_PHY_CONF0_SELDIPIF_OFFSET := 0
  HDMI_IH_MUTE_FC_STAT2_OVERFLOW_MASK := 0x03
  HDMI_IH_FC_STAT2_OVERFLOW_MASK := 0x03
  HDMI_MC_CLKDIS_CECCLK_DISABLE := 0x20
  HDMI_I2CM_INT_DONE_POL := 0x08
  HDMI_I2CM_CTLINT_NAC_POL := 0x80
  HDMI_I2CM_CTLINT_ARBITRATION_POL := 0x08
  HDMI_I2CM_OPERATION_READ := 0x01
  HDMI_I2CM_OPERATION_READ_EXT := 0x02
  EDID_LENGTH := 128
  ENOENT := 2
  mxcPICOS2KHZ := ref_picos2khz
  mxc_cea_mode := ref_cea_mode
  mxc_edid_mode_to_vic := ref_mode_to_vic
  fb_var_to_videomode := ref_var_to_videomode
  fb_videomode_to_var := ref_videomode_to_var
  mxc_fb_find_nearest_mode := ref_find_nearest_mode
  mxc_edid_fb_mode_is_equal := ref_mode_is_equal
  fb_edid_to_monspecs := ref_edid_to_monspecs
  fb_edid_add_monspecs := ref_edid_add_monspecs
  mxc_edid_parse_ext_blk := ref_parse_ext_blk

/-- A raw timing entry with the timing of CEA row `vic` and the given flag. -/
def raw_of_vic (vic flag : Nat) : fb_videomode :=
  { ref_cea_mode vic with flag := flag }

/-- A `var` holding the 1920x1080 at 60 Hz timing. -/
def var_1080p60 : fb_var_screeninfo :=
  ref_videomode_to_var {} (ref_cea_mode 16)

/-- An EDID image: a block of 512 bytes, all equal to `b`. -/
def edid_image (b : Nat) : List Nat := List.replicate 512 b

/-- A device that is registered, unblanked, showing 1080p60, holding the
EDID image `edid_image 1`, with fractional and 3D generation enabled (the
module defaults). -/
def dev0 : mxc_hdmi :=
  { fbi := { var := var_1080p60 }
    hdmi_data := { enable_3d := 1, enable_fract := 1 }
    edid := edid_image 1
    fb_reg := true
    hp_state := .HDMI_HOTPLUG_CONNECTED_NO_EDID
    dft_mode_set := true
    default_mode := ref_cea_mode 16
    previous_non_vga_mode := var_1080p60 }

/-- A read that succeeds with a new EDID image and no timing entry. -/
def reply_no_modes : edid_reply :=
  { ret := 0, edid := edid_image 2, cfg := { hdmi_cap := true }, modedb := [] }

/-- A read that succeeds and returns the image `edid_image 2` again. -/
def reply_again : edid_reply :=
  { ret := 0, edid := edid_image 2, cfg := { hdmi_cap := true },
    modedb := [raw_of_vic 16 16] }

/-- A read that fails and leaves the stored image and no timing entry. -/
def reply_fail : edid_reply :=
  { ret := -2, edid := edid_image 1, cfg := {}, modedb := [] }

/-- A read that succeeds and returns the stored image `edid_image 1`. -/
def reply_same : edid_reply :=
  { ret := 0, edid := edid_image 1, cfg := { hdmi_cap := true },
    modedb := [raw_of_vic 16 16] }

/-- A device like `dev0` with the capability record `cfg` and the raw timing
entries `modedb`. -/
def dev_with (cfg : mxc_edid_cfg) (modedb : List fb_videomode) : mxc_hdmi :=
  { dev0 with edid_cfg := cfg, fbi := { dev0.fbi with monspecs := { modedb := modedb } } }

/-- An HDMI sink with 3D support that declares top-and-bottom for all its
modes (`hdmi_3d_multi_present = 1`, bit 6 of `hdmi_3d_struct_all`). -/
def cfg_3d_tb : mxc_edid_cfg :=
  { hdmi_cap := true, hdmi_3d_present := 1, hdmi_3d_multi_present := 1,
    hdmi_3d_struct_all := 0x40 }

/-- A detailed 1280x720 at 60 Hz timing whose pixel clock period is one
picosecond off the canonical CEA timing of VIC 4. -/
def raw_720p_detailed : fb_videomode :=
  { raw_of_vic 4 17 with pixclock := 13469 }

/-- A device like `dev0` with both generation toggles switched off. -/
def dev_plain (cfg : mxc_edid_cfg) (modedb : List fb_videomode) : mxc_hdmi :=
  { dev_with cfg modedb with hdmi_data := {} }

/-- An HDMI sink that lists 1280x720 at 60 Hz (VIC 4) as its first timing and
supports 3D, with top-and-bottom declared for all its modes. -/
def dev_3d_720p : mxc_hdmi := dev_with cfg_3d_tb [raw_of_vic 4 16]

/-- An HDMI sink whose only timing is 1920x1080 at 60 Hz, listed first. -/
def dev_1080p : mxc_hdmi := dev_with { hdmi_cap := true } [raw_of_vic 16 16]

/-- A detailed timing that is the canonical 1920x1080 at 60 Hz timing except
for its width, 1924, which the builder aligns down to 1920. -/
def raw_1924 : fb_videomode := { raw_of_vic 16 1 with xres := 1924 }

/-- A detailed timing whose width is 5. -/
def raw_width_5 : fb_videomode := { raw_of_vic 1 1 with xres := 5 }

/-- A raw 1920x1080 at 60 Hz entry, a detailed timing flagged first, that
carries no aspect tag. -/
def raw_1080p_untagged : fb_videomode := { raw_of_vic 16 17 with vmode := 0 }

/-- A device like `dev0` whose mode list holds 1280x720 at 60 Hz alone, while
the mode last applied is 1920x1080 at 60 Hz. -/
def dev_list_720p : mxc_hdmi :=
  { dev0 with fbi := { dev0.fbi with modelist := [ref_cea_mode 4] } }

/-- Hardware that answers every register read with all bits set: each I2C
transfer is reported done and the PHY reports lock at the first poll. -/
def hw_ready : hdmi_hw := fun _ _ => 0xFF

/-- The device `dev0` with `mPixelClock` set to `clock` (in Hz). -/
def dev_clock (clock : Nat) : mxc_hdmi :=
  { dev0 with hdmi_data := { dev0.hdmi_data with video_mode := { mPixelClock := clock } } }

/-- A device for the colour-space statements: `dev0` with the given encodings,
colorimetry, range policy and VIC, and a sink that declares the range
selectable or not. -/
def dev_csc (enc_in enc_out colorimetry policy : Nat) (vic : Int) (selectable : Bool) :
    mxc_hdmi :=
  { dev0 with
    hdmi_data := { dev0.hdmi_data with
      enc_in_format := enc_in, enc_out_format := enc_out, colorimetry := colorimetry,
      rgb_quant_range := policy }
    vic := vic
    edid_cfg := { cea_rgb_range_selectable := selectable } }

/-- Hardware whose PHY never reports lock (`HDMI_PHY_STAT0` reads 0), while
every other register reads all ones: every I2C transfer is reported done at
the first poll. -/
def hw_no_lock : hdmi_hw := fun reg _ =>
  if reg = .HDMI_PHY_STAT0 then 0 else 0xFF

/-- Hardware whose PHY I2C master never reports a transfer done
(`HDMI_IH_I2CMPHY_STAT0` reads 0), while every other register reads all
ones: the PHY reports lock. -/
def hw_i2c_dead : hdmi_hw := fun reg _ =>
  if reg = .HDMI_IH_I2CMPHY_STAT0 then 0 else 0xFF

/-- A sink with 3D support that declares its 3D structures through the
per-VIC mask (`hdmi_3d_multi_present = 2`). -/
def cfg_3d_mask : mxc_edid_cfg :=
  { hdmi_cap := true, hdmi_3d_present := 1, hdmi_3d_multi_present := 2,
    hdmi_3d_mask_all := 0xFFFF, hdmi_3d_struct_all := 0x1 }

/-- A sink that declares one 3D structure set for all its modes, given by
`struct_all`. -/
def cfg_3d_all (struct_all : Nat) : mxc_edid_cfg :=
  { hdmi_cap := true, hdmi_3d_present := 1, hdmi_3d_multi_present := 1,
    hdmi_3d_struct_all := struct_all }

/-- The EDID of a sink, two blocks of 128 bytes: the head 00 FF FF FF FF FF
FF 00, the established-timings byte 35 equal to `established`, one extension
announced in byte 0x7E, and an extension block whose tag is `tag`; every
other byte is 0. -/
def sink_edid (established tag : Nat) : List Nat :=
  (List.range 256).map (fun i =>
    if i = 0 ∨ i = 7 then 0
    else if i < 7 then 0xFF
    else if i = 35 then established
    else if i = 0x7E then 1
    else if i = 128 then tag
    else 0)

/-- Hardware with the sink `image` behind the I2C master: every transfer is
reported done at the first poll, so the reads of `HDMI_I2CM_DATAI` are the
reads number 1, 3, 5, ...; the first three return the bytes 0, 1, 2 of the
head check, the next 128 the block 0 and the next 128 the block 1. -/
def hw_sink (image : List Nat) : hdmi_hw := fun reg n =>
  if reg = .HDMI_I2CM_DATAI then
    (if n / 2 < 3 then image.getD (n / 2) 0 else image.getD (n / 2 - 3) 0)
  else 0xFF

/-- No bytes: what the parser is handed for a segment block in the
evaluations below, where no segment block is read. -/
def no_beyond : Nat → List Nat := fun _ => []

/-- The device as `mxc_hdmi_probe` and `mxc_hdmi_disp_init` leave it before
any cable is seen (lines 3189-3192): disconnected, with the DVI pair as plug
event and mask. -/
def dev_unplugged : mxc_hdmi :=
  { dev0 with
    hp_state := .HDMI_HOTPLUG_DISCONNECTED
    plug_event := refEnv.HDMI_DVI_IH_STAT
    plug_mask := refEnv.HDMI_DVI_STAT }

/-- Hardware on which the cable is plugged in and pulled out again: the
polarity register has the bit of `HDMI_DVI_STAT` set during the first run of
the hotplug worker (the reads number 0 to 3) and clear afterwards. -/
def hw_replug : hdmi_hw := fun reg n =>
  if reg = .HDMI_PHY_POL0 ∧ n < 4 then 0x10 else 0

/-- An `fb_add_videomode` that does not list a mode twice: a mode that is in
the list, equal in every field, is not added; any other mode is appended. -/
def fb_add_unique : fb_add_fn := fun mode head =>
  if mode ∈ head then (0, head) else (0, head ++ [mode])

/-! ## Theorems -/

/-! ### Frame lemmas for the worker -/

theorem emit_trace (hdmi : mxc_hdmi) (e : hdmi_event) :
    (emit hdmi e).trace = hdmi.trace ++ [e] := rfl

theorem emit_fbi (hdmi : mxc_hdmi) (e : hdmi_event) : (emit hdmi e).fbi = hdmi.fbi := rfl

theorem emit_edid_cfg (hdmi : mxc_hdmi) (e : hdmi_event) :
    (emit hdmi e).edid_cfg = hdmi.edid_cfg := rfl

theorem emit_hp_state (hdmi : mxc_hdmi) (e : hdmi_event) :
    (emit hdmi e).hp_state = hdmi.hp_state := rfl

theorem emit_plug_event (hdmi : mxc_hdmi) (e : hdmi_event) :
    (emit hdmi e).plug_event = hdmi.plug_event := rfl

theorem emit_plug_mask (hdmi : mxc_hdmi) (e : hdmi_event) :
    (emit hdmi e).plug_mask = hdmi.plug_mask := rfl

/-- The state after `mxc_hdmi_read_edid`, field by field. -/
theorem read_edid_state (hdcp_init : Bool) (r : edid_reply) (hdmi : mxc_hdmi) :
    (mxc_hdmi_read_edid hdcp_init r hdmi).2 =
      { hdmi with
        edid := r.edid
        edid_cfg := { r.cfg with
          hdmi_cap := if (!hdcp_init && decide (r.ret < 0) && decide (r.modedb.length > 0))
            then false else r.cfg.hdmi_cap
          ext_edid := false }
        fbi := { hdmi.fbi with monspecs := { modedb := r.modedb } }
        trace := hdmi.trace ++
          (if (hdcp_init && hdmi.hdmi_data.hdcp_enable != 0) then [.hdcp_clk true] else []) ++
          [.edid_read] ++
          (if (hdcp_init && hdmi.hdmi_data.hdcp_enable != 0) then [.hdcp_clk false] else []) ++
          (if r.cfg.ext_edid then [.release_firmware] else []) } := by
  obtain ⟨ret, edid, cfg, modedb⟩ := r
  obtain ⟨c1, c2, c3, c4, c5, c6, c7, c8, c9, c10, c11, ext⟩ := cfg
  unfold mxc_hdmi_read_edid
  cases hdcp_init <;> cases h1 : (hdmi.hdmi_data.hdcp_enable != 0) <;>
    cases h2 : decide (ret < 0) <;> cases h3 : decide (modedb.length > 0) <;>
    cases ext <;> simp [emit, h1, h2, h3]

/-- Reading the EDID leaves the mode list alone. -/
theorem read_edid_modelist (hdcp_init : Bool) (r : edid_reply) (hdmi : mxc_hdmi) :
    (mxc_hdmi_read_edid hdcp_init r hdmi).2.fbi.modelist = hdmi.fbi.modelist := by
  rw [read_edid_state]

/-- Reading the EDID leaves the current `var` alone. -/
theorem read_edid_var (hdcp_init : Bool) (r : edid_reply) (hdmi : mxc_hdmi) :
    (mxc_hdmi_read_edid hdcp_init r hdmi).2.fbi.var = hdmi.fbi.var := by
  rw [read_edid_state]

/-- What `mxc_hdmi_notify_fb` leaves alone: the mode list, the capability
record, the link state and the plug event and mask. -/
theorem notify_fb_frame (E : Env) (hdmi : mxc_hdmi) :
    (mxc_hdmi_notify_fb E hdmi).fbi.modelist = hdmi.fbi.modelist ∧
    (mxc_hdmi_notify_fb E hdmi).edid_cfg = hdmi.edid_cfg ∧
    (mxc_hdmi_notify_fb E hdmi).hp_state = hdmi.hp_state ∧
    (mxc_hdmi_notify_fb E hdmi).plug_event = hdmi.plug_event ∧
    (mxc_hdmi_notify_fb E hdmi).plug_mask = hdmi.plug_mask := by
  unfold mxc_hdmi_notify_fb
  cases hdmi.phy_enabled <;> simp [emit]

/-- What `mxc_hdmi_set_mode` leaves alone: the mode list, the capability
record, the link state and the plug event and mask. -/
theorem set_mode_frame (E : Env) (hdmi : mxc_hdmi) (edid_status : Int) :
    (mxc_hdmi_set_mode E hdmi edid_status).fbi.modelist = hdmi.fbi.modelist ∧
    (mxc_hdmi_set_mode E hdmi edid_status).edid_cfg = hdmi.edid_cfg ∧
    (mxc_hdmi_set_mode E hdmi edid_status).hp_state = hdmi.hp_state ∧
    (mxc_hdmi_set_mode E hdmi edid_status).plug_event = hdmi.plug_event ∧
    (mxc_hdmi_set_mode E hdmi edid_status).plug_mask = hdmi.plug_mask := by
  unfold mxc_hdmi_set_mode
  cases hd : hdmi.dft_mode_set <;> simp only [Bool.not_false, Bool.not_true, if_true,
    if_false, Bool.false_eq_true] <;> split <;>
    (try split_ifs) <;>
    simp [emit, hd, (notify_fb_frame E _).1, (notify_fb_frame E _).2.1,
      (notify_fb_frame E _).2.2.1, (notify_fb_frame E _).2.2.2.1,
      (notify_fb_frame E _).2.2.2.2]

/-- The mode list installed by `mxc_hdmi_default_modelist` depends on the
state only through the current `var`; the capability record is kept. -/
theorem default_modelist_frame (E : Env) (hdmi : mxc_hdmi) :
    (mxc_hdmi_default_modelist E hdmi).edid_cfg = hdmi.edid_cfg ∧
    (mxc_hdmi_default_modelist E hdmi).fbi.var = hdmi.fbi.var := by
  simp [mxc_hdmi_default_modelist, emit]

theorem default_modelist_congr (E : Env) (h1 h2 : mxc_hdmi) (hv : h1.fbi.var = h2.fbi.var) :
    (mxc_hdmi_default_modelist E h1).fbi.modelist =
      (mxc_hdmi_default_modelist E h2).fbi.modelist := by
  simp [mxc_hdmi_default_modelist, emit, hv]

/-- The rebuild keeps the capability record. -/
theorem rebuild_modelist_edid_cfg (E : Env) (hdmi : mxc_hdmi) :
    (mxc_hdmi_edid_rebuild_modelist E hdmi).edid_cfg = hdmi.edid_cfg := by
  simp [mxc_hdmi_edid_rebuild_modelist, emit]

/-- The worker's result, seen through the fields that `mxc_hdmi_set_mode` and
the trace do not touch. -/
theorem worker_fields (E : Env) (ignore_edid hdcp_init : Bool) (first retry : edid_reply)
    (hdmi : mxc_hdmi) :
    let r := worker_read_edid ignore_edid hdcp_init first retry hdmi
    let h := worker_switch E r.1 r.2
    let w := mxc_hdmi_cable_connected_worker E ignore_edid hdcp_init first retry hdmi
    w.fbi.modelist = h.fbi.modelist ∧ w.edid_cfg = h.edid_cfg ∧
    w.hp_state = (if h.edid_cfg.hdmi_cap then hotplug_state.HDMI_HOTPLUG_CONNECTED_HDMI
      else hotplug_state.HDMI_HOTPLUG_CONNECTED_DVI) ∧
    w.plug_event = (if h.edid_cfg.hdmi_cap then E.HDMI_IH_PHY_STAT0_HPD
      else E.HDMI_DVI_IH_STAT) ∧
    w.plug_mask = (if h.edid_cfg.hdmi_cap then E.HDMI_PHY_HPD else E.HDMI_DVI_STAT) := by
  intro r h w
  have hw : w = mxc_hdmi_set_mode E
      (emit (worker_set_hp_state E h) (.hdmi_set_edid_cfg r.1)) r.1 := rfl
  obtain ⟨f1, f2, f3, f4, f5⟩ := set_mode_frame E
    (emit (worker_set_hp_state E h) (.hdmi_set_edid_cfg r.1)) r.1
  rw [hw, f1, f2, f3, f4, f5]
  simp [emit, worker_set_hp_state]

/-- The trace after `mxc_hdmi_set_mode` extends the trace before it, and the
events it adds are neither EDID reads nor mode-list publications. -/
theorem set_mode_trace (E : Env) (hdmi : mxc_hdmi) (edid_status : Int) :
    ∃ t, (mxc_hdmi_set_mode E hdmi edid_status).trace = hdmi.trace ++ t ∧
      hdmi_event.fb_new_modelist ∉ t ∧ hdmi_event.edid_read ∉ t := by
  unfold mxc_hdmi_set_mode mxc_hdmi_notify_fb
  cases hd : hdmi.dft_mode_set <;> cases hp : hdmi.phy_enabled <;>
    simp only [Bool.not_false, Bool.not_true, if_true, if_false, Bool.false_eq_true] <;>
    split <;> (try split_ifs) <;> simp [emit, hd, hp]

/-- The first status and the state after the reads of `worker_read_edid` when
the EDID is not ignored. -/
theorem worker_read_edid_eq (hdcp_init : Bool) (first retry : edid_reply) (hdmi : mxc_hdmi) :
    worker_read_edid false hdcp_init first retry hdmi =
      if (mxc_hdmi_read_edid hdcp_init first hdmi).1 = HDMI_EDID_NO_MODES ∨
          (mxc_hdmi_read_edid hdcp_init first hdmi).1 = HDMI_EDID_FAIL then
        (if (mxc_hdmi_read_edid hdcp_init retry
              (emit (mxc_hdmi_read_edid hdcp_init first hdmi).2 (.msleep 200))).1 =
            HDMI_EDID_SAME then
          (mxc_hdmi_read_edid hdcp_init first hdmi).1
         else
          (mxc_hdmi_read_edid hdcp_init retry
              (emit (mxc_hdmi_read_edid hdcp_init first hdmi).2 (.msleep 200))).1,
         (mxc_hdmi_read_edid hdcp_init retry
              (emit (mxc_hdmi_read_edid hdcp_init first hdmi).2 (.msleep 200))).2)
      else mxc_hdmi_read_edid hdcp_init first hdmi := by
  unfold worker_read_edid
  by_cases h : (mxc_hdmi_read_edid hdcp_init first hdmi).1 = HDMI_EDID_NO_MODES ∨
      (mxc_hdmi_read_edid hdcp_init first hdmi).1 = HDMI_EDID_FAIL
  · by_cases h2 : (mxc_hdmi_read_edid hdcp_init retry
        (emit (mxc_hdmi_read_edid hdcp_init first hdmi).2 (.msleep 200))).1 = HDMI_EDID_SAME
    · simp [h, h2]
    · simp [h, h2]
  · simp [h]

/-- With `ignore_edid` set nothing is read and the status is
`HDMI_EDID_FAIL`. -/
theorem worker_read_edid_ignore (hdcp_init : Bool) (first retry : edid_reply)
    (hdmi : mxc_hdmi) :
    worker_read_edid true hdcp_init first retry hdmi = (HDMI_EDID_FAIL, hdmi) := by
  simp [worker_read_edid]

/-- The reads of `worker_read_edid` leave the mode list and the current
`var` alone. -/
theorem worker_read_edid_frame (ignore_edid hdcp_init : Bool) (first retry : edid_reply)
    (hdmi : mxc_hdmi) :
    (worker_read_edid ignore_edid hdcp_init first retry hdmi).2.fbi.modelist =
      hdmi.fbi.modelist ∧
    (worker_read_edid ignore_edid hdcp_init first retry hdmi).2.fbi.var = hdmi.fbi.var := by
  cases ignore_edid
  · rw [worker_read_edid_eq]
    split_ifs <;> simp [read_edid_modelist, read_edid_var, emit]
  · simp [worker_read_edid_ignore]

/-! ### C1 - C5: the cable-connected worker -/

/-- C1. EDID retry tie-break: with `ignore_edid` clear, when the first call of
`mxc_hdmi_read_edid` returns `HDMI_EDID_NO_MODES` and the retry returns
`HDMI_EDID_SAME`, the status the worker goes on with is `HDMI_EDID_NO_MODES`
and not `HDMI_EDID_SAME`: it is the status handed to `hdmi_set_edid_cfg`, and
the mode list after the worker is the default mode list. -/
theorem C1_retry_tie_break (E : Env) (hdcp_init : Bool) (first retry : edid_reply)
    (hdmi : mxc_hdmi)
    (h1 : (mxc_hdmi_read_edid hdcp_init first hdmi).1 = HDMI_EDID_NO_MODES)
    (h2 : (mxc_hdmi_read_edid hdcp_init retry
        (emit (mxc_hdmi_read_edid hdcp_init first hdmi).2 (.msleep 200))).1 =
          HDMI_EDID_SAME) :
    (worker_read_edid false hdcp_init first retry hdmi).1 = HDMI_EDID_NO_MODES ∧
    (worker_read_edid false hdcp_init first retry hdmi).1 ≠ HDMI_EDID_SAME ∧
    hdmi_event.hdmi_set_edid_cfg HDMI_EDID_NO_MODES ∈
      (mxc_hdmi_cable_connected_worker E false hdcp_init first retry hdmi).trace ∧
    (mxc_hdmi_cable_connected_worker E false hdcp_init first retry hdmi).fbi.modelist =
      (mxc_hdmi_default_modelist E hdmi).fbi.modelist := by
  have hs : (worker_read_edid false hdcp_init first retry hdmi).1 = HDMI_EDID_NO_MODES := by
    rw [worker_read_edid_eq]
    simp [h1, h2]
  refine ⟨hs, ?_, ?_, ?_⟩
  · rw [hs]; decide
  · obtain ⟨t, ht, -, -⟩ := set_mode_trace E
      (emit (worker_set_hp_state E (worker_switch E
        (worker_read_edid false hdcp_init first retry hdmi).1
        (worker_read_edid false hdcp_init first retry hdmi).2))
        (.hdmi_set_edid_cfg (worker_read_edid false hdcp_init first retry hdmi).1))
      (worker_read_edid false hdcp_init first retry hdmi).1
    have hw : (mxc_hdmi_cable_connected_worker E false hdcp_init first retry hdmi).trace =
        _ := ht
    rw [hw, hs]
    simp [emit]
  · rw [(worker_fields E false hdcp_init first retry hdmi).1, hs]
    have : worker_switch E HDMI_EDID_NO_MODES
        (worker_read_edid false hdcp_init first retry hdmi).2 =
        mxc_hdmi_default_modelist E (worker_read_edid false hdcp_init first retry hdmi).2 := by
      simp [worker_switch, HDMI_EDID_NO_MODES, HDMI_EDID_SUCCESS, HDMI_EDID_SAME,
        HDMI_EDID_FAIL]
    rw [this]
    exact default_modelist_congr E _ _
      (worker_read_edid_frame false hdcp_init first retry hdmi).2

set_option maxRecDepth 100000 in
/-- Witness of C1: a first read that finds a new EDID without timings, then a
retry that reads the same image again. -/
theorem C1_retry_tie_break_witness :
    (mxc_hdmi_read_edid false reply_no_modes dev0).1 = HDMI_EDID_NO_MODES ∧
    (mxc_hdmi_read_edid false reply_again
      (emit (mxc_hdmi_read_edid false reply_no_modes dev0).2 (.msleep 200))).1 =
        HDMI_EDID_SAME ∧
    (worker_read_edid false false reply_no_modes reply_again dev0).1 = HDMI_EDID_NO_MODES :=
  ⟨by decide, by decide,
    (C1_retry_tie_break refEnv false reply_no_modes reply_again dev0
      (by decide) (by decide)).1⟩

set_option maxRecDepth 100000 in
/-- C2, counterexample. The claim says that a first status
`HDMI_EDID_FAIL` followed by a retry status `HDMI_EDID_SAME` ends in
`HDMI_EDID_SAME`. On a device holding an EDID image, a first read that fails
and a retry that reads the stored image again end in `HDMI_EDID_FAIL`. -/
theorem C2_counterexample :
    (mxc_hdmi_read_edid false reply_fail dev0).1 = HDMI_EDID_FAIL ∧
    (mxc_hdmi_read_edid false reply_same
      (emit (mxc_hdmi_read_edid false reply_fail dev0).2 (.msleep 200))).1 =
        HDMI_EDID_SAME ∧
    (worker_read_edid false false reply_fail reply_same dev0).1 = HDMI_EDID_FAIL ∧
    (worker_read_edid false false reply_fail reply_same dev0).1 ≠ HDMI_EDID_SAME := by
  decide

/-- C2, amended. With `ignore_edid` clear and a first status of
`HDMI_EDID_FAIL` or `HDMI_EDID_NO_MODES`, exactly one retry is made (the state
is the one after the second read, and the trace holds two more EDID reads
than before); the final status is the retry status unless the retry reports
`HDMI_EDID_SAME`, in which case the first status is kept, for
`HDMI_EDID_FAIL` as for `HDMI_EDID_NO_MODES`. -/
theorem C2_retry_rule (hdcp_init : Bool) (first retry : edid_reply) (hdmi : mxc_hdmi)
    (h : (mxc_hdmi_read_edid hdcp_init first hdmi).1 = HDMI_EDID_NO_MODES ∨
      (mxc_hdmi_read_edid hdcp_init first hdmi).1 = HDMI_EDID_FAIL) :
    (worker_read_edid false hdcp_init first retry hdmi).1 =
      (if (mxc_hdmi_read_edid hdcp_init retry
            (emit (mxc_hdmi_read_edid hdcp_init first hdmi).2 (.msleep 200))).1 =
          HDMI_EDID_SAME
        then (mxc_hdmi_read_edid hdcp_init first hdmi).1
        else (mxc_hdmi_read_edid hdcp_init retry
            (emit (mxc_hdmi_read_edid hdcp_init first hdmi).2 (.msleep 200))).1) ∧
    (worker_read_edid false hdcp_init first retry hdmi).2 =
      (mxc_hdmi_read_edid hdcp_init retry
        (emit (mxc_hdmi_read_edid hdcp_init first hdmi).2 (.msleep 200))).2 ∧
    (worker_read_edid false hdcp_init first retry hdmi).2.trace.count .edid_read =
      hdmi.trace.count .edid_read + 2 := by
  rw [worker_read_edid_eq, if_pos h]
  refine ⟨rfl, rfl, ?_⟩
  simp only [read_edid_state, emit]
  cases (hdcp_init && hdmi.hdmi_data.hdcp_enable != 0) <;> cases first.cfg.ext_edid <;>
    cases retry.cfg.ext_edid <;> simp [List.count_append, List.count_cons, List.count_nil]

set_option maxRecDepth 100000 in
/-- Witness of the amended C2: a failed first read, then a retry that reads
the stored image again. -/
theorem C2_retry_rule_witness :
    ((mxc_hdmi_read_edid false reply_fail dev0).1 = HDMI_EDID_NO_MODES ∨
      (mxc_hdmi_read_edid false reply_fail dev0).1 = HDMI_EDID_FAIL) ∧
    (worker_read_edid false false reply_fail reply_same dev0).2.trace.count .edid_read =
      dev0.trace.count .edid_read + 2 :=
  ⟨by decide, (C2_retry_rule false reply_fail reply_same dev0 (by decide)).2.2⟩

/-- C3. For every EDID outcome, after `mxc_hdmi_cable_connected_worker` the
link state is `HDMI_HOTPLUG_CONNECTED_HDMI` exactly when `edid_cfg.hdmi_cap`
holds and `HDMI_HOTPLUG_CONNECTED_DVI` exactly when it does not; it is never
left at `HDMI_HOTPLUG_CONNECTED_NO_EDID` or `HDMI_HOTPLUG_DISCONNECTED`; and
`plug_event`, `plug_mask` are the HPD pair in the HDMI case and the DVI pair
otherwise. -/
theorem C3_link_state (E : Env) (ignore_edid hdcp_init : Bool) (first retry : edid_reply)
    (hdmi : mxc_hdmi) :
    ((mxc_hdmi_cable_connected_worker E ignore_edid hdcp_init first retry hdmi).hp_state =
        .HDMI_HOTPLUG_CONNECTED_HDMI ↔
      (mxc_hdmi_cable_connected_worker E ignore_edid hdcp_init first retry
        hdmi).edid_cfg.hdmi_cap = true) ∧
    ((mxc_hdmi_cable_connected_worker E ignore_edid hdcp_init first retry hdmi).hp_state =
        .HDMI_HOTPLUG_CONNECTED_DVI ↔
      (mxc_hdmi_cable_connected_worker E ignore_edid hdcp_init first retry
        hdmi).edid_cfg.hdmi_cap = false) ∧
    (mxc_hdmi_cable_connected_worker E ignore_edid hdcp_init first retry hdmi).hp_state ≠
      .HDMI_HOTPLUG_CONNECTED_NO_EDID ∧
    (mxc_hdmi_cable_connected_worker E ignore_edid hdcp_init first retry hdmi).hp_state ≠
      .HDMI_HOTPLUG_DISCONNECTED ∧
    (mxc_hdmi_cable_connected_worker E ignore_edid hdcp_init first retry hdmi).plug_event =
      (if (mxc_hdmi_cable_connected_worker E ignore_edid hdcp_init first retry
          hdmi).edid_cfg.hdmi_cap
        then E.HDMI_IH_PHY_STAT0_HPD else E.HDMI_DVI_IH_STAT) ∧
    (mxc_hdmi_cable_connected_worker E ignore_edid hdcp_init first retry hdmi).plug_mask =
      (if (mxc_hdmi_cable_connected_worker E ignore_edid hdcp_init first retry
          hdmi).edid_cfg.hdmi_cap
        then E.HDMI_PHY_HPD else E.HDMI_DVI_STAT) := by
  obtain ⟨-, f2, f3, f4, f5⟩ := worker_fields E ignore_edid hdcp_init first retry hdmi
  rw [f3, f4, f5, f2]
  cases (worker_switch E (worker_read_edid ignore_edid hdcp_init first retry hdmi).1
    (worker_read_edid ignore_edid hdcp_init first retry hdmi).2).edid_cfg.hdmi_cap <;> simp

/-- C4, counterexample. The claim says that a final status
`HDMI_EDID_FAIL` leaves `hdmi_cap` false and the link in
`HDMI_HOTPLUG_CONNECTED_DVI`. With `ignore_edid` set, on a device whose
capability record has `hdmi_cap` false, the worker ends with `hdmi_cap` true
and the link in `HDMI_HOTPLUG_CONNECTED_HDMI`. -/
theorem C4_counterexample :
    dev0.edid_cfg.hdmi_cap = false ∧
    (worker_read_edid true false reply_fail reply_fail dev0).1 = HDMI_EDID_FAIL ∧
    (mxc_hdmi_cable_connected_worker refEnv true false reply_fail reply_fail
      dev0).edid_cfg.hdmi_cap = true ∧
    (mxc_hdmi_cable_connected_worker refEnv true false reply_fail reply_fail
      dev0).hp_state = .HDMI_HOTPLUG_CONNECTED_HDMI := by
  refine ⟨rfl, rfl, ?_, ?_⟩
  · rw [(worker_fields refEnv true false reply_fail reply_fail dev0).2.1]
    rfl
  · rw [(worker_fields refEnv true false reply_fail reply_fail dev0).2.2.1]
    rfl

/-- C4, amended. When the final status is `HDMI_EDID_FAIL` (the `ignore_edid`
case included) the worker sets `hdmi_cap` to true, the default of
`mxc_hdmi_default_edid_cfg`, so the link state is
`HDMI_HOTPLUG_CONNECTED_HDMI`, and the mode list is replaced by the default
mode list. -/
theorem C4_fail_defaults (E : Env) (ignore_edid hdcp_init : Bool) (first retry : edid_reply)
    (hdmi : mxc_hdmi)
    (h : (worker_read_edid ignore_edid hdcp_init first retry hdmi).1 = HDMI_EDID_FAIL) :
    (mxc_hdmi_cable_connected_worker E ignore_edid hdcp_init first retry
      hdmi).edid_cfg.hdmi_cap = true ∧
    (mxc_hdmi_cable_connected_worker E ignore_edid hdcp_init first retry hdmi).hp_state =
      .HDMI_HOTPLUG_CONNECTED_HDMI ∧
    (mxc_hdmi_cable_connected_worker E ignore_edid hdcp_init first retry
      hdmi).fbi.modelist = (mxc_hdmi_default_modelist E hdmi).fbi.modelist := by
  obtain ⟨f1, f2, f3, -, -⟩ := worker_fields E ignore_edid hdcp_init first retry hdmi
  have hsw : worker_switch E (worker_read_edid ignore_edid hdcp_init first retry hdmi).1
      (worker_read_edid ignore_edid hdcp_init first retry hdmi).2 =
      mxc_hdmi_default_modelist E (mxc_hdmi_default_edid_cfg
        (worker_read_edid ignore_edid hdcp_init first retry hdmi).2) := by
    rw [h]
    simp [worker_switch, HDMI_EDID_NO_MODES, HDMI_EDID_SUCCESS, HDMI_EDID_SAME,
      HDMI_EDID_FAIL]
  have hcap : (worker_switch E (worker_read_edid ignore_edid hdcp_init first retry hdmi).1
      (worker_read_edid ignore_edid hdcp_init first retry hdmi).2).edid_cfg.hdmi_cap =
      true := by
    rw [hsw, (default_modelist_frame E _).1]
    rfl
  refine ⟨by rw [f2, hcap], by rw [f3, hcap]; rfl, ?_⟩
  rw [f1, hsw]
  apply default_modelist_congr
  exact (worker_read_edid_frame ignore_edid hdcp_init first retry hdmi).2

/-- Witness of the amended C4: the worker run with `ignore_edid` set. -/
theorem C4_fail_defaults_witness :
    (worker_read_edid true false reply_fail reply_fail dev0).1 = HDMI_EDID_FAIL ∧
    (mxc_hdmi_cable_connected_worker refEnv true false reply_fail reply_fail
      dev0).hp_state = .HDMI_HOTPLUG_CONNECTED_HDMI :=
  ⟨rfl, (C4_fail_defaults refEnv true false reply_fail reply_fail dev0 rfl).2.1⟩

/-- C5. When the final status is `HDMI_EDID_SAME` the worker neither rebuilds
the mode list nor installs the default list: the mode list after the worker
is the list before it, entry by entry, no mode list is published, and the
capability record is the one the read left, without the reset of
`mxc_hdmi_default_edid_cfg`. -/
theorem C5_same_keeps_modelist (E : Env) (ignore_edid hdcp_init : Bool)
    (first retry : edid_reply) (hdmi : mxc_hdmi)
    (h : (worker_read_edid ignore_edid hdcp_init first retry hdmi).1 = HDMI_EDID_SAME) :
    (mxc_hdmi_cable_connected_worker E ignore_edid hdcp_init first retry
      hdmi).fbi.modelist = hdmi.fbi.modelist ∧
    (mxc_hdmi_cable_connected_worker E ignore_edid hdcp_init first retry
      hdmi).edid_cfg =
      (worker_read_edid ignore_edid hdcp_init first retry hdmi).2.edid_cfg ∧
    (mxc_hdmi_cable_connected_worker E ignore_edid hdcp_init first retry
      hdmi).trace.count .fb_new_modelist = hdmi.trace.count .fb_new_modelist := by
  obtain ⟨f1, f2, -, -, -⟩ := worker_fields E ignore_edid hdcp_init first retry hdmi
  have hsw : worker_switch E (worker_read_edid ignore_edid hdcp_init first retry hdmi).1
      (worker_read_edid ignore_edid hdcp_init first retry hdmi).2 =
      (worker_read_edid ignore_edid hdcp_init first retry hdmi).2 := by
    rw [h]
    simp [worker_switch, HDMI_EDID_SUCCESS, HDMI_EDID_SAME]
  refine ⟨?_, ?_, ?_⟩
  · rw [f1, hsw]
    exact (worker_read_edid_frame ignore_edid hdcp_init first retry hdmi).1
  · rw [f2, hsw]
  · obtain ⟨t, ht, hn, -⟩ := set_mode_trace E
      (emit (worker_set_hp_state E (worker_switch E
        (worker_read_edid ignore_edid hdcp_init first retry hdmi).1
        (worker_read_edid ignore_edid hdcp_init first retry hdmi).2))
        (.hdmi_set_edid_cfg (worker_read_edid ignore_edid hdcp_init first retry hdmi).1))
      (worker_read_edid ignore_edid hdcp_init first retry hdmi).1
    have hw : (mxc_hdmi_cable_connected_worker E ignore_edid hdcp_init first retry
        hdmi).trace = _ := ht
    rw [hw, hsw]
    have hcnt : (worker_read_edid ignore_edid hdcp_init first retry hdmi).2.trace.count
        .fb_new_modelist = hdmi.trace.count .fb_new_modelist := by
      cases ignore_edid
      · rw [worker_read_edid_eq]
        split_ifs <;> simp only [read_edid_state, emit] <;>
          cases (hdcp_init && hdmi.hdmi_data.hdcp_enable != 0) <;>
          cases first.cfg.ext_edid <;> cases retry.cfg.ext_edid <;>
          simp [List.count_append, List.count_cons, List.count_nil]
      · rw [worker_read_edid_ignore]
    simp [emit, worker_set_hp_state, List.count_append, hcnt, List.count_eq_zero.mpr hn]

set_option maxRecDepth 100000 in
/-- Witness of C5: a read that returns the stored EDID image. -/
theorem C5_same_keeps_modelist_witness :
    (worker_read_edid false false reply_same reply_same dev0).1 = HDMI_EDID_SAME ∧
    (mxc_hdmi_cable_connected_worker refEnv false false reply_same reply_same
      dev0).fbi.modelist = dev0.fbi.modelist :=
  ⟨by decide,
    (C5_same_keeps_modelist refEnv false false reply_same reply_same dev0 (by decide)).1⟩

/-! ### The loop body and the passes of the mode-list builder -/

theorem add_videomode_eq (src : fb_videomode) (l : List fb_videomode) (f v : Nat) :
    mxc_fb_add_videomode src l f v = l ++ [{ src with flag := f, vmode := src.vmode ||| v }] :=
  rfl

/-- A fold whose step only appends to the list distributes over a prefix. -/
theorem foldl_append_hom {α β : Type} (step : List β → α → List β)
    (h : ∀ l x, step l x = l ++ step [] x) (xs : List α) (l : List β) :
    xs.foldl step l = l ++ xs.foldl step [] := by
  induction xs generalizing l with
  | nil => simp
  | cons x xs ih =>
    simp only [List.foldl_cons]
    rw [ih (step l x), ih (step [] x), h l x, List.append_assoc]

theorem mandatory_3d_hom (E : Env) (vic : Nat) (l : List fb_videomode) :
    rebuild_mandatory_3d E vic l = l ++ rebuild_mandatory_3d E vic [] := by
  unfold rebuild_mandatory_3d
  apply foldl_append_hom
  intro l x
  split_ifs <;> simp [add_videomode_eq]

theorem all_3d_hom (E : Env) (cfg : mxc_edid_cfg) (mode : fb_videomode) (nvic : Int)
    (l : List fb_videomode) :
    rebuild_all_3d E cfg mode nvic l = l ++ rebuild_all_3d E cfg mode nvic [] := by
  unfold rebuild_all_3d
  simp only [add_videomode_eq]
  split_ifs <;> simp

theorem format_3d_hom (E : Env) (cfg : mxc_edid_cfg) (mode : fb_videomode) (nvic : Int)
    (l : List fb_videomode) :
    rebuild_format_3d E cfg mode nvic l = l ++ rebuild_format_3d E cfg mode nvic [] := by
  unfold rebuild_format_3d
  apply foldl_append_hom
  intro l x
  simp only [add_videomode_eq]
  split_ifs <;> simp

/-- The list after the loop body: the entry and its variants are appended
when the body accepts the entry, and nothing is appended otherwise. -/
theorem rebuild_entry_modelist (E : Env) (hdmi : mxc_hdmi) (fmask : Nat)
    (mode : fb_videomode) (s : rebuild_state) :
    (rebuild_entry E hdmi fmask mode s).2.modelist =
      if rebuild_accepts E hdmi fmask mode s then
        s.modelist ++ rebuild_fixup E mode ::
          rebuild_appended E hdmi (rebuild_fixup E mode) (E.mxc_edid_mode_to_vic mode 0)
            (rebuild_nvic E mode s)
      else s.modelist := by
  have hn : (if E.mxc_edid_mode_to_vic mode 0 ≠ 0 then s.nvic + 1 else s.nvic) =
      rebuild_nvic E mode s := rfl
  unfold rebuild_entry
  simp only [hn]
  by_cases h1 : hdmi.edid_cfg.hdmi_cap = true ∧ fmask ≠ U32_MAX ∧ mode.flag &&& fmask = 0
  · have hacc : ¬ rebuild_accepts E hdmi fmask mode s := fun h => h.1 h1
    rw [if_pos h1, if_neg hacc]
  · rw [if_neg h1]
    by_cases h2 : hdmi.edid_cfg.hdmi_cap = true ∧
        ((¬ (mode.flag &&& E.FB_MODE_IS_DETAILED ≠ 0 ∨ mode.flag = 0) ∧
            E.mxc_edid_mode_to_vic mode 0 = 0) ∨
          mode.flag &&& E.FB_MODE_IS_VESA ≠ 0)
    · have hacc : ¬ rebuild_accepts E hdmi fmask mode s := fun h => h.2.1 h2
      rw [if_pos h2, if_neg hacc]
    · rw [if_neg h2]
      by_cases h3 : mode.xres = 0 ∨ mode.refresh = 0
      · have hacc : ¬ rebuild_accepts E hdmi fmask mode s := fun h => h.2.2.1 h3
        rw [if_pos h3, if_neg hacc]
      · rw [if_neg h3]
        by_cases h4 : mxc_fb_check_existing E (rebuild_fixup E mode)
            (E.mxc_edid_mode_to_vic mode 0) s.modelist = true
        · have hacc : ¬ rebuild_accepts E hdmi fmask mode s := fun h => by
            rw [h.2.2.2] at h4
            exact absurd h4 (by decide)
          rw [if_pos h4, if_neg hacc]
        · have h4f : mxc_fb_check_existing E (rebuild_fixup E mode)
              (E.mxc_edid_mode_to_vic mode 0) s.modelist = false := by
            simpa using h4
          have hacc : rebuild_accepts E hdmi fmask mode s := ⟨h1, h2, h3, h4f⟩
          rw [if_neg h4, if_pos hacc]
          simp only [fb_add_videomode, ne_eq, not_true_eq_false, if_false]
          unfold rebuild_appended
          by_cases h3d : hdmi.hdmi_data.enable_3d = 0 ∨ hdmi.edid_cfg.hdmi_3d_present = 0
          · simp only [if_pos h3d, add_videomode_eq]
            split_ifs <;> simp
          · simp only [if_neg h3d]
            rw [format_3d_hom, all_3d_hom, mandatory_3d_hom,
              format_3d_hom E _ _ _ (rebuild_all_3d _ _ _ _ _),
              all_3d_hom E _ _ _ (rebuild_mandatory_3d _ _ _),
              mandatory_3d_hom E _ (ite _ _ _)]
            simp only [add_videomode_eq]
            split_ifs <;> simp [List.append_assoc]


/-- The entry as the loop body leaves it: untouched, or rewritten. -/
theorem rebuild_entry_fst (E : Env) (hdmi : mxc_hdmi) (fmask : Nat)
    (mode : fb_videomode) (s : rebuild_state) :
    (rebuild_entry E hdmi fmask mode s).1 = mode ∨
      (rebuild_entry E hdmi fmask mode s).1 = rebuild_fixup E mode := by
  unfold rebuild_entry
  by_cases h1 : hdmi.edid_cfg.hdmi_cap = true ∧ fmask ≠ U32_MAX ∧ mode.flag &&& fmask = 0
  · rw [if_pos h1]; exact Or.inl rfl
  rw [if_neg h1]
  simp only []
  by_cases h2 : hdmi.edid_cfg.hdmi_cap = true ∧
      ((¬ (mode.flag &&& E.FB_MODE_IS_DETAILED ≠ 0 ∨ mode.flag = 0) ∧
          E.mxc_edid_mode_to_vic mode 0 = 0) ∨
        mode.flag &&& E.FB_MODE_IS_VESA ≠ 0)
  · rw [if_pos h2]; exact Or.inl rfl
  rw [if_neg h2]
  by_cases h3 : mode.xres = 0 ∨ mode.refresh = 0
  · rw [if_pos h3]; exact Or.inl rfl
  rw [if_neg h3]
  refine Or.inr ?_
  by_cases h4 : mxc_fb_check_existing E (rebuild_fixup E mode)
      (E.mxc_edid_mode_to_vic mode 0) s.modelist = true
  · rw [if_pos h4]
  rw [if_neg h4]
  split_ifs <;> rfl

/-- Invariants over one pass: an invariant `I` of the raw entries and an
invariant `J` of the state carry through `rebuild_pass` when every iteration
that belongs to the set `S` preserves them. -/
theorem rebuild_pass_inv (E : Env) (hdmi : mxc_hdmi) (fmask : Nat)
    (S : fb_videomode × rebuild_state → Prop)
    (I : fb_videomode → Prop) (J : rebuild_state → Prop)
    (hstep : ∀ mode s, S (mode, s) → I mode → J s →
      I (rebuild_entry E hdmi fmask mode s).1 ∧ J (rebuild_entry E hdmi fmask mode s).2) :
    ∀ (modedb : List fb_videomode) (s : rebuild_state),
      (∀ it ∈ pass_iterations E hdmi fmask modedb s, S it) →
      (∀ m ∈ modedb, I m) → J s →
      (∀ m ∈ (rebuild_pass E hdmi fmask modedb s).1, I m) ∧
        J (rebuild_pass E hdmi fmask modedb s).2 := by
  intro modedb
  induction modedb with
  | nil => intro s _ _ hJ; exact ⟨by simp [rebuild_pass], hJ⟩
  | cons mode rest ih =>
    intro s hS hI hJ
    have h0 := hstep mode s (hS _ (by simp [pass_iterations]))
      (hI mode (List.mem_cons_self _ _)) hJ
    have h1 := ih (rebuild_entry E hdmi fmask mode s).2
      (fun it hit => hS it (by simp [pass_iterations, hit]))
      (fun m hm => hI m (List.mem_cons_of_mem _ hm)) h0.2
    refine ⟨?_, h1.2⟩
    intro m hm
    simp only [rebuild_pass, List.mem_cons] at hm
    rcases hm with rfl | hm
    · exact h0.1
    · exact h1.1 m hm

/-- Invariants over the whole run of passes. -/
theorem rebuild_passes_inv (E : Env) (hdmi : mxc_hdmi)
    (S : Nat × fb_videomode × rebuild_state → Prop)
    (I : fb_videomode → Prop) (J : rebuild_state → Prop)
    (hstep : ∀ fmask mode s, S (fmask, mode, s) → I mode → J s →
      I (rebuild_entry E hdmi fmask mode s).1 ∧ J (rebuild_entry E hdmi fmask mode s).2) :
    ∀ (masks : List Nat) (modedb : List fb_videomode) (s : rebuild_state),
      (∀ it ∈ rebuild_iterations E hdmi masks modedb s, S it) →
      (∀ m ∈ modedb, I m) → J s →
      (∀ m ∈ (rebuild_passes E hdmi masks modedb s).1, I m) ∧
        J (rebuild_passes E hdmi masks modedb s).2 := by
  intro masks
  induction masks with
  | nil => intro modedb s _ hI hJ; exact ⟨hI, hJ⟩
  | cons fmask rest ih =>
    intro modedb s hS hI hJ
    by_cases hz : fmask = 0
    · simp only [rebuild_passes, hz, if_true]
      exact ⟨hI, hJ⟩
    · simp only [rebuild_passes, hz, if_false]
      simp only [rebuild_iterations, hz, if_false, List.mem_append, List.mem_map] at hS
      have h1 := rebuild_pass_inv E hdmi fmask (fun it => S (fmask, it)) I J
        (fun mode s hs => hstep fmask mode s hs) modedb s
        (fun it hit => hS (fmask, it) (Or.inl ⟨it, hit, rfl⟩)) hI hJ
      exact ih _ _ (fun it hit => hS it (Or.inr hit)) h1.1 h1.2

/-- The loop body only appends to the list. -/
theorem rebuild_entry_grows (E : Env) (hdmi : mxc_hdmi) (fmask : Nat)
    (mode : fb_videomode) (s : rebuild_state) :
    s.modelist <+: (rebuild_entry E hdmi fmask mode s).2.modelist := by
  rw [rebuild_entry_modelist]
  split_ifs
  · exact List.prefix_append _ _
  · exact List.prefix_refl _

/-- A list that is a prefix of the state's list stays one through the run. -/
theorem rebuild_passes_grow (E : Env) (hdmi : mxc_hdmi) (l : List fb_videomode)
    (masks : List Nat) (modedb : List fb_videomode) (s : rebuild_state)
    (h : l <+: s.modelist) :
    l <+: (rebuild_passes E hdmi masks modedb s).2.modelist :=
  (rebuild_passes_inv E hdmi (fun _ => True) (fun _ => True) (fun s => l <+: s.modelist)
    (fun fmask mode s _ _ hJ => ⟨trivial, hJ.trans (rebuild_entry_grows E hdmi fmask mode s)⟩)
    masks modedb s (fun _ _ => trivial) (fun _ _ => trivial) h).2

/-- The list after any iteration of the loop body is a prefix of the final
list. -/
theorem iteration_grows (E : Env) (hdmi : mxc_hdmi) :
    ∀ (masks : List Nat) (modedb : List fb_videomode) (s : rebuild_state),
      ∀ it ∈ rebuild_iterations E hdmi masks modedb s,
        (rebuild_entry E hdmi it.1 it.2.1 it.2.2).2.modelist <+:
          (rebuild_passes E hdmi masks modedb s).2.modelist := by
  have hpass : ∀ (fmask : Nat) (modedb : List fb_videomode) (s : rebuild_state),
      ∀ it ∈ pass_iterations E hdmi fmask modedb s,
        (rebuild_entry E hdmi fmask it.1 it.2).2.modelist <+:
          (rebuild_pass E hdmi fmask modedb s).2.modelist := by
    intro fmask modedb
    induction modedb with
    | nil => intro s it hit; simp [pass_iterations] at hit
    | cons mode rest ih =>
      intro s it hit
      simp only [pass_iterations, List.mem_cons] at hit
      rcases hit with rfl | hit
      · simp only [rebuild_pass]
        exact (rebuild_pass_inv E hdmi fmask (fun _ => True) (fun _ => True)
          (fun s' => (rebuild_entry E hdmi fmask mode s).2.modelist <+: s'.modelist)
          (fun m s' _ _ hJ => ⟨trivial, hJ.trans (rebuild_entry_grows E hdmi fmask m s')⟩)
          rest _ (fun _ _ => trivial) (fun _ _ => trivial) (List.prefix_refl _)).2
      · simp only [rebuild_pass]
        exact ih _ it hit
  intro masks
  induction masks with
  | nil => intro modedb s it hit; simp [rebuild_iterations] at hit
  | cons fmask rest ih =>
    intro modedb s it hit
    by_cases hz : fmask = 0
    · simp [rebuild_iterations, hz] at hit
    · simp only [rebuild_iterations, hz, if_false, List.mem_append, List.mem_map] at hit
      simp only [rebuild_passes, hz, if_false]
      rcases hit with ⟨it', hit', rfl⟩ | hit
      · exact (hpass fmask modedb s it' hit').trans
          (rebuild_passes_grow E hdmi _ rest _ _ (List.prefix_refl _))
      · exact ih _ _ it hit

theorem same_key_comm (E : Env) (a b : fb_videomode) : same_key E a b = same_key E b a := by
  unfold same_key
  rw [Bool.eq_iff_iff]
  simp only [Bool.and_eq_true, beq_iff_eq]
  constructor <;> rintro ⟨⟨⟨h1, h2⟩, h3⟩, h4⟩ <;> exact ⟨⟨⟨h1.symm, h2.symm⟩, h3.symm⟩, h4.symm⟩

/-- The mode list of the rebuild: the final list of the passes started on
the list that holds `vga_mode` alone. -/
theorem rebuild_modelist_eq (E : Env) (hdmi : mxc_hdmi) :
    (mxc_hdmi_edid_rebuild_modelist E hdmi).fbi.modelist =
      (rebuild_passes E hdmi (fmasks E) hdmi.fbi.monspecs.modedb
        (rebuild_start E)).2.modelist := rfl

/-- What an accepted iteration contributes to the final list. -/
theorem accepted_in_final (E : Env) (hdmi : mxc_hdmi)
    (it : Nat × fb_videomode × rebuild_state) (hit : it ∈ rebuild_run E hdmi)
    (hacc : rebuild_accepts E hdmi it.1 it.2.1 it.2.2) :
    ∃ post, (mxc_hdmi_edid_rebuild_modelist E hdmi).fbi.modelist =
      it.2.2.modelist ++ rebuild_fixup E it.2.1 ::
        (rebuild_appended E hdmi (rebuild_fixup E it.2.1) (E.mxc_edid_mode_to_vic it.2.1 0)
          (rebuild_nvic E it.2.1 it.2.2) ++ post) := by
  obtain ⟨t, ht⟩ := iteration_grows E hdmi _ _ _ it hit
  rw [rebuild_entry_modelist, if_pos hacc] at ht
  refine ⟨t, ?_⟩
  rw [rebuild_modelist_eq, ← ht]
  simp

/-- Membership in the result of an append-only fold. -/
theorem foldl_append_mem_iff {α β : Type} (step : List β → α → List β)
    (h : ∀ l x, step l x = l ++ step [] x) (xs : List α) (b : β) :
    b ∈ xs.foldl step [] ↔ ∃ y ∈ xs, b ∈ step [] y := by
  induction xs with
  | nil => simp
  | cons x xs ih =>
    rw [List.foldl_cons, foldl_append_hom step h xs (step [] x), List.mem_append, ih]
    simp only [List.mem_cons, exists_eq_or_imp]

/-- The mandatory 3D timings appended for `vic` are the timings of the table
entries for `vic`. -/
theorem mandatory_3d_mem (E : Env) (vic : Nat) (b : fb_videomode) :
    b ∈ rebuild_mandatory_3d E vic [] ↔
      ∃ smm ∈ stereo_mandatory_modes E, smm.vic = vic ∧ b = mandatory_timing E smm := by
  unfold rebuild_mandatory_3d
  rw [foldl_append_mem_iff _ (by intro l x; split_ifs <;> simp [add_videomode_eq])]
  constructor
  · rintro ⟨smm, hs, hb⟩
    by_cases hv : smm.vic = vic
    · refine ⟨smm, hs, hv, ?_⟩
      simp only [hv, ne_eq, not_true_eq_false, if_false, add_videomode_eq, List.nil_append,
        List.mem_singleton] at hb
      rw [hb, mandatory_timing, hv]
    · simp [hv] at hb
  · rintro ⟨smm, hs, hv, hb⟩
    refine ⟨smm, hs, ?_⟩
    simp only [hv, ne_eq, not_true_eq_false, if_false, add_videomode_eq, List.nil_append,
      List.mem_singleton]
    rw [hb, mandatory_timing, hv]

/-! ### C6: the dedup key -/

set_option maxRecDepth 100000 in
/-- C6, counterexample. An HDMI sink with 3D support that declares
top-and-bottom for all its modes and lists one detailed 1280x720 at 60 Hz
timing (VIC 4) whose pixel clock differs from the canonical timing. The
rebuilt list holds, at index 3, the mandatory top-and-bottom timing built
from `mxc_cea_mode[4]` and, at index 5, the top-and-bottom variant built from
the sink's own timing: two different entries with the same dedup key. -/
theorem C6_counterexample :
    (mxc_hdmi_edid_rebuild_modelist refEnv
      (dev_with cfg_3d_tb [raw_720p_detailed])).fbi.modelist[3]? =
      some { ref_cea_mode 4 with flag := 64, vmode := 0x120 } ∧
    (mxc_hdmi_edid_rebuild_modelist refEnv
      (dev_with cfg_3d_tb [raw_720p_detailed])).fbi.modelist[5]? =
      some { raw_720p_detailed with flag := 64, vmode := 0x120 } ∧
    same_key refEnv { ref_cea_mode 4 with flag := 64, vmode := 0x120 }
      { raw_720p_detailed with flag := 64, vmode := 0x120 } = true ∧
    ({ ref_cea_mode 4 with flag := 64, vmode := 0x120 } : fb_videomode) ≠
      { raw_720p_detailed with flag := 64, vmode := 0x120 } := by
  decide


/-- C6, amended. The dedup key guards the entries appended from the raw EDID
timing entries, not the synthesized variants. (1) For every setting of the
toggles and in every state of the loop, a raw entry whose key, after the
in-place rewrite, is the key of an entry of the list built so far (the
fallback entry and earlier variants included) is not appended, and nothing is
appended for it: the loop body leaves the list as it is. (2) In every
iteration of a run in which the loop body changes the list, no entry of the
list built so far has the key of the rewritten raw entry, and that entry is
appended right behind the list built so far. (3) When no variant is
synthesized (`enable_fract` off, and `enable_3d` off or no `hdmi_3d_present`),
no two entries of the rebuilt list agree on the key of
`mxc_fb_check_existing`. -/
theorem C6_dedup_raw (E : Env) (hdmi : mxc_hdmi) :
    (∀ (fmask : Nat) (mode : fb_videomode) (s : rebuild_state),
      (∃ a ∈ s.modelist, same_key E (rebuild_fixup E mode) a = true) →
      (rebuild_entry E hdmi fmask mode s).2.modelist = s.modelist) ∧
    (∀ it ∈ rebuild_run E hdmi,
      (rebuild_entry E hdmi it.1 it.2.1 it.2.2).2.modelist ≠ it.2.2.modelist →
      (∀ a ∈ it.2.2.modelist, same_key E a (rebuild_fixup E it.2.1) = false) ∧
      ∃ post, (mxc_hdmi_edid_rebuild_modelist E hdmi).fbi.modelist =
        it.2.2.modelist ++ rebuild_fixup E it.2.1 :: post) ∧
    (hdmi.hdmi_data.enable_fract = 0 →
      (hdmi.hdmi_data.enable_3d = 0 ∨ hdmi.edid_cfg.hdmi_3d_present = 0) →
      (mxc_hdmi_edid_rebuild_modelist E hdmi).fbi.modelist.Pairwise
        (fun a b => same_key E a b = false)) := by
  have hkey : ∀ (fmask : Nat) (mode : fb_videomode) (s : rebuild_state),
      rebuild_accepts E hdmi fmask mode s →
      ∀ a ∈ s.modelist, same_key E a (rebuild_fixup E mode) = false := by
    intro fmask mode s hacc a ha
    have h := hacc.2.2.2
    simp only [mxc_fb_check_existing, List.any_eq_false] at h
    rw [same_key_comm]
    simpa using h a ha
  refine ⟨?_, ?_, ?_⟩
  · rintro fmask mode s ⟨a, ha, hk⟩
    rw [rebuild_entry_modelist]
    have hacc : ¬ rebuild_accepts E hdmi fmask mode s := by
      intro hacc
      have := hkey fmask mode s hacc a ha
      rw [same_key_comm, hk] at this
      exact absurd this (by decide)
    rw [if_neg hacc]
  · intro it hit hne
    have hacc : rebuild_accepts E hdmi it.1 it.2.1 it.2.2 := by
      by_contra hacc
      apply hne
      rw [rebuild_entry_modelist, if_neg hacc]
    obtain ⟨post, hp⟩ := accepted_in_final E hdmi it hit hacc
    exact ⟨hkey _ _ _ hacc, _, hp⟩
  · intro hf h3d
    rw [rebuild_modelist_eq]
    refine (rebuild_passes_inv E hdmi (fun _ => True) (fun _ => True)
      (fun s => s.modelist.Pairwise (fun a b => same_key E a b = false)) ?_
      (fmasks E) hdmi.fbi.monspecs.modedb (rebuild_start E)
      (fun _ _ => trivial) (fun _ _ => trivial) ?_).2
    · intro fmask mode s _ _ hJ
      refine ⟨trivial, ?_⟩
      show (rebuild_entry E hdmi fmask mode s).2.modelist.Pairwise _
      rw [rebuild_entry_modelist]
      split_ifs with hacc
      · have happ : rebuild_appended E hdmi (rebuild_fixup E mode)
            (E.mxc_edid_mode_to_vic mode 0) (rebuild_nvic E mode s) = [] := by
          simp [rebuild_appended, hf, h3d]
        rw [happ, List.pairwise_append]
        refine ⟨hJ, List.pairwise_singleton _ _, ?_⟩
        intro a ha b hb
        rw [List.mem_singleton] at hb
        subst hb
        exact hkey fmask mode s hacc a ha
      · exact hJ
    · exact List.pairwise_singleton _ _

set_option maxRecDepth 100000 in
/-- Witness of the amended C6, with both toggles on: in the second pass over
the sink `dev_1080p` the raw entry has the key of the entry listed in the
first pass, and the list stays as it is. -/
theorem C6_dedup_raw_witness :
    (∃ a ∈ [vga_mode refEnv, raw_of_vic 16 16, { raw_of_vic 16 16 with vmode := 0x1020 }],
      same_key refEnv (rebuild_fixup refEnv (raw_of_vic 16 16)) a = true) ∧
    (rebuild_entry refEnv dev_1080p 0xFFFFFFFF (raw_of_vic 16 16)
      { modelist := [vga_mode refEnv, raw_of_vic 16 16,
          { raw_of_vic 16 16 with vmode := 0x1020 }], nvic := 1 }).2.modelist =
      [vga_mode refEnv, raw_of_vic 16 16, { raw_of_vic 16 16 with vmode := 0x1020 }] :=
  ⟨by decide,
    (C6_dedup_raw refEnv dev_1080p).1 0xFFFFFFFF (raw_of_vic 16 16)
      { modelist := [vga_mode refEnv, raw_of_vic 16 16,
          { raw_of_vic 16 16 with vmode := 0x1020 }], nvic := 1 } (by decide)⟩

/-! ### C7: running the builder twice -/

theorem or_and_eq_zero (a b f : Nat) : (a ||| b) &&& f = 0 ↔ a &&& f = 0 ∧ b &&& f = 0 := by
  rw [Nat.and_distrib_right]
  constructor
  · intro h
    constructor
    · apply Nat.eq_of_testBit_eq
      intro i
      have := congrArg (fun x => x.testBit i) h
      simp only [Nat.testBit_or, Nat.testBit_and, Nat.zero_testBit, Bool.or_eq_false_iff] at this ⊢
      exact this.1
    · apply Nat.eq_of_testBit_eq
      intro i
      have := congrArg (fun x => x.testBit i) h
      simp only [Nat.testBit_or, Nat.testBit_and, Nat.zero_testBit, Bool.or_eq_false_iff] at this ⊢
      exact this.2
  · rintro ⟨h1, h2⟩
    rw [h1, h2]
    rfl



theorem and_mask8 (y : Nat) (hy : y < 2 ^ 32) : y &&& 0xFFFFFFF8 = y / 8 * 8 := by
  have h1 : (0xFFFFFFF8 : Nat) = (2 ^ 29 - 1) <<< 3 := by decide
  have h2 : y / 8 * 8 = (y >>> 3) <<< 3 := by
    rw [Nat.shiftRight_eq_div_pow, Nat.shiftLeft_eq]
  rw [h1, h2]
  apply Nat.eq_of_testBit_eq
  intro i
  simp only [Nat.testBit_and, Nat.testBit_shiftLeft, Nat.testBit_shiftRight,
    Nat.testBit_two_pow_sub_one]
  by_cases h3 : 3 ≤ i
  · have e : 3 + (i - 3) = i := by omega
    simp only [h3, decide_True, Bool.true_and, e]
    by_cases h4 : i - 3 < 29
    · simp [h4]
    · have : y.testBit i = false := by
        apply Nat.testBit_lt_two_pow
        calc y < 2 ^ 32 := hy
          _ ≤ 2 ^ i := Nat.pow_le_pow_right (by decide) (by omega)
      simp [h4, this]
  · simp [h3]

theorem ALIGN2_eq (x : Nat) (hx : x < 2 ^ 32) : ALIGN2 x 8 = x / 8 * 8 := by
  have hn : not32 (8 - 1) = 0xFFFFFFF8 := by decide
  have hA : ALIGN x 8 = (x + 7) % 2 ^ 32 / 8 * 8 := by
    unfold ALIGN
    rw [hn, and_mask8 _ (Nat.mod_lt _ (by decide))]
  unfold ALIGN2
  rw [hA]
  split_ifs with h <;> omega


theorem ALIGN2_idem (x : Nat) (hx : x < 2 ^ 32) : ALIGN2 (ALIGN2 x 8) 8 = ALIGN2 x 8 := by
  have h := ALIGN2_eq x hx
  rw [ALIGN2_eq (ALIGN2 x 8) (by omega), h]
  omega

/-- The in-place rewrite leaves alone an entry that carries an aspect tag and
whose width and height are aligned. -/
theorem fixup_fixed (E : Env) (m : fb_videomode)
    (hv : m.vmode &&& E.FB_VMODE_ASPECT_MASK ≠ 0)
    (hx : ALIGN2 m.xres 8 = m.xres) (hy : ALIGN2 m.yres 8 = m.yres) :
    rebuild_fixup E m = m := by
  unfold rebuild_fixup
  simp only [if_neg hv, hx, hy]

/-- The in-place rewrite is idempotent when the inferred aspect flags lie in
the aspect mask. -/
theorem fixup_idem (E : Env)
    (hA43 : E.FB_VMODE_ASPECT_4_3 &&& E.FB_VMODE_ASPECT_MASK ≠ 0)
    (hA169 : E.FB_VMODE_ASPECT_16_9 &&& E.FB_VMODE_ASPECT_MASK ≠ 0)
    (m : fb_videomode) (hx : m.xres < 2 ^ 32) (hy : m.yres < 2 ^ 32) :
    rebuild_fixup E (rebuild_fixup E m) = rebuild_fixup E m := by
  have hor : ∀ v a : Nat, a &&& E.FB_VMODE_ASPECT_MASK ≠ 0 →
      (v ||| a) &&& E.FB_VMODE_ASPECT_MASK ≠ 0 := by
    intro v a ha h
    exact ha ((or_and_eq_zero _ _ _).1 h).2
  apply fixup_fixed
  · unfold rebuild_fixup
    simp only []
    split_ifs with h1 h2
    · exact hor _ _ hA43
    · exact hor _ _ hA169
    · exact h1
  · exact ALIGN2_idem _ hx
  · exact ALIGN2_idem _ hy

/-- A stable entry stays stable when rewritten. -/
theorem rewrite_stable_fixup (E : Env)
    (hA43 : E.FB_VMODE_ASPECT_4_3 &&& E.FB_VMODE_ASPECT_MASK ≠ 0)
    (hA169 : E.FB_VMODE_ASPECT_16_9 &&& E.FB_VMODE_ASPECT_MASK ≠ 0)
    (m : fb_videomode) (h : rewrite_stable E m) : rewrite_stable E (rebuild_fixup E m) := by
  obtain ⟨hx, hy, hw, hv⟩ := h
  have hfx : (rebuild_fixup E m).xres = ALIGN2 m.xres 8 := rfl
  have hfy : (rebuild_fixup E m).yres = ALIGN2 m.yres 8 := rfl
  refine ⟨?_, ?_, ?_, ?_⟩
  · rw [hfx, ALIGN2_eq _ hx]; omega
  · rw [hfy, ALIGN2_eq _ hy]; omega
  · rw [hfx, ALIGN2_eq _ hx]; omega
  · rw [fixup_idem E hA43 hA169 m hx hy]

/-- The counter `nvic` after the loop body. -/
theorem rebuild_entry_nvic (E : Env) (hdmi : mxc_hdmi) (fmask : Nat)
    (mode : fb_videomode) (s : rebuild_state) :
    (rebuild_entry E hdmi fmask mode s).2.nvic =
      if rebuild_filtered hdmi fmask mode then s.nvic else rebuild_nvic E mode s := by
  unfold rebuild_entry rebuild_filtered rebuild_nvic
  by_cases h1 : hdmi.edid_cfg.hdmi_cap = true ∧ fmask ≠ U32_MAX ∧ mode.flag &&& fmask = 0
  · rw [if_pos h1, if_pos h1]
  rw [if_neg h1, if_neg h1]
  simp only []
  repeat' split
  all_goals rfl

/-- The raw entry after the loop body. -/
theorem rebuild_entry_fst_eq (E : Env) (hdmi : mxc_hdmi) (fmask : Nat)
    (mode : fb_videomode) (s : rebuild_state) :
    (rebuild_entry E hdmi fmask mode s).1 =
      if rebuild_untouched E hdmi fmask mode then mode else rebuild_fixup E mode := by
  unfold rebuild_entry
  by_cases h1 : hdmi.edid_cfg.hdmi_cap = true ∧ fmask ≠ U32_MAX ∧ mode.flag &&& fmask = 0
  · have hun : rebuild_untouched E hdmi fmask mode := Or.inl h1
    rw [if_pos h1, if_pos hun]
  rw [if_neg h1]
  simp only []
  by_cases h2 : hdmi.edid_cfg.hdmi_cap = true ∧
      ((¬ (mode.flag &&& E.FB_MODE_IS_DETAILED ≠ 0 ∨ mode.flag = 0) ∧
          E.mxc_edid_mode_to_vic mode 0 = 0) ∨
        mode.flag &&& E.FB_MODE_IS_VESA ≠ 0)
  · have hun : rebuild_untouched E hdmi fmask mode := Or.inr (Or.inl h2)
    rw [if_pos h2, if_pos hun]
  rw [if_neg h2]
  by_cases h3 : mode.xres = 0 ∨ mode.refresh = 0
  · have hun : rebuild_untouched E hdmi fmask mode := Or.inr (Or.inr h3)
    rw [if_pos h3, if_pos hun]
  have hun : ¬ rebuild_untouched E hdmi fmask mode := by
    rintro (h | h | h)
    · exact h1 h
    · exact h2 h
    · exact h3 h
  rw [if_neg h3, if_neg hun]
  by_cases h4 : mxc_fb_check_existing E (rebuild_fixup E mode)
      (E.mxc_edid_mode_to_vic mode 0) s.modelist = true
  · rw [if_pos h4]
  rw [if_neg h4]
  split_ifs <;> rfl


/-- The state of the builder is determined by its list and its counter. -/
theorem rebuild_state_ext (a b : rebuild_state) (h1 : a.modelist = b.modelist)
    (h2 : a.nvic = b.nvic) : a = b := by
  cases a
  cases b
  simp only [rebuild_state.mk.injEq]
  exact ⟨h1, h2⟩

/-- On a stable entry the loop body decides and appends the same whether it
finds the entry as it was or already rewritten. -/
theorem rebuild_entry_rewritten (E : Env) (hdmi : mxc_hdmi) (fmask : Nat)
    (hA43 : E.FB_VMODE_ASPECT_4_3 &&& E.FB_VMODE_ASPECT_MASK ≠ 0)
    (hA169 : E.FB_VMODE_ASPECT_16_9 &&& E.FB_VMODE_ASPECT_MASK ≠ 0)
    (m : fb_videomode) (hm : rewrite_stable E m) (s : rebuild_state) :
    (rebuild_entry E hdmi fmask (rebuild_fixup E m) s).2 = (rebuild_entry E hdmi fmask m s).2 ∧
    rewritten E (rebuild_entry E hdmi fmask m s).1
      (rebuild_entry E hdmi fmask (rebuild_fixup E m) s).1 := by
  obtain ⟨hx, hy, hw, hvic⟩ := hm
  have hfix := fixup_idem E hA43 hA169 m hx hy
  have hflag : (rebuild_fixup E m).flag = m.flag := rfl
  have hrefresh : (rebuild_fixup E m).refresh = m.refresh := rfl
  have hxz : (rebuild_fixup E m).xres = 0 ↔ m.xres = 0 := by
    have hfx : (rebuild_fixup E m).xres = ALIGN2 m.xres 8 := rfl
    rw [hfx, ALIGN2_eq _ hx]
    omega
  have hfilt : rebuild_filtered hdmi fmask (rebuild_fixup E m) ↔ rebuild_filtered hdmi fmask m := by
    unfold rebuild_filtered
    rw [hflag]
  have hunt : rebuild_untouched E hdmi fmask (rebuild_fixup E m) ↔
      rebuild_untouched E hdmi fmask m := by
    unfold rebuild_untouched
    rw [hfilt, hflag, hvic, hxz, hrefresh]
  have hacc : rebuild_accepts E hdmi fmask (rebuild_fixup E m) s ↔
      rebuild_accepts E hdmi fmask m s := by
    unfold rebuild_accepts
    rw [hflag, hvic, hxz, hrefresh, hfix]
  have hnv : rebuild_nvic E (rebuild_fixup E m) s = rebuild_nvic E m s := by
    unfold rebuild_nvic
    rw [hvic]
  constructor
  · apply rebuild_state_ext
    · rw [rebuild_entry_modelist, rebuild_entry_modelist, hfix, hvic, hnv]
      by_cases h : rebuild_accepts E hdmi fmask m s
      · rw [if_pos h, if_pos (hacc.2 h)]
      · rw [if_neg h, if_neg (fun h' => h (hacc.1 h'))]
    · rw [rebuild_entry_nvic, rebuild_entry_nvic, hnv]
      by_cases h : rebuild_filtered hdmi fmask m
      · rw [if_pos h, if_pos (hfilt.2 h)]
      · rw [if_neg h, if_neg (fun h' => h (hfilt.1 h'))]
  · rw [rebuild_entry_fst_eq, rebuild_entry_fst_eq, hfix]
    by_cases h : rebuild_untouched E hdmi fmask m
    · rw [if_pos h, if_pos (hunt.2 h)]
      exact Or.inr rfl
    · rw [if_neg h, if_neg (fun h' => h (hunt.1 h'))]
      exact Or.inl rfl

/-- One iteration of the loop body on two copies of a stable entry, one
possibly rewritten: same state afterwards, and the copies stay related. -/
theorem rebuild_entry_sim (E : Env) (hdmi : mxc_hdmi) (fmask : Nat)
    (hA43 : E.FB_VMODE_ASPECT_4_3 &&& E.FB_VMODE_ASPECT_MASK ≠ 0)
    (hA169 : E.FB_VMODE_ASPECT_16_9 &&& E.FB_VMODE_ASPECT_MASK ≠ 0)
    (m1 m2 : fb_videomode) (hm : rewrite_stable E m1) (hr : rewritten E m1 m2)
    (s : rebuild_state) :
    (rebuild_entry E hdmi fmask m2 s).2 = (rebuild_entry E hdmi fmask m1 s).2 ∧
    rewritten E (rebuild_entry E hdmi fmask m1 s).1 (rebuild_entry E hdmi fmask m2 s).1 ∧
    rewrite_stable E (rebuild_entry E hdmi fmask m1 s).1 := by
  have hst : rewrite_stable E (rebuild_entry E hdmi fmask m1 s).1 := by
    rcases rebuild_entry_fst E hdmi fmask m1 s with h | h
    · rw [h]; exact hm
    · rw [h]; exact rewrite_stable_fixup E hA43 hA169 m1 hm
  rcases hr with rfl | rfl
  · exact ⟨rfl, Or.inl rfl, hst⟩
  · obtain ⟨h1, h2⟩ := rebuild_entry_rewritten E hdmi fmask hA43 hA169 m1 hm s
    exact ⟨h1, h2, hst⟩

/-- One pass over two copies of the raw entries, related entry by entry. -/
theorem rebuild_pass_sim (E : Env) (hdmi : mxc_hdmi) (fmask : Nat)
    (hA43 : E.FB_VMODE_ASPECT_4_3 &&& E.FB_VMODE_ASPECT_MASK ≠ 0)
    (hA169 : E.FB_VMODE_ASPECT_16_9 &&& E.FB_VMODE_ASPECT_MASK ≠ 0)
    (db1 db2 : List fb_videomode) (hrel : List.Forall₂ (rewritten E) db1 db2) :
    ∀ s : rebuild_state, (∀ m ∈ db1, rewrite_stable E m) →
      (rebuild_pass E hdmi fmask db2 s).2 = (rebuild_pass E hdmi fmask db1 s).2 ∧
      List.Forall₂ (rewritten E) (rebuild_pass E hdmi fmask db1 s).1
        (rebuild_pass E hdmi fmask db2 s).1 ∧
      ∀ m ∈ (rebuild_pass E hdmi fmask db1 s).1, rewrite_stable E m := by
  induction hrel with
  | nil => intro s _; exact ⟨rfl, List.Forall₂.nil, by simp [rebuild_pass]⟩
  | @cons m1 m2 l1 l2 hr _ ih =>
    intro s hst
    obtain ⟨e1, e2, e3⟩ := rebuild_entry_sim E hdmi fmask hA43 hA169 m1 m2
      (hst m1 (List.mem_cons_self _ _)) hr s
    obtain ⟨i1, i2, i3⟩ := ih (rebuild_entry E hdmi fmask m1 s).2
      (fun m hm => hst m (List.mem_cons_of_mem _ hm))
    simp only [rebuild_pass]
    rw [e1]
    refine ⟨i1, List.Forall₂.cons e2 i2, ?_⟩
    intro m hm
    rcases List.mem_cons.1 hm with rfl | hm
    · exact e3
    · exact i3 m hm

/-- The whole run of passes over two copies of the raw entries, related entry
by entry: the same final state. -/
theorem rebuild_passes_sim (E : Env) (hdmi : mxc_hdmi)
    (hA43 : E.FB_VMODE_ASPECT_4_3 &&& E.FB_VMODE_ASPECT_MASK ≠ 0)
    (hA169 : E.FB_VMODE_ASPECT_16_9 &&& E.FB_VMODE_ASPECT_MASK ≠ 0)
    (masks : List Nat) :
    ∀ (db1 db2 : List fb_videomode) (s : rebuild_state),
      List.Forall₂ (rewritten E) db1 db2 → (∀ m ∈ db1, rewrite_stable E m) →
      (rebuild_passes E hdmi masks db2 s).2 = (rebuild_passes E hdmi masks db1 s).2 ∧
      List.Forall₂ (rewritten E) (rebuild_passes E hdmi masks db1 s).1
        (rebuild_passes E hdmi masks db2 s).1 := by
  induction masks with
  | nil => intro db1 db2 s hrel _; exact ⟨rfl, hrel⟩
  | cons fmask rest ih =>
    intro db1 db2 s hrel hst
    by_cases hz : fmask = 0
    · simp only [rebuild_passes, hz, if_true]
      exact ⟨trivial, hrel⟩
    · simp only [rebuild_passes, hz, if_false]
      obtain ⟨p1, p2, p3⟩ := rebuild_pass_sim E hdmi fmask hA43 hA169 db1 db2 hrel s hst
      rw [p1]
      exact ih _ _ _ p2 p3

/-- Each raw entry after the run is the entry before it, as it was or
rewritten in place. -/
theorem rebuild_passes_rewritten (E : Env) (hdmi : mxc_hdmi)
    (hA43 : E.FB_VMODE_ASPECT_4_3 &&& E.FB_VMODE_ASPECT_MASK ≠ 0)
    (hA169 : E.FB_VMODE_ASPECT_16_9 &&& E.FB_VMODE_ASPECT_MASK ≠ 0)
    (masks : List Nat) :
    ∀ (db : List fb_videomode) (s : rebuild_state), (∀ m ∈ db, rewrite_stable E m) →
      List.Forall₂ (rewritten E) db (rebuild_passes E hdmi masks db s).1 := by
  have hrefl : ∀ db : List fb_videomode, List.Forall₂ (rewritten E) db db := by
    intro db
    induction db with
    | nil => exact List.Forall₂.nil
    | cons m l ih => exact List.Forall₂.cons (Or.inl rfl) ih
  have hpass : ∀ (fmask : Nat) (db : List fb_videomode) (s : rebuild_state),
      List.Forall₂ (rewritten E) db (rebuild_pass E hdmi fmask db s).1 := by
    intro fmask db
    induction db with
    | nil => intro s; exact List.Forall₂.nil
    | cons m l ih =>
      intro s
      simp only [rebuild_pass]
      refine List.Forall₂.cons ?_ (ih _)
      rcases rebuild_entry_fst E hdmi fmask m s with h | h
      · exact Or.inl h
      · exact Or.inr h
  have htrans : ∀ l1 l2 l3 : List fb_videomode, (∀ m ∈ l1, rewrite_stable E m) →
      List.Forall₂ (rewritten E) l1 l2 → List.Forall₂ (rewritten E) l2 l3 →
      List.Forall₂ (rewritten E) l1 l3 := by
    intro l1 l2 l3 hst h12
    induction h12 generalizing l3 with
    | nil => intro h; exact h
    | @cons a b la lb hab _ ih =>
      intro h23
      cases h23 with
      | cons hbc hrest =>
        refine List.Forall₂.cons ?_ (ih _ (fun m hm => hst m (List.mem_cons_of_mem _ hm)) hrest)
        have hsa := hst a (List.mem_cons_self _ _)
        rcases hab with rfl | rfl
        · exact hbc
        · rcases hbc with rfl | rfl
          · exact Or.inr rfl
          · exact Or.inr (fixup_idem E hA43 hA169 a hsa.1 hsa.2.1)
  intro db s hst
  induction masks generalizing db s with
  | nil => exact hrefl db
  | cons fmask rest ih =>
    by_cases hz : fmask = 0
    · simp only [rebuild_passes, hz, if_true]
      exact hrefl db
    · simp only [rebuild_passes, hz, if_false]
      obtain ⟨-, -, p3⟩ := rebuild_pass_sim E hdmi fmask hA43 hA169 db db (hrefl db) s hst
      exact htrans _ _ _ hst (hpass fmask db s) (ih _ _ p3)

/-- The loop body reads the device only through its capability record and
its data-info block. -/
theorem rebuild_passes_congr (E : Env) (h1 h2 : mxc_hdmi) (hc : h1.edid_cfg = h2.edid_cfg)
    (hd : h1.hdmi_data = h2.hdmi_data) (masks : List Nat) (db : List fb_videomode)
    (s : rebuild_state) :
    rebuild_passes E h1 masks db s = rebuild_passes E h2 masks db s := by
  have hentry : ∀ fmask mode s, rebuild_entry E h1 fmask mode s =
      rebuild_entry E h2 fmask mode s := by
    intro fmask mode s
    unfold rebuild_entry
    rw [hc, hd]
  have hpass : ∀ fmask db s, rebuild_pass E h1 fmask db s = rebuild_pass E h2 fmask db s := by
    intro fmask db
    induction db with
    | nil => intro s; rfl
    | cons m l ih => intro s; simp only [rebuild_pass, hentry, ih]
  induction masks generalizing db s with
  | nil => rfl
  | cons fmask rest ih => simp only [rebuild_passes, hpass, ih]

set_option maxRecDepth 100000 in
/-- C7, counterexample. Two inputs on which a second run of
`mxc_hdmi_edid_rebuild_modelist` yields another list than the first. (1) A
detailed timing of width 1924 has no VIC in the first run, which aligns it
down to 1920 in place; the second run finds the width 1920, computes VIC 16
and appends a fractional variant that the first list lacks. (2) A detailed
timing of width 5 passes the zero-width test of the first run, is aligned
down to width 0 and appended; the second run finds the width 0 and skips
it. -/
theorem C7_counterexample :
    (mxc_hdmi_edid_rebuild_modelist refEnv
      (dev_with { hdmi_cap := true } [raw_1924])).fbi.modelist =
      [vga_mode refEnv, { raw_1924 with xres := 1920 }] ∧
    (mxc_hdmi_edid_rebuild_modelist refEnv (mxc_hdmi_edid_rebuild_modelist refEnv
      (dev_with { hdmi_cap := true } [raw_1924]))).fbi.modelist =
      [vga_mode refEnv, { raw_1924 with xres := 1920 },
        { raw_1924 with xres := 1920, vmode := 0x1020 }] ∧
    (mxc_hdmi_edid_rebuild_modelist refEnv
      (dev_with { hdmi_cap := true } [raw_width_5])).fbi.modelist =
      [vga_mode refEnv, { raw_width_5 with xres := 0 }] ∧
    (mxc_hdmi_edid_rebuild_modelist refEnv (mxc_hdmi_edid_rebuild_modelist refEnv
      (dev_with { hdmi_cap := true } [raw_width_5]))).fbi.modelist =
      [vga_mode refEnv] := by
  decide

/-- C7, amended. Running `mxc_hdmi_edid_rebuild_modelist` twice in a row
yields the same ordered mode list both times, provided every raw timing entry
is stable under the in-place rewrite: its width and height are 32-bit values,
its width is 0 or at least 8, and `mxc_edid_mode_to_vic` returns the same VIC
for the entry and for its rewritten form (the inferred aspect flags lying in
`FB_VMODE_ASPECT_MASK`). -/
theorem C7_rebuild_twice (E : Env) (hdmi : mxc_hdmi)
    (hA43 : E.FB_VMODE_ASPECT_4_3 &&& E.FB_VMODE_ASPECT_MASK ≠ 0)
    (hA169 : E.FB_VMODE_ASPECT_16_9 &&& E.FB_VMODE_ASPECT_MASK ≠ 0)
    (hst : ∀ m ∈ hdmi.fbi.monspecs.modedb, rewrite_stable E m) :
    (mxc_hdmi_edid_rebuild_modelist E (mxc_hdmi_edid_rebuild_modelist E hdmi)).fbi.modelist =
      (mxc_hdmi_edid_rebuild_modelist E hdmi).fbi.modelist := by
  have hdb : (mxc_hdmi_edid_rebuild_modelist E hdmi).fbi.monspecs.modedb =
      (rebuild_passes E hdmi (fmasks E) hdmi.fbi.monspecs.modedb (rebuild_start E)).1 := rfl
  rw [rebuild_modelist_eq E (mxc_hdmi_edid_rebuild_modelist E hdmi), hdb,
    rebuild_passes_congr E (mxc_hdmi_edid_rebuild_modelist E hdmi) hdmi rfl rfl,
    rebuild_modelist_eq E hdmi]
  exact congrArg rebuild_state.modelist
    (rebuild_passes_sim E hdmi hA43 hA169 (fmasks E) _ _ (rebuild_start E)
      (rebuild_passes_rewritten E hdmi hA43 hA169 (fmasks E) _ (rebuild_start E) hst) hst).1


set_option maxRecDepth 100000 in
/-- Witness of the amended C7: the sink whose only timing is 1920x1080 at
60 Hz. -/
theorem C7_rebuild_twice_witness :
    refEnv.FB_VMODE_ASPECT_4_3 &&& refEnv.FB_VMODE_ASPECT_MASK ≠ 0 ∧
    refEnv.FB_VMODE_ASPECT_16_9 &&& refEnv.FB_VMODE_ASPECT_MASK ≠ 0 ∧
    (∀ m ∈ dev_1080p.fbi.monspecs.modedb, rewrite_stable refEnv m) ∧
    (mxc_hdmi_edid_rebuild_modelist refEnv
      (mxc_hdmi_edid_rebuild_modelist refEnv dev_1080p)).fbi.modelist =
      (mxc_hdmi_edid_rebuild_modelist refEnv dev_1080p).fbi.modelist :=
  ⟨by decide, by decide, by decide,
    C7_rebuild_twice refEnv dev_1080p (by decide) (by decide) (by decide)⟩

/-! ### C8: the first entry -/

/-- C8, counterexample. On a device whose current `var` is 1920x1080 at
60 Hz the default mode list begins with the mode of that `var`, of width
1920, and not with `vga_mode`. -/
theorem C8_counterexample :
    (mxc_hdmi_default_modelist refEnv dev0).fbi.modelist.head? =
      some (refEnv.fb_var_to_videomode var_1080p60) ∧
    (refEnv.fb_var_to_videomode var_1080p60).xres = 1920 ∧
    (mxc_hdmi_default_modelist refEnv dev0).fbi.modelist.head? ≠ some (vga_mode refEnv) := by
  decide

/-- C8, amended. For every capability record the list produced by
`mxc_hdmi_edid_rebuild_modelist` begins with the fixed fallback entry
`vga_mode`; the list produced by `mxc_hdmi_default_modelist` begins with the
mode converted from the current `var` of the framebuffer, so it begins with
`vga_mode` only when that mode is `vga_mode`. -/
theorem C8_first_entry (E : Env) (hdmi : mxc_hdmi) :
    (mxc_hdmi_edid_rebuild_modelist E hdmi).fbi.modelist.head? = some (vga_mode E) ∧
    (mxc_hdmi_default_modelist E hdmi).fbi.modelist.head? =
      some (E.fb_var_to_videomode hdmi.fbi.var) ∧
    ((mxc_hdmi_default_modelist E hdmi).fbi.modelist.head? = some (vga_mode E) ↔
      E.fb_var_to_videomode hdmi.fbi.var = vga_mode E) := by
  have hd : (mxc_hdmi_default_modelist E hdmi).fbi.modelist.head? =
      some (E.fb_var_to_videomode hdmi.fbi.var) := by
    simp only [mxc_hdmi_default_modelist, emit, fb_add_videomode, List.nil_append]
    rw [foldl_append_hom _ (by intro l x; split_ifs <;> simp)]
    rfl
  refine ⟨?_, hd, ?_⟩
  · rw [rebuild_modelist_eq]
    obtain ⟨t, ht⟩ := rebuild_passes_grow E hdmi [vga_mode E] (fmasks E)
      hdmi.fbi.monspecs.modedb (rebuild_start E) (List.prefix_refl _)
    rw [← ht]
    rfl
  · rw [hd]
    exact Option.some_inj

/-! ### C9: fractional entries -/

/-- The in-place rewrite does not set the fractional flag. -/
theorem fixup_not_fract (E : Env) (hE : fract_bit_unused E) (m : fb_videomode)
    (hm : m.vmode &&& E.FB_VMODE_FRACTIONAL = 0) :
    (rebuild_fixup E m).vmode &&& E.FB_VMODE_FRACTIONAL = 0 := by
  have h43 : E.FB_VMODE_ASPECT_4_3 &&& E.FB_VMODE_FRACTIONAL = 0 :=
    ((or_and_eq_zero _ _ _).1 hE.1).2
  unfold rebuild_fixup
  simp only []
  split_ifs
  · exact (or_and_eq_zero _ _ _).2 ⟨hm, h43⟩
  · exact (or_and_eq_zero _ _ _).2 ⟨hm, hE.2.1⟩
  · exact hm

/-- Membership after a conditional `mxc_fb_add_videomode`. -/
theorem mem_ite_add (c : Prop) [Decidable c] (m : fb_videomode) (l : List fb_videomode)
    (f v : Nat) (x : fb_videomode)
    (hx : x ∈ (if c then mxc_fb_add_videomode m l f v else l)) :
    x ∈ l ∨ x = { m with flag := f, vmode := m.vmode ||| v } := by
  split_ifs at hx
  · rw [add_videomode_eq, List.mem_append, List.mem_singleton] at hx
    exact hx
  · exact Or.inl hx

/-- Every entry appended by the all-modes 3D block is the entry `mode` flagged
3D with one of the four layouts. -/
theorem all_3d_forall (E : Env) (cfg : mxc_edid_cfg) (mode : fb_videomode) (nvic : Int)
    (P : fb_videomode → Prop)
    (hP : ∀ v, (v = E.FB_VMODE_3D_FRAME_PACK ∨ v = E.FB_VMODE_3D_SBS_FULL ∨
        v = E.FB_VMODE_3D_TOP_BOTTOM ∨ v = E.FB_VMODE_3D_SBS_HALF) →
      P { mode with flag := E.FB_MODE_IS_3D, vmode := mode.vmode ||| v }) :
    ∀ x ∈ rebuild_all_3d E cfg mode nvic [], P x := by
  intro x hx
  unfold rebuild_all_3d at hx
  by_cases hout : (cfg.hdmi_3d_multi_present = 2 ∧
      cfg.hdmi_3d_mask_all &&& shl1 (nvic - 1) ≠ 0) ∨
      (cfg.hdmi_3d_multi_present = 1 ∧ nvic ≤ 16)
  · rw [if_pos hout] at hx
    simp only [] at hx
    rcases mem_ite_add _ _ _ _ _ _ hx with h4 | rfl
    · rcases mem_ite_add _ _ _ _ _ _ h4 with h3 | rfl
      · rcases mem_ite_add _ _ _ _ _ _ h3 with h2 | rfl
        · rcases mem_ite_add _ _ _ _ _ _ h2 with h1 | rfl
          · exact absurd h1 (List.not_mem_nil _)
          · exact hP _ (Or.inl rfl)
        · exact hP _ (Or.inr (Or.inl rfl))
      · exact hP _ (Or.inr (Or.inr (Or.inl rfl)))
    · exact hP _ (Or.inr (Or.inr (Or.inr rfl)))
  · rw [if_neg hout] at hx
    exact absurd hx (List.not_mem_nil _)

/-- Every entry appended by the per-timing 3D loop is the entry `mode` flagged
3D with one of the four layouts. -/
theorem format_3d_forall (E : Env) (cfg : mxc_edid_cfg) (mode : fb_videomode) (nvic : Int)
    (P : fb_videomode → Prop)
    (hP : ∀ v, (v = E.FB_VMODE_3D_FRAME_PACK ∨ v = E.FB_VMODE_3D_SBS_FULL ∨
        v = E.FB_VMODE_3D_TOP_BOTTOM ∨ v = E.FB_VMODE_3D_SBS_HALF) →
      P { mode with flag := E.FB_MODE_IS_3D, vmode := mode.vmode ||| v }) :
    ∀ x ∈ rebuild_format_3d E cfg mode nvic [], P x := by
  intro x hx
  unfold rebuild_format_3d at hx
  rw [foldl_append_mem_iff _ (by
    intro l f
    simp only [add_videomode_eq]
    split_ifs <;> simp)] at hx
  obtain ⟨f, -, hx⟩ := hx
  by_cases hord : (f.vic_order_2d : Int) ≠ nvic - 1
  · rw [if_pos hord] at hx
    exact absurd hx (List.not_mem_nil _)
  · rw [if_neg hord] at hx
    simp only [] at hx
    rcases mem_ite_add _ _ _ _ _ _ hx with h4 | rfl
    · rcases mem_ite_add _ _ _ _ _ _ h4 with h3 | rfl
      · rcases mem_ite_add _ _ _ _ _ _ h3 with h2 | rfl
        · rcases mem_ite_add _ _ _ _ _ _ h2 with h1 | rfl
          · exact absurd h1 (List.not_mem_nil _)
          · exact hP _ (Or.inl rfl)
        · exact hP _ (Or.inr (Or.inl rfl))
      · exact hP _ (Or.inr (Or.inr (Or.inl rfl)))
    · exact hP _ (Or.inr (Or.inr (Or.inr rfl)))

/-- The variants appended behind an accepted entry: first the fractional
variant, when line 2251 asks for it, then 3D variants, none of which is
fractional when the entry is not. -/
theorem appended_split (E : Env) (hE : fract_bit_unused E) (hdmi : mxc_hdmi)
    (mode : fb_videomode) (vic : Nat) (nvic : Int)
    (hm : mode.vmode &&& E.FB_VMODE_FRACTIONAL = 0) :
    ∃ td, (∀ x ∈ td, x.vmode &&& E.FB_VMODE_FRACTIONAL = 0) ∧
      rebuild_appended E hdmi mode vic nvic =
        (if vic ≠ 0 ∧ hdmi.hdmi_data.enable_fract ≠ 0 ∧
            (mode.refresh = 24 ∨ mode.refresh = 30 ∨ mode.refresh = 60) then
          [{ mode with vmode := mode.vmode ||| E.FB_VMODE_FRACTIONAL }] else []) ++ td := by
  have hlay : ∀ v, (v = E.FB_VMODE_3D_FRAME_PACK ∨ v = E.FB_VMODE_3D_SBS_FULL ∨
      v = E.FB_VMODE_3D_TOP_BOTTOM ∨ v = E.FB_VMODE_3D_SBS_HALF) →
      v &&& E.FB_VMODE_FRACTIONAL = 0 := by
    obtain ⟨-, -, htb, hfp, hsh, hsf, -⟩ := hE
    rintro v (rfl | rfl | rfl | rfl) <;> assumption
  have hfl : (if vic ≠ 0 ∧ hdmi.hdmi_data.enable_fract ≠ 0 ∧
        (mode.refresh = 24 ∨ mode.refresh = 30 ∨ mode.refresh = 60) then
      mxc_fb_add_videomode mode [] mode.flag E.FB_VMODE_FRACTIONAL else []) =
      (if vic ≠ 0 ∧ hdmi.hdmi_data.enable_fract ≠ 0 ∧
        (mode.refresh = 24 ∨ mode.refresh = 30 ∨ mode.refresh = 60) then
      [{ mode with vmode := mode.vmode ||| E.FB_VMODE_FRACTIONAL }] else []) := by
    split_ifs <;> rfl
  unfold rebuild_appended
  simp only [hfl]
  by_cases hoff : hdmi.hdmi_data.enable_3d = 0 ∨ hdmi.edid_cfg.hdmi_3d_present = 0
  · exact ⟨[], by simp, by simp [hoff]⟩
  · refine ⟨rebuild_mandatory_3d E vic [] ++ (rebuild_all_3d E hdmi.edid_cfg mode nvic [] ++
      rebuild_format_3d E hdmi.edid_cfg mode nvic []), ?_, ?_⟩
    · intro x hx
      simp only [List.mem_append] at hx
      rcases hx with hx | hx | hx
      · obtain ⟨smm, hs, -, rfl⟩ := (mandatory_3d_mem E vic x).1 hx
        have hv : smm.vmode &&& E.FB_VMODE_FRACTIONAL = 0 := by
          apply hlay
          simp only [stereo_mandatory_modes, List.mem_cons, List.mem_singleton,
            List.not_mem_nil, or_false] at hs
          rcases hs with rfl | rfl | rfl | rfl | rfl | rfl | rfl | rfl <;> simp
        exact (or_and_eq_zero _ _ _).2 ⟨hE.2.2.2.2.2.2 smm hs, hv⟩
      · exact all_3d_forall E _ mode nvic (fun x => x.vmode &&& E.FB_VMODE_FRACTIONAL = 0)
          (fun v hv => (or_and_eq_zero _ _ _).2 ⟨hm, hlay v hv⟩) x hx
      · exact format_3d_forall E _ mode nvic
          (fun x => x.vmode &&& E.FB_VMODE_FRACTIONAL = 0)
          (fun v hv => (or_and_eq_zero _ _ _).2 ⟨hm, hlay v hv⟩) x hx
    · simp only [if_neg hoff]
      rw [format_3d_hom, all_3d_hom, mandatory_3d_hom]
      simp [List.append_assoc]


/-- Appending entries that are not fractional keeps the list a chain for any
relation that only constrains fractional entries. -/
theorem chain_append_not_fract (E : Env) (R : fb_videomode → fb_videomode → Prop)
    (hR : ∀ a b, b.vmode &&& E.FB_VMODE_FRACTIONAL = 0 → R a b)
    (td l : List fb_videomode) (hl : l.Chain' R)
    (htd : ∀ x ∈ td, x.vmode &&& E.FB_VMODE_FRACTIONAL = 0) : (l ++ td).Chain' R := by
  induction td generalizing l with
  | nil => simpa using hl
  | cons x td ih =>
    have hx : (l ++ [x]).Chain' R := by
      apply List.Chain'.append hl (List.chain'_singleton x)
      intro a _ b hb
      simp only [List.head?_cons, Option.mem_def, Option.some.injEq] at hb
      subst hb
      exact hR a _ (htd _ (List.mem_cons_self _ _))
    have := ih (l ++ [x]) hx (fun y hy => htd y (List.mem_cons_of_mem _ hy))
    simpa using this

/-- C9. Provided no raw EDID entry carries `FB_VMODE_FRACTIONAL` (and the
flag shares no bit with the other vmode flags the builder uses), every
fractional entry of the rebuilt list, at whatever position, stands right
behind its base entry: the entry is the base with the fractional flag set,
the base is not fractional, has refresh 24, 30 or 60, and is the rewritten
form of a raw entry that the loop body accepted with a VIC other than 0; and
when `enable_fract` is off the list holds no fractional entry. -/
theorem C9_fractional_entries (E : Env) (hdmi : mxc_hdmi) (hE : fract_bit_unused E)
    (hraw : ∀ m ∈ hdmi.fbi.monspecs.modedb, m.vmode &&& E.FB_VMODE_FRACTIONAL = 0) :
    (∀ pre e post,
      (mxc_hdmi_edid_rebuild_modelist E hdmi).fbi.modelist = pre ++ e :: post →
      e.vmode &&& E.FB_VMODE_FRACTIONAL ≠ 0 →
      ∃ pre' base, pre = pre' ++ [base] ∧ is_fract_variant E hdmi base e) ∧
    (hdmi.hdmi_data.enable_fract = 0 →
      ∀ e ∈ (mxc_hdmi_edid_rebuild_modelist E hdmi).fbi.modelist,
        e.vmode &&& E.FB_VMODE_FRACTIONAL = 0) := by
  have hinv := rebuild_passes_inv E hdmi (fun it => it ∈ rebuild_run E hdmi)
    (fun m => m.vmode &&& E.FB_VMODE_FRACTIONAL = 0)
    (fun s => (∃ rest, s.modelist = vga_mode E :: rest) ∧
      s.modelist.Chain' (fract_chain E hdmi))
    (by
      intro fmask mode s hS hI hJ
      constructor
      · rcases rebuild_entry_fst E hdmi fmask mode s with h | h
        · rw [h]; exact hI
        · rw [h]; exact fixup_not_fract E hE mode hI
      · show (∃ rest, (rebuild_entry E hdmi fmask mode s).2.modelist = vga_mode E :: rest) ∧
          (rebuild_entry E hdmi fmask mode s).2.modelist.Chain' _
        rw [rebuild_entry_modelist]
        split_ifs with hacc
        · obtain ⟨⟨rest, hrest⟩, hch⟩ := hJ
          refine ⟨⟨rest ++ rebuild_fixup E mode :: rebuild_appended E hdmi
            (rebuild_fixup E mode) (E.mxc_edid_mode_to_vic mode 0) (rebuild_nvic E mode s),
            by rw [hrest]; rfl⟩, ?_⟩
          have hbase := fixup_not_fract E hE mode hI
          obtain ⟨td, htd, happ⟩ := appended_split E hE hdmi (rebuild_fixup E mode)
            (E.mxc_edid_mode_to_vic mode 0) (rebuild_nvic E mode s) hbase
          rw [happ]
          have hR : ∀ a b : fb_videomode, b.vmode &&& E.FB_VMODE_FRACTIONAL = 0 →
              fract_chain E hdmi a b :=
            fun a b hb hnb => absurd hb hnb
          have h1 : (s.modelist ++ [rebuild_fixup E mode]).Chain' (fract_chain E hdmi) :=
            chain_append_not_fract E _ hR [rebuild_fixup E mode] s.modelist hch
              (by intro x hx; rw [List.mem_singleton] at hx; rw [hx]; exact hbase)
          have h2 : ((s.modelist ++ [rebuild_fixup E mode]) ++
              (if E.mxc_edid_mode_to_vic mode 0 ≠ 0 ∧ hdmi.hdmi_data.enable_fract ≠ 0 ∧
                  ((rebuild_fixup E mode).refresh = 24 ∨ (rebuild_fixup E mode).refresh = 30 ∨
                    (rebuild_fixup E mode).refresh = 60) then
                [{ rebuild_fixup E mode with
                    vmode := (rebuild_fixup E mode).vmode ||| E.FB_VMODE_FRACTIONAL }]
              else [])).Chain' (fract_chain E hdmi) := by
            split_ifs with hc
            · apply List.Chain'.append h1 (List.chain'_singleton _)
              intro a ha b hb _
              rw [Option.mem_def, List.getLast?_concat, Option.some.injEq] at ha
              simp only [List.head?_cons, Option.mem_def, Option.some.injEq] at hb
              subst ha
              subst hb
              exact ⟨hbase, rfl, hc.2.2, hc.2.1, (fmask, mode, s), hS, hacc, rfl, hc.1⟩
            · simpa using h1
          have h3 := chain_append_not_fract E _ hR td _ h2 htd
          simpa [List.append_assoc] using h3
        · exact hJ)
    (fmasks E) hdmi.fbi.monspecs.modedb (rebuild_start E) (fun it hit => hit) hraw
    ⟨⟨[], rfl⟩, List.chain'_singleton _⟩
  obtain ⟨-, ⟨rest, hrest⟩, hch⟩ := hinv
  rw [← rebuild_modelist_eq] at hrest hch
  have hpart : ∀ pre e post,
      (mxc_hdmi_edid_rebuild_modelist E hdmi).fbi.modelist = pre ++ e :: post →
      e.vmode &&& E.FB_VMODE_FRACTIONAL ≠ 0 →
      ∃ pre' base, pre = pre' ++ [base] ∧ is_fract_variant E hdmi base e := by
    intro pre e post hL he
    rcases List.eq_nil_or_concat pre with hp | ⟨pre', base, hp⟩
    on_goal 2 => rw [List.concat_eq_append] at hp
    · subst hp
      rw [hrest] at hL
      simp only [List.nil_append, List.cons.injEq] at hL
      exact absurd (by rw [← hL.1]; exact hE.1) he
    · refine ⟨pre', base, hp, ?_⟩
      rw [hL, hp, List.append_assoc, List.singleton_append] at hch
      exact (List.chain'_append_cons_cons.1 hch).2.1 he
  refine ⟨hpart, ?_⟩
  intro hoff e he
  by_contra hne
  obtain ⟨pre, post, hL⟩ := List.append_of_mem he
  obtain ⟨_, _, _, hv⟩ := hpart pre e post hL hne
  exact hv.2.2.2.1 hoff

set_option maxRecDepth 100000 in
/-- Witness of C9: the sink whose only timing is 1920x1080 at 60 Hz; its
fractional sibling stands behind the native entry. -/
theorem C9_fractional_entries_witness :
    fract_bit_unused refEnv ∧
    (∀ m ∈ dev_1080p.fbi.monspecs.modedb, m.vmode &&& refEnv.FB_VMODE_FRACTIONAL = 0) ∧
    ∃ pre' base, [vga_mode refEnv, raw_of_vic 16 16] = pre' ++ [base] ∧
      is_fract_variant refEnv dev_1080p base
        { raw_of_vic 16 16 with vmode := 0x1020 } :=
  ⟨by decide, by decide,
    (C9_fractional_entries refEnv dev_1080p (by decide) (by decide)).1
      [vga_mode refEnv, raw_of_vic 16 16] { raw_of_vic 16 16 with vmode := 0x1020 } []
      (by decide) (by decide)⟩

/-! ### C10: mandatory 3D timings -/

/-- At the spec's appending `fb_add_videomode` the builder over `add` is the
builder of the other statements. -/
theorem rebuild_on_append (E : Env) (hdmi : mxc_hdmi) :
    rebuild_modelist_on fb_add_videomode E hdmi =
      (mxc_hdmi_edid_rebuild_modelist E hdmi).fbi.modelist := by
  have hm : ∀ (src : fb_videomode) (l : List fb_videomode) (f v : Nat),
      mxc_fb_add_videomode_on fb_add_videomode src l f v = mxc_fb_add_videomode src l f v :=
    fun _ _ _ _ => rfl
  have h1 : ∀ (vic : Nat) (l : List fb_videomode),
      rebuild_mandatory_3d_on fb_add_videomode E vic l = rebuild_mandatory_3d E vic l :=
    fun _ _ => rfl
  have h2 : ∀ (cfg : mxc_edid_cfg) (mode : fb_videomode) (nvic : Int)
      (l : List fb_videomode),
      rebuild_all_3d_on fb_add_videomode E cfg mode nvic l =
        rebuild_all_3d E cfg mode nvic l := fun _ _ _ _ => rfl
  have h3 : ∀ (cfg : mxc_edid_cfg) (mode : fb_videomode) (nvic : Int)
      (l : List fb_videomode),
      rebuild_format_3d_on fb_add_videomode E cfg mode nvic l =
        rebuild_format_3d E cfg mode nvic l := fun _ _ _ _ => rfl
  have he : ∀ (fmask : Nat) (mode : fb_videomode) (s : rebuild_state),
      rebuild_entry_on fb_add_videomode E hdmi fmask mode s =
        rebuild_entry E hdmi fmask mode s := fun _ _ _ => rfl
  have hp : ∀ (fmask : Nat) (modedb : List fb_videomode) (s : rebuild_state),
      rebuild_pass_on fb_add_videomode E hdmi fmask modedb s =
        rebuild_pass E hdmi fmask modedb s := by
    intro fmask modedb
    induction modedb with
    | nil => intro s; rfl
    | cons mode rest ih =>
      intro s
      simp only [rebuild_pass_on, rebuild_pass, he, ih]
  have hps : ∀ (masks : List Nat) (modedb : List fb_videomode) (s : rebuild_state),
      rebuild_passes_on fb_add_videomode E hdmi masks modedb s =
        rebuild_passes E hdmi masks modedb s := by
    intro masks
    induction masks with
    | nil => intro modedb s; rfl
    | cons fmask rest ih =>
      intro modedb s
      simp only [rebuild_passes_on, rebuild_passes, hp, ih]
  unfold rebuild_modelist_on
  rw [hps]
  rfl

/-- A fold keeps what each of its steps keeps. -/
theorem foldl_keeps {α β : Type} (P : β → Prop) (step : β → α → β)
    (h : ∀ l x, P l → P (step l x)) (xs : List α) (l : β) (hl : P l) :
    P (xs.foldl step l) := by
  induction xs generalizing l with
  | nil => exact hl
  | cons x xs ih => exact ih _ (h l x hl)

/-- Whatever every call of `add` keeps is kept by `mxc_fb_add_videomode`. -/
theorem add_on_keeps (add : fb_add_fn) (P : List fb_videomode → Prop)
    (hP : ∀ m l, P l → P (add m l).2) (src : fb_videomode) (l : List fb_videomode)
    (f v : Nat) (hl : P l) : P (mxc_fb_add_videomode_on add src l f v) :=
  hP _ _ hl

/-- Whatever every call of `add` keeps is kept by the mandatory loop. -/
theorem mandatory_on_keeps (add : fb_add_fn) (P : List fb_videomode → Prop)
    (hP : ∀ m l, P l → P (add m l).2) (E : Env) (vic : Nat) (l : List fb_videomode)
    (hl : P l) : P (rebuild_mandatory_3d_on add E vic l) := by
  unfold rebuild_mandatory_3d_on
  apply foldl_keeps P _ _ _ _ hl
  intro l x hl
  split_ifs
  · exact hl
  · exact add_on_keeps add P hP _ _ _ _ hl

/-- A conditional call of `mxc_fb_add_videomode` keeps what `add` keeps. -/
theorem ite_add_keeps (add : fb_add_fn) (P : List fb_videomode → Prop)
    (hP : ∀ m l, P l → P (add m l).2) (c : Prop) [Decidable c] (src : fb_videomode)
    (l : List fb_videomode) (f v : Nat) (hl : P l) :
    P (if c then mxc_fb_add_videomode_on add src l f v else l) := by
  split_ifs
  · exact add_on_keeps add P hP _ _ _ _ hl
  · exact hl

/-- Whatever every call of `add` keeps is kept by the all-modes block. -/
theorem all_3d_on_keeps (add : fb_add_fn) (P : List fb_videomode → Prop)
    (hP : ∀ m l, P l → P (add m l).2) (E : Env) (cfg : mxc_edid_cfg) (mode : fb_videomode)
    (nvic : Int) (l : List fb_videomode) (hl : P l) :
    P (rebuild_all_3d_on add E cfg mode nvic l) := by
  unfold rebuild_all_3d_on
  by_cases hc : (cfg.hdmi_3d_multi_present = 2 ∧
      cfg.hdmi_3d_mask_all &&& shl1 (nvic - 1) ≠ 0) ∨
      (cfg.hdmi_3d_multi_present = 1 ∧ nvic ≤ 16)
  · rw [if_pos hc]
    exact ite_add_keeps add P hP _ _ _ _ _ (ite_add_keeps add P hP _ _ _ _ _
      (ite_add_keeps add P hP _ _ _ _ _ (ite_add_keeps add P hP _ _ _ _ _ hl)))
  · rw [if_neg hc]
    exact hl

/-- Whatever every call of `add` keeps is kept by the per-timing loop. -/
theorem format_3d_on_keeps (add : fb_add_fn) (P : List fb_videomode → Prop)
    (hP : ∀ m l, P l → P (add m l).2) (E : Env) (cfg : mxc_edid_cfg) (mode : fb_videomode)
    (nvic : Int) (l : List fb_videomode) (hl : P l) :
    P (rebuild_format_3d_on add E cfg mode nvic l) := by
  unfold rebuild_format_3d_on
  apply foldl_keeps P _ _ _ _ hl
  intro l f hl
  by_cases hc : (f.vic_order_2d : Int) ≠ nvic - 1
  · rw [if_pos hc]
    exact hl
  · rw [if_neg hc]
    exact ite_add_keeps add P hP _ _ _ _ _ (ite_add_keeps add P hP _ _ _ _ _
      (ite_add_keeps add P hP _ _ _ _ _ (ite_add_keeps add P hP _ _ _ _ _ hl)))

/-- The list after the loop body over `add`, for an entry that the body
takes behind line 2246 while 3D generation is on and the sink has 3D
support. -/
theorem rebuild_entry_on_3d (add : fb_add_fn) (E : Env) (hdmi : mxc_hdmi) (fmask : Nat)
    (mode : fb_videomode) (s : rebuild_state)
    (hacc : rebuild_accepts_on add E hdmi fmask mode s)
    (h3d : hdmi.hdmi_data.enable_3d ≠ 0) (hp : hdmi.edid_cfg.hdmi_3d_present ≠ 0) :
    ∃ l, (rebuild_entry_on add E hdmi fmask mode s).2.modelist =
      rebuild_format_3d_on add E hdmi.edid_cfg (rebuild_fixup E mode)
        (rebuild_nvic E mode s)
        (rebuild_all_3d_on add E hdmi.edid_cfg (rebuild_fixup E mode) (rebuild_nvic E mode s)
          (rebuild_mandatory_3d_on add E (E.mxc_edid_mode_to_vic mode 0) l)) := by
  obtain ⟨h1, h2, h3, h4, h5⟩ := hacc
  have hoff : ¬ (hdmi.hdmi_data.enable_3d = 0 ∨ hdmi.edid_cfg.hdmi_3d_present = 0) := by
    rintro (h | h)
    · exact h3d h
    · exact hp h
  have h4t : ¬ (mxc_fb_check_existing E (rebuild_fixup E mode)
      (E.mxc_edid_mode_to_vic mode 0) s.modelist = true) := by
    rw [h4]
    decide
  have h5t : ¬ ((add (rebuild_fixup E mode) s.modelist).1 ≠ 0) := fun h => h h5
  have hn : (if E.mxc_edid_mode_to_vic mode 0 ≠ 0 then s.nvic + 1 else s.nvic) =
      rebuild_nvic E mode s := rfl
  unfold rebuild_entry_on
  simp only [hn]
  rw [if_neg h1, if_neg h2, if_neg h3, if_neg h4t, if_neg h5t, if_neg hoff]
  exact ⟨_, rfl⟩

/-- Whatever every call of `add` keeps is kept by the loop body. -/
theorem rebuild_entry_on_keeps (add : fb_add_fn) (P : List fb_videomode → Prop)
    (hP : ∀ m l, P l → P (add m l).2) (E : Env) (hdmi : mxc_hdmi) (fmask : Nat)
    (mode : fb_videomode) (s : rebuild_state) (hs : P s.modelist) :
    P (rebuild_entry_on add E hdmi fmask mode s).2.modelist := by
  unfold rebuild_entry_on
  by_cases h1 : hdmi.edid_cfg.hdmi_cap = true ∧ fmask ≠ U32_MAX ∧ mode.flag &&& fmask = 0
  · rw [if_pos h1]
    exact hs
  rw [if_neg h1]
  simp only []
  by_cases h2 : hdmi.edid_cfg.hdmi_cap = true ∧
      ((¬ (mode.flag &&& E.FB_MODE_IS_DETAILED ≠ 0 ∨ mode.flag = 0) ∧
          E.mxc_edid_mode_to_vic mode 0 = 0) ∨
        mode.flag &&& E.FB_MODE_IS_VESA ≠ 0)
  · rw [if_pos h2]
    exact hs
  rw [if_neg h2]
  by_cases h3 : mode.xres = 0 ∨ mode.refresh = 0
  · rw [if_pos h3]
    exact hs
  rw [if_neg h3]
  by_cases h4 : mxc_fb_check_existing E (rebuild_fixup E mode)
      (E.mxc_edid_mode_to_vic mode 0) s.modelist = true
  · rw [if_pos h4]
    exact hs
  rw [if_neg h4]
  have ha : P (add (rebuild_fixup E mode) s.modelist).2 := hP _ _ hs
  by_cases h5 : (add (rebuild_fixup E mode) s.modelist).1 ≠ 0
  · rw [if_pos h5]
    exact ha
  rw [if_neg h5]
  have hf := ite_add_keeps add P hP
    (E.mxc_edid_mode_to_vic mode 0 ≠ 0 ∧ hdmi.hdmi_data.enable_fract ≠ 0 ∧
      ((rebuild_fixup E mode).refresh = 24 ∨ (rebuild_fixup E mode).refresh = 30 ∨
        (rebuild_fixup E mode).refresh = 60))
    (rebuild_fixup E mode) _ (rebuild_fixup E mode).flag E.FB_VMODE_FRACTIONAL ha
  by_cases h6 : hdmi.hdmi_data.enable_3d = 0 ∨ hdmi.edid_cfg.hdmi_3d_present = 0
  · rw [if_pos h6]
    exact hf
  · rw [if_neg h6]
    exact format_3d_on_keeps add P hP _ _ _ _ _
      (all_3d_on_keeps add P hP _ _ _ _ _ (mandatory_on_keeps add P hP _ _ _ hf))

/-- Whatever every call of `add` keeps is kept by a pass. -/
theorem rebuild_pass_on_keeps (add : fb_add_fn) (P : List fb_videomode → Prop)
    (hP : ∀ m l, P l → P (add m l).2) (E : Env) (hdmi : mxc_hdmi) (fmask : Nat) :
    ∀ (modedb : List fb_videomode) (s : rebuild_state), P s.modelist →
      P (rebuild_pass_on add E hdmi fmask modedb s).2.modelist := by
  intro modedb
  induction modedb with
  | nil => intro s hs; exact hs
  | cons mode rest ih =>
    intro s hs
    simp only [rebuild_pass_on]
    exact ih _ (rebuild_entry_on_keeps add P hP E hdmi fmask mode s hs)

/-- Whatever every call of `add` keeps is kept by the run of passes. -/
theorem rebuild_passes_on_keeps (add : fb_add_fn) (P : List fb_videomode → Prop)
    (hP : ∀ m l, P l → P (add m l).2) (E : Env) (hdmi : mxc_hdmi) :
    ∀ (masks : List Nat) (modedb : List fb_videomode) (s : rebuild_state), P s.modelist →
      P (rebuild_passes_on add E hdmi masks modedb s).2.modelist := by
  intro masks
  induction masks with
  | nil => intro modedb s hs; exact hs
  | cons fmask rest ih =>
    intro modedb s hs
    by_cases hz : fmask = 0
    · simp only [rebuild_passes_on, hz, if_true]
      exact hs
    · simp only [rebuild_passes_on, hz, if_false]
      exact ih _ _ (rebuild_pass_on_keeps add P hP E hdmi fmask modedb s hs)

/-- What holds of the list after an iteration of the loop body, and is kept
by every call of `add`, holds of the final list. -/
theorem iteration_on_keeps (add : fb_add_fn) (P : List fb_videomode → Prop)
    (hP : ∀ m l, P l → P (add m l).2) (E : Env) (hdmi : mxc_hdmi) :
    ∀ (masks : List Nat) (modedb : List fb_videomode) (s : rebuild_state),
      ∀ it ∈ rebuild_iterations_on add E hdmi masks modedb s,
        P (rebuild_entry_on add E hdmi it.1 it.2.1 it.2.2).2.modelist →
        P (rebuild_passes_on add E hdmi masks modedb s).2.modelist := by
  have hpass : ∀ (fmask : Nat) (modedb : List fb_videomode) (s : rebuild_state),
      ∀ it ∈ pass_iterations_on add E hdmi fmask modedb s,
        P (rebuild_entry_on add E hdmi fmask it.1 it.2).2.modelist →
        P (rebuild_pass_on add E hdmi fmask modedb s).2.modelist := by
    intro fmask modedb
    induction modedb with
    | nil => intro s it hit; simp [pass_iterations_on] at hit
    | cons mode rest ih =>
      intro s it hit hit'
      simp only [pass_iterations_on, List.mem_cons] at hit
      simp only [rebuild_pass_on]
      rcases hit with rfl | hit
      · exact rebuild_pass_on_keeps add P hP E hdmi fmask rest _ hit'
      · exact ih _ it hit hit'
  intro masks
  induction masks with
  | nil => intro modedb s it hit; simp [rebuild_iterations_on] at hit
  | cons fmask rest ih =>
    intro modedb s it hit hit'
    by_cases hz : fmask = 0
    · simp [rebuild_iterations_on, hz] at hit
    · simp only [rebuild_iterations_on, hz, if_false, List.mem_append, List.mem_map] at hit
      simp only [rebuild_passes_on, hz, if_false]
      rcases hit with ⟨it', hit1, rfl⟩ | hit
      · exact rebuild_passes_on_keeps add P hP E hdmi rest _ _ (hpass fmask modedb s it' hit1 hit')
      · exact ih _ _ it hit hit'

/-- A call of `add` keeps the list free of two equal modes. -/
theorem adds_once_pairwise (eq : fb_videomode → fb_videomode → Bool) (add : fb_add_fn)
    (hadd : adds_once eq add) (m : fb_videomode) (l : List fb_videomode)
    (hl : l.Pairwise (fun a b => eq a b = false)) :
    (add m l).2.Pairwise (fun a b => eq a b = false) := by
  have hsymm : ∀ a b : fb_videomode, eq a b = false → eq b a = false := by
    intro a b hab
    rw [Bool.eq_false_iff] at hab ⊢
    exact fun hba => hab (hadd.symm b a hba)
  by_cases hex : ∃ e ∈ l, eq e m = true
  · rw [hadd.skip m l hex]
    exact hl
  · have hall : ∀ e ∈ l, eq e m = false := by
      intro e he
      rw [Bool.eq_false_iff]
      exact fun h => hex ⟨e, he, h⟩
    have hperm := hadd.fresh m l hall
    have hcons : (m :: l).Pairwise (fun a b => eq a b = false) :=
      List.pairwise_cons.2 ⟨fun e he => hsymm e m (hall e he), hl⟩
    exact (hperm.pairwise_iff (fun {a b} h => hsymm a b h)).2 hcons

/-- After a call of `add` the list holds a mode equal to the one added. -/
theorem adds_once_listed (eq : fb_videomode → fb_videomode → Bool) (add : fb_add_fn)
    (hadd : adds_once eq add) (m : fb_videomode) (l : List fb_videomode) :
    ∃ e ∈ (add m l).2, eq e m = true := by
  by_cases hex : ∃ e ∈ l, eq e m = true
  · rw [hadd.skip m l hex]
    exact hex
  · have hall : ∀ e ∈ l, eq e m = false := by
      intro e he
      rw [Bool.eq_false_iff]
      exact fun h => hex ⟨e, he, h⟩
    exact ⟨m, (hadd.fresh m l hall).mem_iff.2 (List.mem_cons_self _ _), hadd.refl m⟩

/-- A call of `add` removes no entry. -/
theorem adds_once_mono (eq : fb_videomode → fb_videomode → Bool) (add : fb_add_fn)
    (hadd : adds_once eq add) (x : fb_videomode) (m : fb_videomode) (l : List fb_videomode)
    (hl : ∃ e ∈ l, eq e x = true) : ∃ e ∈ (add m l).2, eq e x = true := by
  by_cases hex : ∃ e ∈ l, eq e m = true
  · rw [hadd.skip m l hex]
    exact hl
  · have hall : ∀ e ∈ l, eq e m = false := by
      intro e he
      rw [Bool.eq_false_iff]
      exact fun h => hex ⟨e, he, h⟩
    obtain ⟨e, he, hx⟩ := hl
    exact ⟨e, (hadd.fresh m l hall).mem_iff.2 (List.mem_cons_of_mem _ he), hx⟩

/-- The mandatory loop over `add` leaves in the list, for every row of the
table with the VIC at hand, a mode equal to the structured timing of the
row. -/
theorem mandatory_on_listed (eq : fb_videomode → fb_videomode → Bool) (add : fb_add_fn)
    (hadd : adds_once eq add) (E : Env) (vic : Nat) (l : List fb_videomode)
    (smm : stereo_mandatory_mode) (hs : smm ∈ stereo_mandatory_modes E) (hv : smm.vic = vic) :
    ∃ e ∈ rebuild_mandatory_3d_on add E vic l, eq e (mandatory_timing E smm) = true := by
  unfold rebuild_mandatory_3d_on
  have hgen : ∀ (xs : List stereo_mandatory_mode) (l : List fb_videomode), smm ∈ xs →
      ∃ e ∈ xs.foldl
        (fun l smm =>
          if smm.vic ≠ vic then l
          else mxc_fb_add_videomode_on add (E.mxc_cea_mode vic) l E.FB_MODE_IS_3D smm.vmode)
        l, eq e (mandatory_timing E smm) = true := by
    intro xs
    induction xs with
    | nil => intro l h; simp at h
    | cons x xs ih =>
      intro l h
      rw [List.foldl_cons]
      rcases List.mem_cons.1 h with rfl | h
      · apply foldl_keeps (fun l => ∃ e ∈ l, eq e (mandatory_timing E smm) = true)
        · intro l x hl
          split_ifs
          · exact hl
          · exact adds_once_mono eq add hadd _ _ _ hl
        · rw [if_neg (not_not.2 hv)]
          have := adds_once_listed eq add hadd
            { E.mxc_cea_mode vic with
              flag := E.FB_MODE_IS_3D, vmode := (E.mxc_cea_mode vic).vmode ||| smm.vmode } l
          unfold mandatory_timing
          rw [hv]
          exact this
      · exact ih _ h
  exact hgen _ l hs

/-- In a list free of two equal modes, at most one entry is equal to a given
mode. -/
theorem countP_le_one (eq : fb_videomode → fb_videomode → Bool)
    (hsymm : ∀ a b, eq a b = true → eq b a = true)
    (htrans : ∀ a b c, eq a b = true → eq b c = true → eq a c = true)
    (x : fb_videomode) (l : List fb_videomode)
    (hl : l.Pairwise (fun a b => eq a b = false)) :
    l.countP (fun e => eq e x) ≤ 1 := by
  induction l with
  | nil => simp
  | cons a l ih =>
    rw [List.pairwise_cons] at hl
    by_cases ha : eq a x = true
    · have hz : l.countP (fun e => eq e x) = 0 := by
        rw [List.countP_eq_zero]
        intro b hb hbx
        have hab : eq a b = true := htrans a x b ha (hsymm b x hbx)
        rw [hl.1 b hb] at hab
        exact absurd hab (by decide)
      rw [List.countP_cons, hz]
      simp [ha]
    · rw [List.countP_cons]
      have := ih hl.2
      simp only [ha, Bool.false_eq_true, if_false, Nat.add_zero]
      exact this

/-- The function `fb_add_unique` lists no mode twice, under equality in every
field. -/
theorem fb_add_unique_once : adds_once (fun a b => decide (a = b)) fb_add_unique := by
  refine ⟨by simp, ?_, ?_, ?_, ?_⟩
  · intro a b h
    simp at h ⊢
    exact h.symm
  · intro a b c h1 h2
    simp at h1 h2 ⊢
    exact h1.trans h2
  · rintro m l ⟨e, he, h⟩
    simp at h
    subst h
    simp [fb_add_unique, he]
  · intro m l h
    have hm : m ∉ l := by
      intro hm
      have := h m hm
      simp at this
    simp only [fb_add_unique, if_neg hm]
    exact List.perm_append_singleton m l

theorem fixup_native (E : Env) (m : fb_videomode) (hx : m.xres = 1920) (hy : m.yres = 1080) :
    rebuild_fixup E m = native_listed E m := by
  have h8 : ALIGN2 1920 8 = 1920 := by decide
  have h9 : ALIGN2 1080 8 = 1080 := by decide
  have hne : ¬ (1080 = 1920 * 3 % 2 ^ 32 / 4) := by decide
  unfold rebuild_fixup native_listed
  simp only [hx, hy, h8, h9, if_neg hne]

theorem fixup_native_listed (E : Env) (m : fb_videomode) (hx : m.xres = 1920)
    (hy : m.yres = 1080) :
    rebuild_fixup E (native_listed E m) = native_listed E m := by
  rw [fixup_native E (native_listed E m) hx hy]
  unfold native_listed
  simp only []
  by_cases h1 : m.vmode &&& E.FB_VMODE_ASPECT_MASK = 0
  · simp only [if_pos h1]
    by_cases h2 : (m.vmode ||| E.FB_VMODE_ASPECT_16_9) &&& E.FB_VMODE_ASPECT_MASK = 0
    · simp only [if_pos h2, Nat.or_assoc, Nat.or_self]
    · simp only [if_neg h2]
  · simp only [if_neg h1]

theorem same_key_refl (E : Env) (a : fb_videomode) : same_key E a a = true := by
  simp [same_key]

/-- An entry whose rewritten form has its key in the list is passed over:
the list is kept. -/
theorem rebuild_entry_seen (E : Env) (hdmi : mxc_hdmi) (fmask : Nat) (mode : fb_videomode)
    (s : rebuild_state) (h : rebuild_fixup E mode ∈ s.modelist) :
    (rebuild_entry E hdmi fmask mode s).2.modelist = s.modelist := by
  rw [rebuild_entry_modelist]
  have hacc : ¬ rebuild_accepts E hdmi fmask mode s := by
    intro hacc
    have hex : mxc_fb_check_existing E (rebuild_fixup E mode)
        (E.mxc_edid_mode_to_vic mode 0) s.modelist = true := by
      unfold mxc_fb_check_existing
      rw [List.any_eq_true]
      exact ⟨_, h, same_key_refl E _⟩
    rw [hacc.2.2.2] at hex
    exact absurd hex (by decide)
  rw [if_neg hacc]

/-- The rewritten native entry goes through every further pass unchanged,
and so does the list that holds it. -/
theorem passes_native (E : Env) (hdmi : mxc_hdmi) (m : fb_videomode) (hx : m.xres = 1920)
    (hy : m.yres = 1080) (l : List fb_videomode) (hl : native_listed E m ∈ l) :
    ∀ (masks : List Nat) (s : rebuild_state), s.modelist = l →
      (rebuild_passes E hdmi masks [native_listed E m] s).1 = [native_listed E m] ∧
      (rebuild_passes E hdmi masks [native_listed E m] s).2.modelist = l := by
  intro masks
  induction masks with
  | nil => intro s hs; exact ⟨rfl, hs⟩
  | cons fmask rest ih =>
    intro s hs
    by_cases hz : fmask = 0
    · simp only [rebuild_passes, hz, if_true]
      exact ⟨trivial, hs⟩
    · have hp : rebuild_pass E hdmi fmask [native_listed E m] s =
          ([(rebuild_entry E hdmi fmask (native_listed E m) s).1],
            (rebuild_entry E hdmi fmask (native_listed E m) s).2) := rfl
      have h1 : (rebuild_entry E hdmi fmask (native_listed E m) s).1 = native_listed E m := by
        rcases rebuild_entry_fst E hdmi fmask (native_listed E m) s with h | h
        · exact h
        · rw [h]
          exact fixup_native_listed E m hx hy
      have h2 : (rebuild_entry E hdmi fmask (native_listed E m) s).2.modelist = l := by
        rw [rebuild_entry_seen E hdmi fmask _ s
          (by rw [fixup_native_listed E m hx hy, hs]; exact hl)]
        exact hs
      rw [rebuild_passes, if_neg hz, hp, h1]
      exact ih _ h2

/-- C11. For a capability record with no 3D support and exactly one raw
timing entry `m` (1920x1080, refresh 60, flagged first, VIC 16; being a native
timing and not an entry of the VESA table, it does not carry
`FB_MODE_IS_VESA`), with `enable_fract` on, `mxc_hdmi_edid_rebuild_modelist`
produces exactly the three-entry list [`vga_mode`, the native entry, the native
entry with the fractional flag added], in that order. The native entry is the
entry of the timing database as the builder, which rewrites it in place, leaves
it there: `m` with the 16:9 aspect tag set when `m` carries no aspect tag, and
`m` itself when it carries one. This holds with `hdmi_cap` true, as in the
claim, and with `hdmi_cap` false. -/
theorem C11_single_native (E : Env) (hdmi : mxc_hdmi) (m : fb_videomode)
    (h3d : hdmi.edid_cfg.hdmi_3d_present = 0)
    (hfr : hdmi.hdmi_data.enable_fract ≠ 0) (hdb : hdmi.fbi.monspecs.modedb = [m])
    (hx : m.xres = 1920) (hy : m.yres = 1080) (hr : m.refresh = 60)
    (hfirst : m.flag &&& E.FB_MODE_IS_FIRST ≠ 0) (hvesa : m.flag &&& E.FB_MODE_IS_VESA = 0)
    (hvic : E.mxc_edid_mode_to_vic m 0 = 16) :
    (mxc_hdmi_edid_rebuild_modelist E hdmi).fbi.monspecs.modedb = [native_listed E m] ∧
    (mxc_hdmi_edid_rebuild_modelist E hdmi).fbi.modelist =
      [vga_mode E, native_listed E m,
        { native_listed E m with
          vmode := (native_listed E m).vmode ||| E.FB_VMODE_FRACTIONAL }] ∧
    native_listed E m =
      { m with vmode := if m.vmode &&& E.FB_VMODE_ASPECT_MASK = 0 then
          m.vmode ||| E.FB_VMODE_ASPECT_16_9 else m.vmode } ∧
    (m.vmode &&& E.FB_VMODE_ASPECT_MASK ≠ 0 → native_listed E m = m) := by
  have hlast : m.vmode &&& E.FB_VMODE_ASPECT_MASK ≠ 0 → native_listed E m = m := by
    intro h
    unfold native_listed
    rw [if_neg h]
  have hF : E.FB_MODE_IS_FIRST ≠ 0 := by
    intro h0
    rw [h0, Nat.and_zero] at hfirst
    exact hfirst rfl
  -- the first pass accepts the entry
  have hacc : rebuild_accepts E hdmi E.FB_MODE_IS_FIRST m (rebuild_start E) := by
    refine ⟨fun h => hfirst h.2.2, ?_, ?_, ?_⟩
    · rintro ⟨-, h | h⟩
      · rw [hvic] at h
        exact absurd h.2 (by decide)
      · exact h hvesa
    · rw [hx, hr]
      decide
    · rw [fixup_native E m hx hy]
      simp [mxc_fb_check_existing, rebuild_start, same_key, native_listed, vga_mode, hx]
  have hun : ¬ rebuild_untouched E hdmi E.FB_MODE_IS_FIRST m := by
    rintro (h | h | h)
    · exact hacc.1 h
    · exact hacc.2.1 h
    · exact hacc.2.2.1 h
  have hl1 : (rebuild_entry E hdmi E.FB_MODE_IS_FIRST m (rebuild_start E)).2.modelist =
      [vga_mode E, native_listed E m,
        { native_listed E m with
          vmode := (native_listed E m).vmode ||| E.FB_VMODE_FRACTIONAL }] := by
    rw [rebuild_entry_modelist, if_pos hacc, fixup_native E m hx hy]
    have hfv : (16 : Nat) ≠ 0 ∧ hdmi.hdmi_data.enable_fract ≠ 0 ∧
        ((native_listed E m).refresh = 24 ∨ (native_listed E m).refresh = 30 ∨
          (native_listed E m).refresh = 60) :=
      ⟨by decide, hfr, Or.inr (Or.inr hr)⟩
    unfold rebuild_appended
    rw [hvic]
    simp only [if_pos hfv, if_pos (Or.inr h3d : hdmi.hdmi_data.enable_3d = 0 ∨
      hdmi.edid_cfg.hdmi_3d_present = 0), add_videomode_eq]
    rfl
  have he1 : (rebuild_entry E hdmi E.FB_MODE_IS_FIRST m (rebuild_start E)).1 =
      native_listed E m := by
    rw [rebuild_entry_fst_eq, if_neg hun, fixup_native E m hx hy]
  -- the later passes find the entry in the list
  have hrest := passes_native E hdmi m hx hy
    [vga_mode E, native_listed E m,
      { native_listed E m with vmode := (native_listed E m).vmode ||| E.FB_VMODE_FRACTIONAL }]
    (by simp)
    [not32 (E.FB_MODE_IS_DETAILED ||| E.FB_MODE_IS_FIRST), E.FB_MODE_IS_DETAILED, U32_MAX, 0]
    (rebuild_entry E hdmi E.FB_MODE_IS_FIRST m (rebuild_start E)).2 hl1
  have hp : rebuild_pass E hdmi E.FB_MODE_IS_FIRST [m] (rebuild_start E) =
      ([(rebuild_entry E hdmi E.FB_MODE_IS_FIRST m (rebuild_start E)).1],
        (rebuild_entry E hdmi E.FB_MODE_IS_FIRST m (rebuild_start E)).2) := rfl
  have hrun : rebuild_passes E hdmi (fmasks E) [m] (rebuild_start E) =
      rebuild_passes E hdmi
        [not32 (E.FB_MODE_IS_DETAILED ||| E.FB_MODE_IS_FIRST), E.FB_MODE_IS_DETAILED, U32_MAX, 0]
        [native_listed E m] (rebuild_entry E hdmi E.FB_MODE_IS_FIRST m (rebuild_start E)).2 := by
    unfold fmasks
    rw [rebuild_passes, if_neg hF, hp, he1]
  have hmd : (mxc_hdmi_edid_rebuild_modelist E hdmi).fbi.monspecs.modedb =
      (rebuild_passes E hdmi (fmasks E) hdmi.fbi.monspecs.modedb (rebuild_start E)).1 := rfl
  refine ⟨?_, ?_, rfl, hlast⟩
  · rw [hmd, hdb, hrun]
    exact hrest.1
  · rw [rebuild_modelist_eq, hdb, hrun]
    exact hrest.2

set_option maxRecDepth 100000 in
/-- Witness of C11: the sink whose native entry is a detailed timing given
without an aspect tag; the builder tags it 16:9 in the timing database and
lists it so. -/
theorem C11_single_native_witness :
    (mxc_hdmi_edid_rebuild_modelist refEnv
        (dev_with { hdmi_cap := true } [raw_1080p_untagged])).fbi.monspecs.modedb =
      [{ raw_1080p_untagged with vmode := 0x20 }] ∧
    (mxc_hdmi_edid_rebuild_modelist refEnv
        (dev_with { hdmi_cap := true } [raw_1080p_untagged])).fbi.modelist =
      [vga_mode refEnv, { raw_1080p_untagged with vmode := 0x20 },
        { raw_1080p_untagged with vmode := 0x1020 }] :=
  ⟨(C11_single_native refEnv (dev_with { hdmi_cap := true } [raw_1080p_untagged])
      raw_1080p_untagged (by decide) (by decide) (by decide) (by decide) (by decide)
      (by decide) (by decide) (by decide) (by decide)).1,
    (C11_single_native refEnv (dev_with { hdmi_cap := true } [raw_1080p_untagged])
      raw_1080p_untagged (by decide) (by decide) (by decide) (by decide) (by decide)
      (by decide) (by decide) (by decide) (by decide)).2.1⟩

/-! ### C12: the decision of `mxc_hdmi_set_mode` -/

set_option maxRecDepth 100000 in
/-- C12 as stated fails: the list holds 1280x720 at 60 Hz alone, the timing
asked for is 1920x1080 at 60 Hz, so the chosen entry differs from it; with the
status `HDMI_EDID_SAME` the function unblanks and reports the cable state, and
neither `fb_set_var` nor `mxc_hdmi_setup` is called. -/
theorem C12_counterexample :
    refEnv.mxc_fb_find_nearest_mode (set_mode_request refEnv dev_list_720p)
      dev_list_720p.fbi.modelist false = some (ref_cea_mode 4) ∧
    refEnv.mxc_edid_fb_mode_is_equal true (set_mode_request refEnv dev_list_720p)
      (ref_cea_mode 4) U32_MAX = false ∧
    (mxc_hdmi_set_mode refEnv dev_list_720p HDMI_EDID_SAME).trace =
      [.fb_blank_unblank, .hdmi_set_cable_state 1] := by
  decide

set_option maxHeartbeats 1000000 in
/-- C12, amended. When the entry chosen by `mxc_fb_find_nearest_mode` equals
the timing asked for and the status is `HDMI_EDID_SAME`, only the hardware
set-up `mxc_hdmi_setup` is run and `fb_set_var` is not called; when it equals
the timing asked for and the status is not `HDMI_EDID_SAME`, the display
consumer is notified through `fb_set_var` with the previous `var`; when it
differs and the status is not `HDMI_EDID_SAME`, the consumer is notified with
the geometry of the chosen entry; when it differs and the status is
`HDMI_EDID_SAME`, neither the set-up nor the notification is run. In every
case the screen is unblanked before and the cable state is reported after. -/
theorem C12_set_mode_decision (E : Env) (hdmi : mxc_hdmi) (edid_status : Int)
    (mode : fb_videomode)
    (hfind : E.mxc_fb_find_nearest_mode (set_mode_request E hdmi) hdmi.fbi.modelist false =
      some mode) :
    (E.mxc_edid_fb_mode_is_equal true (set_mode_request E hdmi) mode U32_MAX = true →
      edid_status = HDMI_EDID_SAME →
      (mxc_hdmi_set_mode E hdmi edid_status).trace =
        hdmi.trace ++ [.fb_blank_unblank, .mxc_hdmi_setup, .hdmi_set_cable_state 1]) ∧
    (E.mxc_edid_fb_mode_is_equal true (set_mode_request E hdmi) mode U32_MAX = true →
      edid_status ≠ HDMI_EDID_SAME →
      (mxc_hdmi_set_mode E hdmi edid_status).trace =
        hdmi.trace ++ [.fb_blank_unblank] ++
          notify_events E hdmi hdmi.previous_non_vga_mode ++ [.hdmi_set_cable_state 1]) ∧
    (E.mxc_edid_fb_mode_is_equal true (set_mode_request E hdmi) mode U32_MAX = false →
      edid_status ≠ HDMI_EDID_SAME →
      (mxc_hdmi_set_mode E hdmi edid_status).trace =
        hdmi.trace ++ [.fb_blank_unblank] ++
          notify_events E hdmi (E.fb_videomode_to_var hdmi.fbi.var mode) ++
          [.hdmi_set_cable_state 1]) ∧
    (E.mxc_edid_fb_mode_is_equal true (set_mode_request E hdmi) mode U32_MAX = false →
      edid_status = HDMI_EDID_SAME →
      (mxc_hdmi_set_mode E hdmi edid_status).trace =
        hdmi.trace ++ [.fb_blank_unblank, .hdmi_set_cable_state 1]) := by
  unfold set_mode_request at hfind
  unfold mxc_hdmi_set_mode mxc_hdmi_notify_fb notify_events set_mode_request
  cases hd : hdmi.dft_mode_set <;> cases hp : hdmi.phy_enabled <;>
    simp only [hd, hp, Bool.not_false, Bool.not_true, if_true, if_false,
      Bool.false_eq_true] at hfind ⊢ <;>
    rw [hfind] <;>
    (refine ⟨?_, ?_, ?_, ?_⟩ <;> intro heq hst <;> simp [heq, hst, emit, hp])

set_option maxRecDepth 100000 in
/-- Witness of C12: the list holds 1920x1080 at 60 Hz, which is the timing
asked for, and the status is `HDMI_EDID_SAME`: the set-up alone is run. -/
theorem C12_set_mode_decision_witness :
    refEnv.mxc_fb_find_nearest_mode (set_mode_request refEnv
      { dev0 with fbi := { dev0.fbi with modelist := [ref_cea_mode 16] } })
      [ref_cea_mode 16] false = some (ref_cea_mode 16) ∧
    (mxc_hdmi_set_mode refEnv
      { dev0 with fbi := { dev0.fbi with modelist := [ref_cea_mode 16] } }
      HDMI_EDID_SAME).trace =
      [.fb_blank_unblank, .mxc_hdmi_setup, .hdmi_set_cable_state 1] :=
  ⟨by decide,
    (C12_set_mode_decision refEnv
      { dev0 with fbi := { dev0.fbi with modelist := [ref_cea_mode 16] } }
      HDMI_EDID_SAME (ref_cea_mode 16) (by decide)).1 (by decide) rfl⟩

/-! ### C13 - C15: colour space conversion -/

/-- C13. `isColorSpaceConversion` is true exactly when `enc_in_format` differs
from `enc_out_format`, or `enc_out_format` is RGB and the range resolved by
`getRGBQuantRange` is limited, or `enc_out_format` is RGB, the resolved range
is default and `vic > 1`. So it is true for (RGB, RGB, limited, vic 5), false
for (RGB, RGB, default, vic 0), and true for (YCbCr444, RGB) whatever the range
and the VIC. The codes for the default and the limited range are taken to be
different, as register values of one field are. -/
theorem C13_csc_needed (E : Env) (hdmi : mxc_hdmi)
    (hE : E.HDMI_FC_AVICONF2_RGB_QUANT_DEFAULT ≠ E.HDMI_FC_AVICONF2_RGB_QUANT_LIMITED_RANGE) :
    (isColorSpaceConversion E hdmi = true ↔
      hdmi.hdmi_data.enc_in_format ≠ hdmi.hdmi_data.enc_out_format ∨
      (hdmi.hdmi_data.enc_out_format = RGB ∧
        getRGBQuantRange E hdmi = E.HDMI_FC_AVICONF2_RGB_QUANT_LIMITED_RANGE) ∨
      (hdmi.hdmi_data.enc_out_format = RGB ∧
        getRGBQuantRange E hdmi = E.HDMI_FC_AVICONF2_RGB_QUANT_DEFAULT ∧ hdmi.vic > 1)) ∧
    (hdmi.hdmi_data.enc_in_format = RGB → hdmi.hdmi_data.enc_out_format = RGB →
      getRGBQuantRange E hdmi = E.HDMI_FC_AVICONF2_RGB_QUANT_LIMITED_RANGE → hdmi.vic = 5 →
      isColorSpaceConversion E hdmi = true) ∧
    (hdmi.hdmi_data.enc_in_format = RGB → hdmi.hdmi_data.enc_out_format = RGB →
      getRGBQuantRange E hdmi = E.HDMI_FC_AVICONF2_RGB_QUANT_DEFAULT → hdmi.vic = 0 →
      isColorSpaceConversion E hdmi = false) ∧
    (hdmi.hdmi_data.enc_in_format = YCBCR444 → hdmi.hdmi_data.enc_out_format = RGB →
      isColorSpaceConversion E hdmi = true) := by
  have hiff : isColorSpaceConversion E hdmi = true ↔
      hdmi.hdmi_data.enc_in_format ≠ hdmi.hdmi_data.enc_out_format ∨
      (hdmi.hdmi_data.enc_out_format = RGB ∧
        getRGBQuantRange E hdmi = E.HDMI_FC_AVICONF2_RGB_QUANT_LIMITED_RANGE) ∨
      (hdmi.hdmi_data.enc_out_format = RGB ∧
        getRGBQuantRange E hdmi = E.HDMI_FC_AVICONF2_RGB_QUANT_DEFAULT ∧ hdmi.vic > 1) := by
    unfold isColorSpaceConversion
    simp only [Bool.or_eq_true, Bool.and_eq_true, decide_eq_true_eq]
    tauto
  refine ⟨hiff, ?_, ?_, ?_⟩
  · intro _ ho hr _
    exact hiff.2 (Or.inr (Or.inl ⟨ho, hr⟩))
  · intro hi ho hr hv
    rw [Bool.eq_false_iff]
    intro h
    rcases hiff.1 h with h | h | h
    · exact h (hi.trans ho.symm)
    · exact hE (hr.symm.trans h.2)
    · rw [hv] at h
      exact absurd h.2.2 (by decide)
  · intro hi ho
    refine hiff.2 (Or.inl ?_)
    rw [hi, ho]
    decide

/-- Witness of C13: RGB in and out, the policy set to limited range, VIC 5. -/
theorem C13_csc_needed_witness :
    refEnv.HDMI_FC_AVICONF2_RGB_QUANT_DEFAULT ≠ refEnv.HDMI_FC_AVICONF2_RGB_QUANT_LIMITED_RANGE ∧
    isColorSpaceConversion refEnv (dev_csc RGB RGB eITU709 0x04 5 false) = true :=
  ⟨by decide,
    (C13_csc_needed refEnv (dev_csc RGB RGB eITU709 0x04 5 false) (by decide)).2.1
      (by decide) (by decide) (by decide) (by decide)⟩

/-- C14. `getRGBQuantRange` returns the range fixed by the policy
`rgb_quant_range` whenever the policy is limited, full or default; under the
auto policy (the value `HDMI_FC_AVICONF2_RGB_QUANT_MASK`) it returns full range
if the capability record declares the range selectable and default otherwise;
it never returns the auto marker. The auto marker is taken to differ from the
codes of the three ranges. -/
theorem C14_quant_range (E : Env) (hdmi : mxc_hdmi)
    (hl : E.HDMI_FC_AVICONF2_RGB_QUANT_LIMITED_RANGE ≠ E.HDMI_FC_AVICONF2_RGB_QUANT_MASK)
    (hf : E.HDMI_FC_AVICONF2_RGB_QUANT_FULL_RANGE ≠ E.HDMI_FC_AVICONF2_RGB_QUANT_MASK)
    (hd : E.HDMI_FC_AVICONF2_RGB_QUANT_DEFAULT ≠ E.HDMI_FC_AVICONF2_RGB_QUANT_MASK) :
    (hdmi.hdmi_data.rgb_quant_range = E.HDMI_FC_AVICONF2_RGB_QUANT_LIMITED_RANGE ∨
      hdmi.hdmi_data.rgb_quant_range = E.HDMI_FC_AVICONF2_RGB_QUANT_FULL_RANGE ∨
      hdmi.hdmi_data.rgb_quant_range = E.HDMI_FC_AVICONF2_RGB_QUANT_DEFAULT →
        getRGBQuantRange E hdmi = hdmi.hdmi_data.rgb_quant_range) ∧
    (hdmi.hdmi_data.rgb_quant_range = E.HDMI_FC_AVICONF2_RGB_QUANT_MASK →
      getRGBQuantRange E hdmi =
        if hdmi.edid_cfg.cea_rgb_range_selectable = true then
          E.HDMI_FC_AVICONF2_RGB_QUANT_FULL_RANGE
        else E.HDMI_FC_AVICONF2_RGB_QUANT_DEFAULT) ∧
    getRGBQuantRange E hdmi ≠ E.HDMI_FC_AVICONF2_RGB_QUANT_MASK := by
  unfold getRGBQuantRange
  refine ⟨?_, ?_, ?_⟩
  · rintro (h | h | h) <;> rw [h] <;> simp [hl, hf, hd]
  · intro h
    simp [h]
  · by_cases h : hdmi.hdmi_data.rgb_quant_range = E.HDMI_FC_AVICONF2_RGB_QUANT_MASK
    · rw [if_neg (not_not.2 h)]
      split_ifs
      · exact hf
      · exact hd
    · rw [if_pos h]
      exact h

/-- Witness of C14: the auto policy with a sink that declares the range
selectable resolves to full range. -/
theorem C14_quant_range_witness :
    refEnv.HDMI_FC_AVICONF2_RGB_QUANT_LIMITED_RANGE ≠ refEnv.HDMI_FC_AVICONF2_RGB_QUANT_MASK ∧
    refEnv.HDMI_FC_AVICONF2_RGB_QUANT_FULL_RANGE ≠ refEnv.HDMI_FC_AVICONF2_RGB_QUANT_MASK ∧
    refEnv.HDMI_FC_AVICONF2_RGB_QUANT_DEFAULT ≠ refEnv.HDMI_FC_AVICONF2_RGB_QUANT_MASK ∧
    getRGBQuantRange refEnv (dev_csc RGB RGB eITU709 0x0C 16 true) = 0x08 :=
  ⟨by decide, by decide, by decide,
    (C14_quant_range refEnv (dev_csc RGB RGB eITU709 0x0C 16 true)
      (by decide) (by decide) (by decide)).2.1 (by decide)⟩

/-- C15 as stated fails: two configurations with RGB in, RGB out and the same
colorimetry, one with the policy set to limited range and one with the policy
set to full range, get different coefficient sets: the RGB normalising set
(0x1b80 on the diagonal, offset 0x0020) and the identity set. -/
theorem C15_counterexample :
    (dev_csc RGB RGB eITU709 0x04 16 false).hdmi_data.enc_in_format =
      (dev_csc RGB RGB eITU709 0x08 16 false).hdmi_data.enc_in_format ∧
    (dev_csc RGB RGB eITU709 0x04 16 false).hdmi_data.enc_out_format =
      (dev_csc RGB RGB eITU709 0x08 16 false).hdmi_data.enc_out_format ∧
    (dev_csc RGB RGB eITU709 0x04 16 false).hdmi_data.colorimetry =
      (dev_csc RGB RGB eITU709 0x08 16 false).hdmi_data.colorimetry ∧
    csc_select refEnv (dev_csc RGB RGB eITU709 0x04 16 false) =
      ⟨[[0x1b80, 0, 0, 0x20], [0, 0x1b80, 0, 0x20], [0, 0, 0x1b80, 0x20]], 1⟩ ∧
    csc_select refEnv (dev_csc RGB RGB eITU709 0x08 16 false) =
      ⟨[[0x2000, 0, 0, 0], [0, 0x2000, 0, 0], [0, 0, 0x2000, 0]], 1⟩ ∧
    csc_select refEnv (dev_csc RGB RGB eITU709 0x04 16 false) ≠
      csc_select refEnv (dev_csc RGB RGB eITU709 0x08 16 false) ∧
    (update_csc_coeffs refEnv (fun _ _ => 0) (dev_csc RGB RGB eITU709 0x04 16 false) {}).writes ≠
      (update_csc_coeffs refEnv (fun _ _ => 0) (dev_csc RGB RGB eITU709 0x08 16 false) {}).writes := by
  decide

/-- C15, amended. The coefficient set and the scale selected by
`update_csc_coeffs` are a function of `enc_in_format`, `enc_out_format`,
`colorimetry` and the result of `isColorSpaceConversion`: two configurations
that agree on the three values get the same set and scale if they are not both
RGB in and RGB out, or if `isColorSpaceConversion` gives the same answer for
them, whatever their range policy, range selectability and VIC; the bytes
written to the coefficient and scale registers are then the same too. For RGB
in and RGB out, conversion is needed exactly when the resolved range is
limited, or is default with `vic > 1`; the set is then the RGB normalising set
(0x1b80 on the diagonal, offset 0x0020), and the identity set otherwise, both
with scale 1. -/
theorem C15_csc_coeffs (E : Env) (h1 h2 : mxc_hdmi)
    (hin : h1.hdmi_data.enc_in_format = h2.hdmi_data.enc_in_format)
    (hout : h1.hdmi_data.enc_out_format = h2.hdmi_data.enc_out_format)
    (hcol : h1.hdmi_data.colorimetry = h2.hdmi_data.colorimetry)
    (h : ¬ (h1.hdmi_data.enc_in_format = RGB ∧ h1.hdmi_data.enc_out_format = RGB) ∨
      isColorSpaceConversion E h1 = isColorSpaceConversion E h2) :
    csc_select E h1 = csc_select E h2 ∧
    (∀ (hw : hdmi_hw) (io : hdmi_regs),
      update_csc_coeffs E hw h1 io = update_csc_coeffs E hw h2 io) ∧
    (h1.hdmi_data.enc_in_format = RGB → h1.hdmi_data.enc_out_format = RGB →
      (isColorSpaceConversion E h1 = true ↔
        getRGBQuantRange E h1 = E.HDMI_FC_AVICONF2_RGB_QUANT_LIMITED_RANGE ∨
        (getRGBQuantRange E h1 = E.HDMI_FC_AVICONF2_RGB_QUANT_DEFAULT ∧ h1.vic > 1)) ∧
      csc_select E h1 =
        if isColorSpaceConversion E h1 = true then
          ⟨[[0x1b80, 0x0000, 0x0000, 0x0020],
            [0x0000, 0x1b80, 0x0000, 0x0020],
            [0x0000, 0x0000, 0x1b80, 0x0020]], 1⟩
        else
          ⟨[[0x2000, 0x0000, 0x0000, 0x0000],
            [0x0000, 0x2000, 0x0000, 0x0000],
            [0x0000, 0x0000, 0x2000, 0x0000]], 1⟩) := by
  have hrgb : h1.hdmi_data.enc_in_format = RGB → h1.hdmi_data.enc_out_format = RGB →
      (isColorSpaceConversion E h1 = true ↔
        getRGBQuantRange E h1 = E.HDMI_FC_AVICONF2_RGB_QUANT_LIMITED_RANGE ∨
        (getRGBQuantRange E h1 = E.HDMI_FC_AVICONF2_RGB_QUANT_DEFAULT ∧ h1.vic > 1)) ∧
      csc_select E h1 =
        if isColorSpaceConversion E h1 = true then
          ⟨[[0x1b80, 0x0000, 0x0000, 0x0020],
            [0x0000, 0x1b80, 0x0000, 0x0020],
            [0x0000, 0x0000, 0x1b80, 0x0020]], 1⟩
        else
          ⟨[[0x2000, 0x0000, 0x0000, 0x0000],
            [0x0000, 0x2000, 0x0000, 0x0000],
            [0x0000, 0x0000, 0x2000, 0x0000]], 1⟩ := by
    intro hi ho
    constructor
    · unfold isColorSpaceConversion
      simp [hi, ho]
    · unfold csc_select
      cases hc : isColorSpaceConversion E h1 <;> simp [hi, ho]
  suffices hsel : csc_select E h1 = csc_select E h2 by
    refine ⟨hsel, fun hw io => ?_, hrgb⟩
    unfold update_csc_coeffs
    rw [hsel]
  have key : ∀ b : Bool, isColorSpaceConversion E h1 = b → isColorSpaceConversion E h2 = b →
      csc_select E h1 = csc_select E h2 := by
    intro b e1 e2
    unfold csc_select
    rw [e1, e2, hin, hout, hcol]
  rcases h with h | h
  · by_cases hne : h1.hdmi_data.enc_in_format = h1.hdmi_data.enc_out_format
    · -- equal formats that are not RGB: no conversion on either side
      have hnr : h1.hdmi_data.enc_out_format ≠ RGB := fun ho => h ⟨hne.trans ho, ho⟩
      have e1 : isColorSpaceConversion E h1 = false := by
        unfold isColorSpaceConversion
        simp [hne, hnr]
      have e2 : isColorSpaceConversion E h2 = false := by
        unfold isColorSpaceConversion
        simp [← hin, ← hout, hne, hnr]
      exact key false e1 e2
    · have e1 : isColorSpaceConversion E h1 = true := by
        unfold isColorSpaceConversion
        simp [hne]
      have e2 : isColorSpaceConversion E h2 = true := by
        unfold isColorSpaceConversion
        simp [← hin, ← hout, hne]
      exact key true e1 e2
  · exact key _ rfl h.symm

set_option maxRecDepth 100000 in
/-- Witness of C15: RGB in and out under the limited-range policy and under
the full-range policy; the first gets the normalising set, the second the
identity set. -/
theorem C15_csc_coeffs_witness :
    csc_select refEnv (dev_csc RGB RGB eITU709 0x04 16 false) =
      ⟨[[0x1b80, 0, 0, 0x20], [0, 0x1b80, 0, 0x20], [0, 0, 0x1b80, 0x20]], 1⟩ ∧
    csc_select refEnv (dev_csc YCBCR444 RGB eITU709 0x04 16 false) =
      csc_select refEnv (dev_csc YCBCR444 RGB eITU709 0x08 0 true) :=
  ⟨((C15_csc_coeffs refEnv (dev_csc RGB RGB eITU709 0x04 16 false)
      (dev_csc RGB RGB eITU709 0x04 16 false) rfl rfl rfl (Or.inr rfl)).2.2
      (by decide) (by decide)).2.trans (by decide),
    (C15_csc_coeffs refEnv (dev_csc YCBCR444 RGB eITU709 0x04 16 false)
      (dev_csc YCBCR444 RGB eITU709 0x08 0 true) (by decide) (by decide) (by decide)
      (Or.inl (by decide))).1⟩

/-! ### C16: colorimetry after the set-up -/

/-- What lines 2718-2799 of `mxc_hdmi_setup` do to the VIC, the current mode
and the colorimetry: the first two are kept, the third follows the VIC. -/
theorem setup_configure_fields (E : Env) (hw : hdmi_hw) (hdmi : mxc_hdmi) (io : hdmi_regs) :
    (mxc_hdmi_setup_configure E hw hdmi io).1.vic = hdmi.vic ∧
    (mxc_hdmi_setup_configure E hw hdmi io).1.fbi = hdmi.fbi ∧
    (mxc_hdmi_setup_configure E hw hdmi io).1.hdmi_data.colorimetry =
      if hdmi.vic = 6 ∨ hdmi.vic = 7 ∨ hdmi.vic = 21 ∨ hdmi.vic = 22 ∨
          hdmi.vic = 2 ∨ hdmi.vic = 3 ∨ hdmi.vic = 17 ∨ hdmi.vic = 18 then eITU601
      else eITU709 := by
  unfold mxc_hdmi_setup_configure mxc_hdmi_phy_init hdmi_av_composer
  simp only []
  split_ifs <;> simp

/-- C16. After `mxc_hdmi_setup` the colorimetry is ITU 601 if and only if the
VIC in `hdmi->vic` is one of 2, 3, 6, 7, 17, 18, 21, 22, and ITU 709 for every
other VIC, 0 included; for VIC 16 it is ITU 709. `hdmi->vic` is the VIC of the
list entry nearest to the current `var` (the entry that becomes `fbi->mode`),
and 0 when the VGA timing is requested for initialisation or the list is
empty. The set-up is taken on a run in which the search for the nearest entry
finds one. -/
theorem C16_colorimetry (E : Env) (hw : hdmi_hw) (hdmi : mxc_hdmi) (event : Nat)
    (io : hdmi_regs)
    (hfind : hdmi.requesting_vga_for_initialization = false → hdmi.fbi.modelist ≠ [] →
      (E.mxc_fb_find_nearest_mode (E.fb_var_to_videomode hdmi.fbi.var)
        hdmi.fbi.modelist false).isSome = true) :
    ∃ r, mxc_hdmi_setup E hw hdmi event io = some r ∧
      (r.1.hdmi_data.colorimetry = eITU601 ↔ r.1.vic ∈ [2, 3, 6, 7, 17, 18, 21, 22]) ∧
      (r.1.hdmi_data.colorimetry = eITU709 ↔ r.1.vic ∉ [2, 3, 6, 7, 17, 18, 21, 22]) ∧
      (r.1.vic = 0 → r.1.hdmi_data.colorimetry = eITU709) ∧
      (r.1.vic = 16 → r.1.hdmi_data.colorimetry = eITU709) ∧
      (hdmi.requesting_vga_for_initialization = true ∨ hdmi.fbi.modelist = [] →
        r.1.vic = 0) ∧
      (∀ edid_mode, hdmi.requesting_vga_for_initialization = false →
        hdmi.fbi.modelist ≠ [] →
        E.mxc_fb_find_nearest_mode (E.fb_var_to_videomode hdmi.fbi.var)
          hdmi.fbi.modelist false = some edid_mode →
        r.1.vic = E.mxc_edid_mode_to_vic edid_mode 0 ∧ r.1.fbi.mode = some edid_mode) := by
  have hcol : ∀ h : mxc_hdmi,
      ((mxc_hdmi_setup_configure E hw h io).1.hdmi_data.colorimetry = eITU601 ↔
        (mxc_hdmi_setup_configure E hw h io).1.vic ∈ [2, 3, 6, 7, 17, 18, 21, 22]) ∧
      ((mxc_hdmi_setup_configure E hw h io).1.hdmi_data.colorimetry = eITU709 ↔
        (mxc_hdmi_setup_configure E hw h io).1.vic ∉ [2, 3, 6, 7, 17, 18, 21, 22]) ∧
      ((mxc_hdmi_setup_configure E hw h io).1.vic = 0 →
        (mxc_hdmi_setup_configure E hw h io).1.hdmi_data.colorimetry = eITU709) ∧
      ((mxc_hdmi_setup_configure E hw h io).1.vic = 16 →
        (mxc_hdmi_setup_configure E hw h io).1.hdmi_data.colorimetry = eITU709) := by
    intro h
    obtain ⟨hv, -, hc⟩ := setup_configure_fields E hw h io
    rw [hv, hc]
    by_cases hs : h.vic = 6 ∨ h.vic = 7 ∨ h.vic = 21 ∨ h.vic = 22 ∨
        h.vic = 2 ∨ h.vic = 3 ∨ h.vic = 17 ∨ h.vic = 18
    · rw [if_pos hs]
      have hm : h.vic ∈ [2, 3, 6, 7, 17, 18, 21, 22] := by
        simp only [List.mem_cons, List.mem_singleton, List.not_mem_nil, or_false]
        omega
      refine ⟨⟨fun _ => hm, fun _ => rfl⟩, ⟨fun e => absurd e (by decide), fun e => absurd hm e⟩,
        fun e => ?_, fun e => ?_⟩ <;> omega
    · rw [if_neg hs]
      have hm : h.vic ∉ [2, 3, 6, 7, 17, 18, 21, 22] := by
        simp only [List.mem_cons, List.mem_singleton, List.not_mem_nil, or_false]
        omega
      exact ⟨⟨fun e => absurd e (by decide), fun e => absurd e hm⟩,
        ⟨fun _ => hm, fun _ => rfl⟩, fun _ => rfl, fun _ => rfl⟩
  unfold mxc_hdmi_setup mxc_hdmi_setup_vic
  by_cases hreq : hdmi.requesting_vga_for_initialization = false
  · by_cases hl : hdmi.fbi.modelist = []
    · simp only [hreq, hl, ne_eq, not_true_eq_false, if_true, if_false]
      refine ⟨_, rfl, (hcol _).1, (hcol _).2.1, (hcol _).2.2.1, (hcol _).2.2.2, ?_, ?_⟩
      · intro _
        rw [(setup_configure_fields E hw _ io).1]
      · intro em _ hne
        exact hne.elim
    · obtain ⟨em, hem⟩ := Option.isSome_iff_exists.1 (hfind hreq hl)
      simp only [hreq, ne_eq, hl, not_false_eq_true, if_true, hem]
      refine ⟨_, rfl, (hcol _).1, (hcol _).2.1, (hcol _).2.2.1, (hcol _).2.2.2, ?_, ?_⟩
      · rintro (h | h)
        · exact absurd h (by simp)
        · exact h.elim
      · intro em' _ _ hem'
        rw [Option.some.injEq] at hem'
        subst hem'
        rw [(setup_configure_fields E hw _ io).1, (setup_configure_fields E hw _ io).2.1]
        exact ⟨rfl, rfl⟩
  · have hreq' : hdmi.requesting_vga_for_initialization = true := by
      simpa using hreq
    simp only [hreq', Bool.true_eq_false, if_false]
    refine ⟨_, rfl, (hcol _).1, (hcol _).2.1, (hcol _).2.2.1, (hcol _).2.2.2, ?_, ?_⟩
    · intro _
      rw [(setup_configure_fields E hw _ io).1]
    · intro em h
      exact absurd h (by simp)

set_option maxRecDepth 100000 in
/-- Witness of C16: the list holds 1920x1080 at 60 Hz, the current `var` is
that timing; the set-up ends with VIC 16 and ITU 709. -/
theorem C16_colorimetry_witness :
    ∃ r, mxc_hdmi_setup refEnv hw_ready
        { dev0 with fbi := { dev0.fbi with modelist := [ref_cea_mode 16] } } 0 {} = some r ∧
      r.1.vic = 16 ∧ r.1.hdmi_data.colorimetry = eITU709 := by
  obtain ⟨r, hr, -, -, -, h16, -, hv⟩ := C16_colorimetry refEnv hw_ready
    { dev0 with fbi := { dev0.fbi with modelist := [ref_cea_mode 16] } } 0 {} (by decide)
  have hvic := (hv (ref_cea_mode 16) (by decide) (by decide) (by decide)).1
  exact ⟨r, hr, hvic, h16 hvic⟩

/-! ### The write log of the PHY functions -/

theorem wait_i2c_loop_writes (hw : hdmi_hw) (msec val : Nat) (io : hdmi_regs) :
    (phy_wait_i2c_loop hw msec val io).2.writes = io.writes := by
  induction msec generalizing val io with
  | zero =>
    unfold phy_wait_i2c_loop
    split_ifs <;> rfl
  | succ n ih =>
    unfold phy_wait_i2c_loop
    split_ifs
    · rfl
    · simp only []
      rw [ih]
      rfl

theorem wait_lock_loop_writes (E : Env) (hw : hdmi_hw) (msec val : Nat) (io : hdmi_regs) :
    (phy_wait_lock_loop E hw msec val io).2.writes = io.writes := by
  induction msec generalizing val io with
  | zero =>
    unfold phy_wait_lock_loop
    split_ifs <;> rfl
  | succ n ih =>
    unfold phy_wait_lock_loop
    split_ifs
    · rfl
    · simp only []
      rw [ih]
      rfl

/-- The write log after `hdmi_phy_i2c_write`: the five writes of the transfer
are appended. -/
theorem phy_i2c_write_writes (E : Env) (hw : hdmi_hw) (data addr : Nat) (io : hdmi_regs) :
    (hdmi_phy_i2c_write E hw data addr io).writes =
      io.writes ++ phy_i2c_frame E data addr := by
  unfold hdmi_phy_i2c_write hdmi_phy_wait_i2c_done
  simp only []
  rw [wait_i2c_loop_writes]
  simp [hdmi_readb, hdmi_writeb, phy_i2c_frame]

theorem phy_i2c_write_grows (E : Env) (hw : hdmi_hw) (data addr : Nat) (io : hdmi_regs)
    (l : List reg_write) (h : l <+: io.writes) :
    l <+: (hdmi_phy_i2c_write E hw data addr io).writes := by
  rw [phy_i2c_write_writes]
  exact h.trans (List.prefix_append _ _)

theorem mask_writeb_grows (data : Nat) (reg : hdmi_reg) (shift mask : Nat) (io : hdmi_regs)
    (l : List reg_write) (h : l <+: io.writes) :
    l <+: (hdmi_mask_writeb data reg shift mask io).writes :=
  h.trans (List.prefix_append _ _)

theorem writeb_grows (value : Nat) (reg : hdmi_reg) (io : hdmi_regs)
    (l : List reg_write) (h : l <+: io.writes) :
    l <+: (hdmi_writeb value reg io).writes :=
  h.trans (List.prefix_append _ _)

theorem test_clear_grows (E : Env) (hw : hdmi_hw) (bit : Nat) (io : hdmi_regs)
    (l : List reg_write) (h : l <+: io.writes) :
    l <+: (hdmi_phy_test_clear E hw bit io).writes :=
  h.trans (List.prefix_append _ _)

theorem currctrl_switch_grows (E : Env) (hw : hdmi_hw) (cRes w8 w10 w12 : Nat)
    (io : hdmi_regs) (l : List reg_write) (h : l <+: io.writes) :
    l <+: (phy_currctrl_switch E hw cRes w8 w10 w12 io).2.writes := by
  unfold phy_currctrl_switch
  split_ifs <;> first | exact h | exact phy_i2c_write_grows E hw _ _ _ l h

theorem configure_currctrl_grows (E : Env) (hw : hdmi_hw) (clock cRes : Nat)
    (io : hdmi_regs) (l : List reg_write) (h : l <+: io.writes) :
    l <+: (phy_configure_currctrl E hw clock cRes io).2.writes := by
  unfold phy_configure_currctrl
  split_ifs <;> first | exact h | exact currctrl_switch_grows E hw _ _ _ _ _ l h

theorem configure_mpll_grows (E : Env) (hw : hdmi_hw) (clock cRes : Nat)
    (io : hdmi_regs) (l : List reg_write) (h : l <+: io.writes) :
    l <+: (phy_configure_mpll E hw clock cRes io).2.writes := by
  unfold phy_configure_mpll
  split_ifs <;>
    first
    | exact h
    | exact phy_i2c_write_grows E hw _ _ _ l (phy_i2c_write_grows E hw _ _ _ l h)

theorem configure_finish_grows (E : Env) (hw : hdmi_hw) (hdmi : mxc_hdmi)
    (io : hdmi_regs) (l : List reg_write) (h : l <+: io.writes) :
    l <+: (phy_configure_finish E hw hdmi io).2.writes := by
  simp only [phy_configure_finish, wait_lock_loop_writes, hdmi_readb]
  apply mask_writeb_grows
  apply mask_writeb_grows
  apply mask_writeb_grows
  apply mask_writeb_grows
  apply mask_writeb_grows
  split_ifs <;> repeat (first | exact h | apply phy_i2c_write_grows)

theorem configure_start_grows (E : Env) (hw : hdmi_hw) (cscOn : Int)
    (io : hdmi_regs) (l : List reg_write) (h : l <+: io.writes) :
    l <+: (phy_configure_start E hw cscOn io).writes := by
  unfold phy_configure_start
  simp only []
  apply test_clear_grows
  apply writeb_grows
  apply test_clear_grows
  apply writeb_grows
  apply writeb_grows
  apply writeb_grows
  apply mask_writeb_grows
  apply mask_writeb_grows
  apply writeb_grows
  exact h

/-- The first register write of `phy_configure_start` is the write to
`HDMI_MC_FLOWCTRL`. -/
theorem configure_start_first (E : Env) (hw : hdmi_hw) (cscOn : Int) (io : hdmi_regs) :
    io.writes ++ [.hdmi_writeb
      ((if cscOn ≠ 0 then E.HDMI_MC_FLOWCTRL_FEED_THROUGH_OFF_CSC_IN_PATH
        else E.HDMI_MC_FLOWCTRL_FEED_THROUGH_OFF_CSC_BYPASS) % 256) .HDMI_MC_FLOWCTRL] <+:
      (phy_configure_start E hw cscOn io).writes := by
  unfold phy_configure_start
  simp only []
  apply test_clear_grows
  apply writeb_grows
  apply test_clear_grows
  apply writeb_grows
  apply writeb_grows
  apply writeb_grows
  apply mask_writeb_grows
  apply mask_writeb_grows
  exact List.prefix_refl _

/-- The write log only grows through `hdmi_phy_configure`, and once the
guards on `pRep` and `cRes` are passed it holds what `phy_configure_start`
wrote. -/
theorem phy_configure_grows (E : Env) (hw : hdmi_hw) (hdmi : mxc_hdmi) (pRep cRes : Nat)
    (cscOn : Int) (io : hdmi_regs) :
    io.writes <+: (hdmi_phy_configure E hw hdmi pRep cRes cscOn io).2.writes ∧
    (pRep = 0 → (cRes = 0 ∨ cRes = 8 ∨ cRes = 12) →
      (phy_configure_start E hw cscOn io).writes <+:
        (hdmi_phy_configure E hw hdmi pRep cRes cscOn io).2.writes) := by
  have h0 := configure_start_grows E hw cscOn io io.writes (List.prefix_refl _)
  have key : ∀ c : Nat, (phy_configure_start E hw cscOn io).writes <+:
      (if hdmi.hdmi_data.video_mode.mPixelClock < 0 then
        (false, phy_configure_start E hw cscOn io)
      else
        if (phy_configure_mpll E hw hdmi.hdmi_data.video_mode.mPixelClock c
            (phy_configure_start E hw cscOn io)).1 = false then
          (false, (phy_configure_mpll E hw hdmi.hdmi_data.video_mode.mPixelClock c
            (phy_configure_start E hw cscOn io)).2)
        else
          if (phy_configure_currctrl E hw hdmi.hdmi_data.video_mode.mPixelClock c
              (phy_configure_mpll E hw hdmi.hdmi_data.video_mode.mPixelClock c
                (phy_configure_start E hw cscOn io)).2).1 = false then
            (false, (phy_configure_currctrl E hw hdmi.hdmi_data.video_mode.mPixelClock c
              (phy_configure_mpll E hw hdmi.hdmi_data.video_mode.mPixelClock c
                (phy_configure_start E hw cscOn io)).2).2)
          else phy_configure_finish E hw hdmi
            (phy_configure_currctrl E hw hdmi.hdmi_data.video_mode.mPixelClock c
              (phy_configure_mpll E hw hdmi.hdmi_data.video_mode.mPixelClock c
                (phy_configure_start E hw cscOn io)).2).2).2.writes := by
    intro c
    have h1 := configure_mpll_grows E hw hdmi.hdmi_data.video_mode.mPixelClock c _ _
      (List.prefix_refl (phy_configure_start E hw cscOn io).writes)
    have h2 := configure_currctrl_grows E hw hdmi.hdmi_data.video_mode.mPixelClock c _ _ h1
    have h3 := configure_finish_grows E hw hdmi _ _ h2
    rw [if_neg (Nat.not_lt_zero _)]
    by_cases hm : (phy_configure_mpll E hw hdmi.hdmi_data.video_mode.mPixelClock c
        (phy_configure_start E hw cscOn io)).1 = false
    · rw [if_pos hm]; exact h1
    · rw [if_neg hm]
      by_cases hk : (phy_configure_currctrl E hw hdmi.hdmi_data.video_mode.mPixelClock c
          (phy_configure_mpll E hw hdmi.hdmi_data.video_mode.mPixelClock c
            (phy_configure_start E hw cscOn io)).2).1 = false
      · rw [if_pos hk]; exact h2
      · rw [if_neg hk]; exact h3
  unfold hdmi_phy_configure
  simp only []
  constructor
  · by_cases hp : pRep ≠ 0
    · rw [if_pos hp]
    · rw [if_neg hp]
      by_cases hc : (if cRes = 0 then 8 else cRes) ≠ 8 ∧ (if cRes = 0 then 8 else cRes) ≠ 12
      · rw [if_pos hc]
      · rw [if_neg hc]
        exact h0.trans (key _)
  · intro hp hc
    have hp' : ¬ pRep ≠ 0 := not_not.2 hp
    have hc' : ¬ ((if cRes = 0 then 8 else cRes) ≠ 8 ∧ (if cRes = 0 then 8 else cRes) ≠ 12) := by
      rcases hc with h | h | h <;> simp [h]
    rw [if_neg hp', if_neg hc']
    exact key _

/-! ### C17 - C20: `hdmi_phy_configure` -/

/-- The guards of lines 1254-1257: a pixel repetition other than 0, or a
colour resolution other than 0, 8 and 12, makes `hdmi_phy_configure` return
`false` at once; the register side is as before the call. -/
theorem phy_configure_guard (E : Env) (hw : hdmi_hw) (hdmi : mxc_hdmi) (pRep cRes : Nat)
    (cscOn : Int) (io : hdmi_regs) (h : pRep ≠ 0 ∨ (cRes ≠ 0 ∧ cRes ≠ 8 ∧ cRes ≠ 12)) :
    hdmi_phy_configure E hw hdmi pRep cRes cscOn io = (false, io) := by
  unfold hdmi_phy_configure
  simp only []
  by_cases hp : pRep ≠ 0
  · rw [if_pos hp]
  · rw [if_neg hp]
    have hc : (if cRes = 0 then 8 else cRes) ≠ 8 ∧ (if cRes = 0 then 8 else cRes) ≠ 12 := by
      rcases h with h | ⟨h0, h8, h12⟩
      · exact absurd h hp
      · rw [if_neg h0]
        exact ⟨h8, h12⟩
    rw [if_pos hc]

/-- Above 216 MHz the current-control block executes `return false` without
a write. -/
theorem currctrl_above_range (E : Env) (hw : hdmi_hw) (clock cRes : Nat) (io : hdmi_regs)
    (h : 216000000 < clock) : phy_configure_currctrl E hw clock cRes io = (false, io) := by
  unfold phy_configure_currctrl
  rw [if_neg (by omega), if_neg (by omega), if_neg (by omega), if_neg (by omega),
    if_neg (by omega), if_neg (by omega)]

/-- At 8 bits the PLL/MPLL block writes its two words and goes on. -/
theorem mpll_8bit (E : Env) (hw : hdmi_hw) (clock : Nat) (io : hdmi_regs) :
    (phy_configure_mpll E hw clock 8 io).1 = true := by
  unfold phy_configure_mpll
  split_ifs <;> first | rfl | omega

/-- C17 as stated fails: with pixel repetition 0, colour resolution 10 and a
pixel clock of 74,250,000 Hz the call returns `false` and leaves the write log
empty; the word 0x0b5c is not sent to PHY register 0x10. -/
theorem C17_counterexample :
    hdmi_phy_configure refEnv hw_ready (dev_clock 74250000) 0 10 0 {} = (false, {}) ∧
    ¬ phy_i2c_frame refEnv 0x0b5c 0x10 <:+:
      (hdmi_phy_configure refEnv hw_ready (dev_clock 74250000) 0 10 0 {}).2.writes := by
  decide

/-- C17, amended. The current-control block of `hdmi_phy_configure` holds the
word 0x0b5c for colour resolution 10 at 74,250,000 Hz, but a call with colour
resolution 10 is rejected by the guard of line 1256 before any register
access, so that word is not written. With pixel repetition 0 and colour
resolution 8 at 74,250,000 Hz the word sent to PHY register 0x10 is 0x06dc. -/
theorem C17_ten_bit_rejected (E : Env) (hw : hdmi_hw) (hdmi : mxc_hdmi) (pRep : Nat)
    (cscOn : Int) (io : hdmi_regs) :
    hdmi_phy_configure E hw hdmi pRep 10 cscOn io = (false, io) ∧
    phy_configure_currctrl E hw 74250000 10 io =
      (true, hdmi_phy_i2c_write E hw 0x0b5c 0x10 io) ∧
    (hdmi.hdmi_data.video_mode.mPixelClock = 74250000 →
      phy_i2c_frame E 0x06dc 0x10 <:+:
        (hdmi_phy_configure E hw hdmi 0 8 cscOn io).2.writes) := by
  refine ⟨phy_configure_guard E hw hdmi pRep 10 cscOn io (Or.inr (by decide)), ?_, ?_⟩
  · unfold phy_configure_currctrl phy_currctrl_switch
    rw [if_neg (by decide), if_neg (by decide), if_neg (by decide), if_pos (by decide),
      if_neg (by decide), if_pos rfl]
  · intro hclk
    have hcur : ∀ io', phy_configure_currctrl E hw 74250000 8 io' =
        (true, hdmi_phy_i2c_write E hw 0x06dc 0x10 io') := by
      intro io'
      unfold phy_configure_currctrl phy_currctrl_switch
      rw [if_neg (by decide), if_neg (by decide), if_neg (by decide), if_pos (by decide),
        if_pos rfl]
    have hrun : hdmi_phy_configure E hw hdmi 0 8 cscOn io =
        phy_configure_finish E hw hdmi (hdmi_phy_i2c_write E hw 0x06dc 0x10
          (phy_configure_mpll E hw 74250000 8 (phy_configure_start E hw cscOn io)).2) := by
      unfold hdmi_phy_configure
      simp [hclk, hcur, mpll_8bit]
    rw [hrun]
    have hpre := configure_finish_grows E hw hdmi
      (hdmi_phy_i2c_write E hw 0x06dc 0x10
        (phy_configure_mpll E hw 74250000 8 (phy_configure_start E hw cscOn io)).2) _
      (List.prefix_refl _)
    rw [phy_i2c_write_writes] at hpre
    obtain ⟨t, ht⟩ := hpre
    exact ⟨_, t, ht⟩

/-- C18. `hdmi_phy_configure` returns `false` for every pixel clock above
216,000,000 Hz, whatever the colour resolution, the pixel repetition, the CSC
setting and the answers of the hardware. -/
theorem C18_clock_above_range (E : Env) (hw : hdmi_hw) (hdmi : mxc_hdmi) (pRep cRes : Nat)
    (cscOn : Int) (io : hdmi_regs)
    (h : 216000000 < hdmi.hdmi_data.video_mode.mPixelClock) :
    (hdmi_phy_configure E hw hdmi pRep cRes cscOn io).1 = false := by
  unfold hdmi_phy_configure
  simp only [currctrl_above_range E hw _ _ _ h]
  split_ifs <;> rfl

/-- Witness of C18: 230,000,000 Hz at 8 bits on hardware that reports lock. -/
theorem C18_clock_above_range_witness :
    216000000 < (dev_clock 230000000).hdmi_data.video_mode.mPixelClock ∧
    (hdmi_phy_configure refEnv hw_ready (dev_clock 230000000) 0 8 0 {}).1 = false :=
  ⟨by decide, C18_clock_above_range refEnv hw_ready (dev_clock 230000000) 0 8 0 {} (by decide)⟩

set_option maxRecDepth 100000 in
/-- C19, the code at the failing input: with pixel repetition 0, a pixel clock
of 74,250,000 Hz and a PHY that reports lock, the call with colour resolution
8 returns `true`; the call with colour resolution 12 writes the words 0x4142
and 0x0005 of the PLL/MPLL block, runs from `case 12` on into `default` (line
1320 has no `break`) and returns `false`. At 27,000,000 Hz, where `case 12`
ends in `break` (line 1304), colour resolution 12 returns `true`. -/
theorem C19_twelve_bit_falls_through :
    (hdmi_phy_configure refEnv hw_ready (dev_clock 74250000) 0 8 0 {}).1 = true ∧
    (hdmi_phy_configure refEnv hw_ready (dev_clock 74250000) 0 12 0 {}).1 = false ∧
    (hdmi_phy_configure refEnv hw_ready (dev_clock 74250000) 0 12 0 {}).2.writes =
      (phy_configure_start refEnv hw_ready 0 {}).writes ++
        phy_i2c_frame refEnv 0x4142 0x06 ++ phy_i2c_frame refEnv 0x0005 0x15 ∧
    (hdmi_phy_configure refEnv hw_ready (dev_clock 27000000) 0 12 0 {}).1 = true := by
  decide

set_option maxRecDepth 100000 in
/-- C20 as stated fails: at 230,000,000 Hz, with pixel repetition 0 and colour
resolution 8, the call returns `false` after it has written the flow control,
powered the transmitter down, reset the PHY and sent the words 0x00a0 and
0x000a of the PLL/MPLL block: 19 register writes. -/
theorem C20_counterexample :
    (hdmi_phy_configure refEnv hw_ready (dev_clock 230000000) 0 8 0 {}).1 = false ∧
    (hdmi_phy_configure refEnv hw_ready (dev_clock 230000000) 0 8 0 {}).2.writes =
      (phy_configure_start refEnv hw_ready 0 {}).writes ++
        phy_i2c_frame refEnv 0x00a0 0x06 ++ phy_i2c_frame refEnv 0x000a 0x15 ∧
    (hdmi_phy_configure refEnv hw_ready (dev_clock 230000000) 0 8 0 {}).2.writes.length = 19 ∧
    (hdmi_phy_configure refEnv hw_ready (dev_clock 230000000) 0 8 0 {}).2.writes ≠
      ({} : hdmi_regs).writes := by
  decide

/-- C20, amended. When `hdmi_phy_configure` fails because the pixel repetition
is not 0 or the colour resolution is not 8 or 12 (0 counting as 8), it has
made no register access: the register side is the one before the call. A
pixel clock above 216,000,000 Hz is rejected only after the writes of lines
1265-1282 (flow control, power-down, PHY reset, slave address): with a valid
pixel repetition and colour resolution the call returns `false` and the write
log holds those writes behind the log before the call. -/
theorem C20_reject_before_write (E : Env) (hw : hdmi_hw) (hdmi : mxc_hdmi) (pRep cRes : Nat)
    (cscOn : Int) (io : hdmi_regs) :
    (pRep ≠ 0 ∨ (cRes ≠ 0 ∧ cRes ≠ 8 ∧ cRes ≠ 12) →
      hdmi_phy_configure E hw hdmi pRep cRes cscOn io = (false, io)) ∧
    (pRep = 0 → cRes = 0 ∨ cRes = 8 ∨ cRes = 12 →
      216000000 < hdmi.hdmi_data.video_mode.mPixelClock →
      (hdmi_phy_configure E hw hdmi pRep cRes cscOn io).1 = false ∧
      io.writes ++ [.hdmi_writeb
        ((if cscOn ≠ 0 then E.HDMI_MC_FLOWCTRL_FEED_THROUGH_OFF_CSC_IN_PATH
          else E.HDMI_MC_FLOWCTRL_FEED_THROUGH_OFF_CSC_BYPASS) % 256) .HDMI_MC_FLOWCTRL] <+:
        (hdmi_phy_configure E hw hdmi pRep cRes cscOn io).2.writes ∧
      (hdmi_phy_configure E hw hdmi pRep cRes cscOn io).2.writes ≠ io.writes) := by
  refine ⟨phy_configure_guard E hw hdmi pRep cRes cscOn io, ?_⟩
  intro hp hc hclk
  have hpre := (configure_start_first E hw cscOn io).trans
    ((phy_configure_grows E hw hdmi pRep cRes cscOn io).2 hp hc)
  refine ⟨?_, hpre, ?_⟩
  · unfold hdmi_phy_configure
    simp only [currctrl_above_range E hw _ _ _ hclk]
    split_ifs <;> rfl
  · intro heq
    rw [heq] at hpre
    have hlen := hpre.length_le
    simp at hlen

set_option maxRecDepth 100000 in
/-- Witness of C20: pixel repetition 1 is rejected with the register side
untouched, and 230,000,000 Hz at 8 bits is rejected after the write to
`HDMI_MC_FLOWCTRL`. -/
theorem C20_reject_before_write_witness :
    hdmi_phy_configure refEnv hw_ready (dev_clock 74250000) 1 8 0 {} = (false, {}) ∧
    (hdmi_phy_configure refEnv hw_ready (dev_clock 230000000) 0 8 0 {}).2.writes ≠ [] :=
  ⟨(C20_reject_before_write refEnv hw_ready (dev_clock 74250000) 1 8 0 {}).1
      (Or.inl (by decide)),
    ((C20_reject_before_write refEnv hw_ready (dev_clock 230000000) 0 8 0 {}).2
      rfl (Or.inr (Or.inl rfl)) (by decide)).2.2⟩

/-! ### C21 - C23: the PHY set-up and its results -/

/-- Entered with a status that is not 0, the lock loop ends at once. -/
theorem wait_lock_loop_pos (E : Env) (hw : hdmi_hw) (msec val : Nat) (io : hdmi_regs)
    (h : val ≠ 0) : phy_wait_lock_loop E hw msec val io = (true, io) := by
  cases msec <;> (unfold phy_wait_lock_loop; rw [if_pos h])

/-- If the PHY never reports lock, the lock loop uses up its budget. -/
theorem wait_lock_never (E : Env) (hw : hdmi_hw)
    (h : ∀ n, (hw .HDMI_PHY_STAT0 n &&& E.HDMI_PHY_TX_PHY_LOCK) % 256 = 0)
    (msec : Nat) (io : hdmi_regs) :
    (phy_wait_lock_loop E hw msec 0 io).1 = false := by
  induction msec generalizing io with
  | zero =>
    unfold phy_wait_lock_loop
    simp
  | succ n ih =>
    unfold phy_wait_lock_loop
    simp only [ne_eq, not_true_eq_false, if_false, hdmi_readb, h]
    exact ih _

/-- If the I2C master never reports a transfer done, the wait for it uses up
its budget and returns `false`. -/
theorem wait_i2c_never (hw : hdmi_hw)
    (h : ∀ n, (hw .HDMI_IH_I2CMPHY_STAT0 n &&& 0x3) % 256 = 0)
    (msec : Nat) (io : hdmi_regs) :
    (hdmi_phy_wait_i2c_done hw msec io).1 = false := by
  have hloop : ∀ (msec : Nat) (io : hdmi_regs), (phy_wait_i2c_loop hw msec 0 io).1 = false := by
    intro msec
    induction msec with
    | zero =>
      intro io
      unfold phy_wait_i2c_loop
      simp
    | succ n ih =>
      intro io
      unfold phy_wait_i2c_loop
      simp only [ne_eq, not_true_eq_false, if_false, hdmi_readb, h]
      exact ih _
  unfold hdmi_phy_wait_i2c_done
  simp only [hdmi_readb, h]
  exact hloop _ _

/-- With a PHY that never reports lock, the last block of
`hdmi_phy_configure` returns `false`. -/
theorem configure_finish_no_lock (E : Env) (hw : hdmi_hw) (hdmi : mxc_hdmi) (io : hdmi_regs)
    (h : ∀ n, (hw .HDMI_PHY_STAT0 n &&& E.HDMI_PHY_TX_PHY_LOCK) % 256 = 0) :
    (phy_configure_finish E hw hdmi io).1 = false := by
  unfold phy_configure_finish
  simp only [hdmi_readb, h]
  exact wait_lock_never E hw h _ _

/-- With a PHY that reports lock at every poll, the last block of
`hdmi_phy_configure` returns `true`. -/
theorem configure_finish_lock (E : Env) (hw : hdmi_hw) (hdmi : mxc_hdmi) (io : hdmi_regs)
    (h : ∀ n, (hw .HDMI_PHY_STAT0 n &&& E.HDMI_PHY_TX_PHY_LOCK) % 256 ≠ 0) :
    (phy_configure_finish E hw hdmi io).1 = true := by
  unfold phy_configure_finish
  simp only [hdmi_readb]
  rw [wait_lock_loop_pos E hw _ _ _ (h _)]

/-- With a PHY that never reports lock, `hdmi_phy_configure` returns
`false`. -/
theorem configure_no_lock (E : Env) (hw : hdmi_hw) (hdmi : mxc_hdmi) (pRep cRes : Nat)
    (cscOn : Int) (io : hdmi_regs)
    (h : ∀ n, (hw .HDMI_PHY_STAT0 n &&& E.HDMI_PHY_TX_PHY_LOCK) % 256 = 0) :
    (hdmi_phy_configure E hw hdmi pRep cRes cscOn io).1 = false := by
  unfold hdmi_phy_configure
  simp only []
  split_ifs <;> first | rfl | exact configure_finish_no_lock E hw hdmi _ h

/-- At 8 bits and up to 216 MHz the current-control block writes its word and
goes on. -/
theorem currctrl_8bit (E : Env) (hw : hdmi_hw) (clock : Nat) (io : hdmi_regs)
    (h : clock ≤ 216000000) : (phy_configure_currctrl E hw clock 8 io).1 = true := by
  unfold phy_configure_currctrl phy_currctrl_switch
  split_ifs <;> first | rfl | omega

/-- The loop of `mxc_hdmi_phy_init`, turn by turn. -/
theorem phy_init_eq (E : Env) (hw : hdmi_hw) (hdmi : mxc_hdmi) (io : hdmi_regs)
    (hrun : ¬ (hdmi.fb_reg = false ∨ hdmi.hp_state = .HDMI_HOTPLUG_DISCONNECTED ∨
      hdmi.blank ≠ E.FB_BLANK_UNBLANK)) :
    mxc_hdmi_phy_init E hw hdmi io =
      ({ hdmi with phy_enabled := true },
        (phy_init_round E hw hdmi (phy_init_round E hw hdmi io).2).2) := by
  have hr : List.range 2 = [0, 1] := rfl
  unfold mxc_hdmi_phy_init phy_init_round
  simp only [hrun, if_false, hr, List.foldl]

set_option maxRecDepth 100000 in
/-- C21 as stated fails: on hardware whose PHY never reports lock,
`hdmi_phy_configure` returns `false` in both turns of the loop, and
`mxc_hdmi_phy_init` leaves `phy_enabled` true. -/
theorem C21_counterexample :
    (phy_init_round refEnv hw_no_lock (dev_clock 74250000) {}).1 = false ∧
    (phy_init_round refEnv hw_no_lock (dev_clock 74250000)
      (phy_init_round refEnv hw_no_lock (dev_clock 74250000) {}).2).1 = false ∧
    (dev_clock 74250000).phy_enabled = false ∧
    (mxc_hdmi_phy_init refEnv hw_no_lock (dev_clock 74250000) {}).1.phy_enabled = true ∧
    (mxc_hdmi_phy_init refEnv hw_no_lock (dev_clock 74250000) {}).2 =
      (phy_init_round refEnv hw_no_lock (dev_clock 74250000)
        (phy_init_round refEnv hw_no_lock (dev_clock 74250000) {}).2).2 := by
  decide

/-- C21, amended. After `mxc_hdmi_phy_init` has run without being skipped,
`phy_enabled` is true whatever `hdmi_phy_configure` returned: the return
value is dropped in both turns of the loop (line 1531) and line 1534 sets the
flag. When the PHY lock bit never asserts, both calls of `hdmi_phy_configure`
return `false` and the PHY is still recorded as enabled. -/
theorem C21_phy_enabled_always (E : Env) (hw : hdmi_hw) (hdmi : mxc_hdmi) (io : hdmi_regs)
    (hrun : ¬ (hdmi.fb_reg = false ∨ hdmi.hp_state = .HDMI_HOTPLUG_DISCONNECTED ∨
      hdmi.blank ≠ E.FB_BLANK_UNBLANK)) :
    (mxc_hdmi_phy_init E hw hdmi io).1.phy_enabled = true ∧
    ((∀ n, (hw .HDMI_PHY_STAT0 n &&& E.HDMI_PHY_TX_PHY_LOCK) % 256 = 0) →
      (phy_init_round E hw hdmi io).1 = false ∧
      (phy_init_round E hw hdmi (phy_init_round E hw hdmi io).2).1 = false) := by
  rw [phy_init_eq E hw hdmi io hrun]
  refine ⟨rfl, fun h => ⟨?_, ?_⟩⟩ <;>
    exact configure_no_lock E hw hdmi _ _ _ _ h

/-- Witness of C21: the device `dev_clock 74250000` on hardware that never
reports lock. -/
theorem C21_phy_enabled_always_witness :
    ¬ ((dev_clock 74250000).fb_reg = false ∨
      (dev_clock 74250000).hp_state = .HDMI_HOTPLUG_DISCONNECTED ∨
      (dev_clock 74250000).blank ≠ refEnv.FB_BLANK_UNBLANK) ∧
    (mxc_hdmi_phy_init refEnv hw_no_lock (dev_clock 74250000) {}).1.phy_enabled = true ∧
    (phy_init_round refEnv hw_no_lock (dev_clock 74250000) {}).1 = false :=
  ⟨by decide,
    (C21_phy_enabled_always refEnv hw_no_lock (dev_clock 74250000) {} (by decide)).1,
    ((C21_phy_enabled_always refEnv hw_no_lock (dev_clock 74250000) {} (by decide)).2
      (fun _ => by simp [hw_no_lock])).1⟩

set_option maxRecDepth 100000 in
/-- C22, the code at the failing input: with `reg_cksymtx`, `reg_vlev` and
`reg_txterm` all 0, pixel repetition 0, colour resolution 8, 74,250,000 Hz
and a PHY that reports lock, the call returns `true`; the tests of lines 1462
and 1466 hold for 0, so after the fixed words 0x01ad and 0x0005 the word 0 is
sent to VLEVCTRL (0x0E) and to TXTERM (0x19). Only CKSYMTXCTRL (0x09), guarded
by `!= 0`, keeps its fixed word. -/
theorem C22_zero_overrides_written :
    (dev_clock 74250000).phy_config = { reg_vlev := 0, reg_cksymtx := 0, reg_txterm := 0 } ∧
    (hdmi_phy_configure refEnv hw_ready (dev_clock 74250000) 0 8 0 {}).1 = true ∧
    phy_i2c_words (hdmi_phy_configure refEnv hw_ready (dev_clock 74250000) 0 8 0 {}).2.writes =
      [(0x06, 0x0140), (0x15, 0x0005), (0x10, 0x06dc), (0x13, 0x0000), (0x17, 0x0006),
        (0x19, 0x0005), (0x09, 0x800d), (0x0E, 0x01ad), (0x0E, 0x0000), (0x19, 0x0000),
        (0x05, 0x8000)] ∧
    phy_last_word 0x09
      (hdmi_phy_configure refEnv hw_ready (dev_clock 74250000) 0 8 0 {}).2.writes =
        some 0x800d ∧
    phy_last_word 0x0E
      (hdmi_phy_configure refEnv hw_ready (dev_clock 74250000) 0 8 0 {}).2.writes = some 0 ∧
    phy_last_word 0x19
      (hdmi_phy_configure refEnv hw_ready (dev_clock 74250000) 0 8 0 {}).2.writes = some 0 := by
  decide

/-- C23. `mxc_hdmi_phy_init` is a complete no-op (the device state and the
register side are returned as they are: no register access, `phy_enabled`
unchanged, no call of `hdmi_phy_configure`) whenever the framebuffer is not
registered, or `hp_state` is disconnected, or the blank state is not
`FB_BLANK_UNBLANK`. Otherwise it runs the power-down and configure sequence
exactly twice, each time with pixel repetition 0 and colour resolution 8, and
sets `phy_enabled`. -/
theorem C23_phy_init_skip (E : Env) (hw : hdmi_hw) (hdmi : mxc_hdmi) (io : hdmi_regs) :
    (hdmi.fb_reg = false ∨ hdmi.hp_state = .HDMI_HOTPLUG_DISCONNECTED ∨
        hdmi.blank ≠ E.FB_BLANK_UNBLANK →
      mxc_hdmi_phy_init E hw hdmi io = (hdmi, io)) ∧
    (¬ (hdmi.fb_reg = false ∨ hdmi.hp_state = .HDMI_HOTPLUG_DISCONNECTED ∨
        hdmi.blank ≠ E.FB_BLANK_UNBLANK) →
      mxc_hdmi_phy_init E hw hdmi io =
        ({ hdmi with phy_enabled := true },
          (phy_init_round E hw hdmi (phy_init_round E hw hdmi io).2).2)) ∧
    (∀ io' : hdmi_regs, phy_init_round E hw hdmi io' =
      hdmi_phy_configure E hw hdmi 0 8
        (if (isColorSpaceConversion E hdmi &&
          decide (hdmi.hp_state = .HDMI_HOTPLUG_CONNECTED_HDMI)) = true then 1 else 0)
        (mxc_hdmi_phy_enable_power E 0 (mxc_hdmi_phy_enable_tmds E 0
          (mxc_hdmi_phy_sel_interface_control E 0
            (mxc_hdmi_phy_sel_data_en_pol E 1 io'))))) := by
  refine ⟨fun h => ?_, fun h => phy_init_eq E hw hdmi io h, fun _ => rfl⟩
  unfold mxc_hdmi_phy_init
  rw [if_pos h]

/-! ### C24: a failed parse of the extension block -/

/-- The reader on a sink whose extension block is refused and which yields no
timing: line 1911 returns `-ENOENT`. -/
theorem read_internal_no_timing (E : Env) (hw : hdmi_hw) (beyond : Nat → List Nat)
    (hdmi : mxc_hdmi) (io : hdmi_regs)
    (hhead : (edid_fetch E hw hdmi io).1 = true)
    (hparse : ext_parse_ret E (edid_fetch E hw hdmi io).2.2.1 < 0)
    (hnone : ext_timings E (edid_fetch E hw hdmi io).2.2.1 = []) :
    (mxc_edid_read_internal E hw beyond hdmi io).1 = -(E.ENOENT : Int) := by
  unfold ext_parse_ret at hparse
  unfold ext_timings at hnone
  unfold mxc_edid_read_internal edid_parse_blocks
  simp only [hhead, Bool.true_eq_false, if_false, hparse, if_true, hnone, List.length_nil,
    gt_iff_lt, lt_self_iff_false]

/-- The reader on a sink with at most one extension, whose extension block is
refused and which yields a timing: the read returns 0 with `hdmi_cap`
cleared, the EDID buffer as fetched and the recovered timings. -/
theorem read_internal_some_timing (E : Env) (hw : hdmi_hw) (beyond : Nat → List Nat)
    (hdmi : mxc_hdmi) (io : hdmi_regs)
    (hhead : (edid_fetch E hw hdmi io).1 = true)
    (hparse : ext_parse_ret E (edid_fetch E hw hdmi io).2.2.1 < 0)
    (hsome : ext_timings E (edid_fetch E hw hdmi io).2.2.1 ≠ [])
    (hext : (edid_fetch E hw hdmi io).2.1 ≤ 1) :
    (mxc_edid_read_internal E hw beyond hdmi io).1 = 0 ∧
    (mxc_edid_read_internal E hw beyond hdmi io).2.1.edid_cfg.hdmi_cap = false ∧
    (mxc_edid_read_internal E hw beyond hdmi io).2.1.edid_cfg.ext_edid =
      (E.mxc_edid_parse_ext_blk ((edid_fetch E hw hdmi io).2.2.1.edid.drop E.EDID_LENGTH)
        (edid_fetch E hw hdmi io).2.2.1.edid_cfg
        (E.fb_edid_to_monspecs (edid_fetch E hw hdmi io).2.2.1.edid)).2.1.ext_edid ∧
    (mxc_edid_read_internal E hw beyond hdmi io).2.1.edid =
      (edid_fetch E hw hdmi io).2.2.1.edid ∧
    (mxc_edid_read_internal E hw beyond hdmi io).2.1.fbi.monspecs.modedb =
      ext_timings E (edid_fetch E hw hdmi io).2.2.1 := by
  unfold ext_parse_ret at hparse
  unfold ext_timings at hsome ⊢
  have hlen := List.length_pos.mpr hsome
  have hnot : ¬ (edid_fetch E hw hdmi io).2.1 > 1 := by omega
  unfold mxc_edid_read_internal edid_parse_blocks edid_parse_tail
  simp only [hhead, Bool.true_eq_false, if_false, hparse, if_true, gt_iff_lt, hlen, hnot]
  refine ⟨?_, ?_, ?_, ?_, ?_⟩ <;> trivial

set_option maxRecDepth 100000 in
/-- C24 as stated fails: a sink whose first three bytes pass the head check,
whose extension block carries an unknown tag, so that
`mxc_edid_parse_ext_blk` returns a negative value, and from which no timing
is recovered. `mxc_edid_read_internal` returns `-ENOENT` (line 1911) and
`mxc_hdmi_read_edid` reports `HDMI_EDID_FAIL`, not `HDMI_EDID_NO_MODES`. -/
theorem C24_counterexample :
    (edid_fetch refEnv (hw_sink (sink_edid 0 0)) dev0 {}).1 = true ∧
    ext_parse_ret refEnv (edid_fetch refEnv (hw_sink (sink_edid 0 0)) dev0 {}).2.2.1 = -1 ∧
    ext_timings refEnv (edid_fetch refEnv (hw_sink (sink_edid 0 0)) dev0 {}).2.2.1 = [] ∧
    (mxc_edid_read_internal refEnv (hw_sink (sink_edid 0 0)) no_beyond dev0 {}).1 = -2 ∧
    (mxc_hdmi_read_edid true (internal_reply refEnv (hw_sink (sink_edid 0 0)) no_beyond dev0 {})
      dev0).1 = HDMI_EDID_FAIL ∧
    HDMI_EDID_FAIL ≠ HDMI_EDID_NO_MODES := by
  decide

/-- C24, amended. In `mxc_edid_read_internal` followed by
`mxc_hdmi_read_edid` (HDCP path), when the head check passes and the parse of
the extension block fails: if no timing was recovered, the reader returns
`-ENOENT` and the outcome reported by `mxc_hdmi_read_edid` is
`HDMI_EDID_FAIL`; if at least one timing was recovered and the sink
announces at most one extension block, the reader returns 0, `hdmi_cap` is
false, the recovered timings are kept, and the outcome is `HDMI_EDID_SUCCESS`
(`HDMI_EDID_SAME` when the EDID bytes are the ones held before). -/
theorem C24_ext_parse_failure (E : Env) (hw : hdmi_hw) (beyond : Nat → List Nat)
    (hdmi : mxc_hdmi) (io : hdmi_regs)
    (hE : 0 < E.ENOENT)
    (hhead : (edid_fetch E hw hdmi io).1 = true)
    (hparse : ext_parse_ret E (edid_fetch E hw hdmi io).2.2.1 < 0) :
    (ext_timings E (edid_fetch E hw hdmi io).2.2.1 = [] →
      (mxc_edid_read_internal E hw beyond hdmi io).1 = -(E.ENOENT : Int) ∧
      (mxc_hdmi_read_edid true (internal_reply E hw beyond hdmi io) hdmi).1 =
        HDMI_EDID_FAIL) ∧
    (ext_timings E (edid_fetch E hw hdmi io).2.2.1 ≠ [] →
      (edid_fetch E hw hdmi io).2.1 ≤ 1 →
      (mxc_edid_read_internal E hw beyond hdmi io).1 = 0 ∧
      (mxc_hdmi_read_edid true (internal_reply E hw beyond hdmi io)
        hdmi).2.edid_cfg.hdmi_cap = false ∧
      (mxc_hdmi_read_edid true (internal_reply E hw beyond hdmi io)
        hdmi).2.fbi.monspecs.modedb = ext_timings E (edid_fetch E hw hdmi io).2.2.1 ∧
      (mxc_hdmi_read_edid true (internal_reply E hw beyond hdmi io) hdmi).1 =
        (if hdmi.edid = (edid_fetch E hw hdmi io).2.2.1.edid then HDMI_EDID_SAME
          else HDMI_EDID_SUCCESS)) := by
  refine ⟨fun hnone => ?_, fun hsome hext => ?_⟩
  · have h1 := read_internal_no_timing E hw beyond hdmi io hhead hparse hnone
    refine ⟨h1, ?_⟩
    have hneg : (internal_reply E hw beyond hdmi io).ret < 0 := by
      show (mxc_edid_read_internal E hw beyond hdmi io).1 < 0
      rw [h1]
      omega
    unfold mxc_hdmi_read_edid
    simp only [Bool.not_true, Bool.false_and, Bool.false_eq_true, if_false, hneg, if_true]
  · obtain ⟨h1, h2, -, h4, h5⟩ :=
      read_internal_some_timing E hw beyond hdmi io hhead hparse hsome hext
    have hret : (internal_reply E hw beyond hdmi io).ret = 0 := h1
    have hcap : (internal_reply E hw beyond hdmi io).cfg.hdmi_cap = false := h2
    have hed : (internal_reply E hw beyond hdmi io).edid =
        (edid_fetch E hw hdmi io).2.2.1.edid := h4
    have hdb : (internal_reply E hw beyond hdmi io).modedb =
        ext_timings E (edid_fetch E hw hdmi io).2.2.1 := h5
    have hlen : ¬ (ext_timings E (edid_fetch E hw hdmi io).2.2.1).length = 0 := by
      intro h0
      exact hsome (List.length_eq_zero.mp h0)
    refine ⟨h1, ?_, ?_, ?_⟩
    · unfold mxc_hdmi_read_edid
      simp only [Bool.not_true, Bool.false_and, Bool.false_eq_true, if_false, emit]
      split_ifs <;> simp [hcap]
    · unfold mxc_hdmi_read_edid
      simp only [Bool.not_true, Bool.false_and, Bool.false_eq_true, if_false, emit]
      split_ifs <;> simp [hdb]
    · unfold mxc_hdmi_read_edid
      simp only [Bool.not_true, Bool.false_and, Bool.false_eq_true, if_false, emit, hret,
        lt_self_iff_false]
      split_ifs <;> simp_all

set_option maxRecDepth 100000 in
/-- Witness of C24: a sink that lists 640x480 at 60 Hz among its established
timings and whose extension block carries an unknown tag. -/
theorem C24_ext_parse_failure_witness :
    (edid_fetch refEnv (hw_sink (sink_edid 0x20 0)) dev0 {}).1 = true ∧
    ext_parse_ret refEnv (edid_fetch refEnv (hw_sink (sink_edid 0x20 0)) dev0 {}).2.2.1 < 0 ∧
    (mxc_edid_read_internal refEnv (hw_sink (sink_edid 0x20 0)) no_beyond dev0 {}).1 = 0 ∧
    (mxc_hdmi_read_edid true (internal_reply refEnv (hw_sink (sink_edid 0x20 0)) no_beyond
      dev0 {}) dev0).2.edid_cfg.hdmi_cap = false :=
  ⟨by decide, by decide,
    ((C24_ext_parse_failure refEnv (hw_sink (sink_edid 0x20 0)) no_beyond dev0 {} (by decide)
      (by decide) (by decide)).2 (by decide) (by decide)).1,
    ((C24_ext_parse_failure refEnv (hw_sink (sink_edid 0x20 0)) no_beyond dev0 {} (by decide)
      (by decide) (by decide)).2 (by decide) (by decide)).2.1⟩

/-! ### C25: timeouts of the PHY I2C writes -/

set_option maxRecDepth 100000 in
/-- C25 as stated fails: on hardware whose PHY I2C master never reports a
transfer done, every wait of `hdmi_phy_i2c_write` times out, and
`hdmi_phy_configure` returns `true`. -/
theorem C25_counterexample :
    (hdmi_phy_wait_i2c_done hw_i2c_dead 1000 {}).1 = false ∧
    (hdmi_phy_configure refEnv hw_i2c_dead (dev_clock 74250000) 0 8 0 {}).1 = true := by
  decide

/-- C25, amended. I2C timeouts are not surfaced: `hdmi_phy_i2c_write` drops
the result of `hdmi_phy_wait_i2c_done` (line 1118). When the I2C master never
reports a transfer done, every wait returns `false`, and `hdmi_phy_configure`,
called with pixel repetition 0, colour resolution 8 (or 0) and a pixel clock
up to 216,000,000 Hz, still returns `true` if the PHY status reports lock. -/
theorem C25_i2c_timeout_dropped (E : Env) (hw : hdmi_hw) (hdmi : mxc_hdmi) (cRes : Nat)
    (cscOn : Int) (io : hdmi_regs)
    (hto : ∀ n, (hw .HDMI_IH_I2CMPHY_STAT0 n &&& 0x3) % 256 = 0)
    (hlock : ∀ n, (hw .HDMI_PHY_STAT0 n &&& E.HDMI_PHY_TX_PHY_LOCK) % 256 ≠ 0)
    (hres : cRes = 0 ∨ cRes = 8)
    (hclk : hdmi.hdmi_data.video_mode.mPixelClock ≤ 216000000) :
    (∀ (msec : Nat) (io' : hdmi_regs), (hdmi_phy_wait_i2c_done hw msec io').1 = false) ∧
    (hdmi_phy_configure E hw hdmi 0 cRes cscOn io).1 = true := by
  refine ⟨fun msec io' => wait_i2c_never hw hto msec io', ?_⟩
  have h8 : (if cRes = 0 then 8 else cRes) = 8 := by
    rcases hres with h | h <;> simp [h]
  unfold hdmi_phy_configure
  simp only [h8, mpll_8bit, currctrl_8bit E hw _ _ hclk]
  simp [configure_finish_lock E hw hdmi _ hlock]

set_option maxRecDepth 100000 in
/-- Witness of C25: the hardware `hw_i2c_dead` at 74,250,000 Hz. -/
theorem C25_i2c_timeout_dropped_witness :
    (hdmi_phy_wait_i2c_done hw_i2c_dead 1000 {}).1 = false ∧
    (hdmi_phy_configure refEnv hw_i2c_dead (dev_clock 74250000) 0 8 0 {}).1 = true :=
  ⟨(C25_i2c_timeout_dropped refEnv hw_i2c_dead (dev_clock 74250000) 8 0 {}
      (fun _ => by simp [hw_i2c_dead])
      (fun _ => by
        show ((0xFF : Nat) &&& refEnv.HDMI_PHY_TX_PHY_LOCK) % 256 ≠ 0
        decide)
      (Or.inr rfl) (by decide)).1 1000 {},
    (C25_i2c_timeout_dropped refEnv hw_i2c_dead (dev_clock 74250000) 8 0 {}
      (fun _ => by simp [hw_i2c_dead])
      (fun _ => by
        show ((0xFF : Nat) &&& refEnv.HDMI_PHY_TX_PHY_LOCK) % 256 ≠ 0
        decide)
      (Or.inr rfl) (by decide)).2⟩

/-! ### C26: the steps of the link state -/

/-- The plug-in branch of the hotplug worker ends in
`HDMI_HOTPLUG_CONNECTED_NO_EDID`. -/
theorem hotplug_asserted_state (E : Env) (hw : hdmi_hw) (hdmi : mxc_hdmi) (io : hdmi_regs)
    (h : plug_asserted hw hdmi io) :
    (hotplug_worker E hw hdmi io).1.hp_state = .HDMI_HOTPLUG_CONNECTED_NO_EDID := by
  unfold plug_asserted at h
  unfold hotplug_worker
  simp only [h, if_true, mxc_hdmi_cable_connected, schedule_work, emit]
  split_ifs <;> rfl

/-- The plug-out branch of the hotplug worker ends in
`HDMI_HOTPLUG_DISCONNECTED` and leaves the work item as it was. -/
theorem hotplug_deasserted_state (E : Env) (hw : hdmi_hw) (hdmi : mxc_hdmi) (io : hdmi_regs)
    (h : ¬ plug_asserted hw hdmi io) :
    (hotplug_worker E hw hdmi io).1.hp_state = .HDMI_HOTPLUG_DISCONNECTED ∧
    (hotplug_worker E hw hdmi io).1.hdmi_connected = hdmi.hdmi_connected := by
  unfold plug_asserted at h
  unfold hotplug_worker
  simp only [h, if_false, mxc_hdmi_cable_disconnected, mxc_hdmi_phy_disable, emit]
  split_ifs <;> refine ⟨?_, ?_⟩ <;> trivial

/-- The cable-connected worker ends in `HDMI_HOTPLUG_CONNECTED_HDMI` or in
`HDMI_HOTPLUG_CONNECTED_DVI`, whatever the state it starts from. -/
theorem run_connected_state (E : Env) (ignore_edid hdcp_init : Bool) (first retry : edid_reply)
    (hdmi : mxc_hdmi) :
    (run_hdmi_connected E ignore_edid hdcp_init first retry hdmi).hp_state =
        .HDMI_HOTPLUG_CONNECTED_HDMI ∨
    (run_hdmi_connected E ignore_edid hdcp_init first retry hdmi).hp_state =
        .HDMI_HOTPLUG_CONNECTED_DVI := by
  obtain ⟨-, -, f3, -, -⟩ := worker_fields E ignore_edid hdcp_init first retry
    { hdmi with hdmi_connected := false }
  unfold run_hdmi_connected
  rw [f3]
  split_ifs
  · exact Or.inl rfl
  · exact Or.inr rfl

set_option maxRecDepth 100000 in
/-- C26 as stated fails: the cable is plugged in and pulled out again before
the work queue runs the cable-connected worker. The first run of the hotplug
worker sets `HDMI_HOTPLUG_CONNECTED_NO_EDID` and queues the work item; the
second sets `HDMI_HOTPLUG_DISCONNECTED` and leaves the item queued; the
cable-connected worker then runs, its EDID reads fail, and the step takes
`hp_state` from `HDMI_HOTPLUG_DISCONNECTED` to `HDMI_HOTPLUG_CONNECTED_HDMI`. -/
theorem C26_counterexample :
    dev_unplugged.hp_state = .HDMI_HOTPLUG_DISCONNECTED ∧
    dev_unplugged.hdmi_connected = false ∧
    (hotplug_worker refEnv hw_replug dev_unplugged {}).1.hp_state =
      .HDMI_HOTPLUG_CONNECTED_NO_EDID ∧
    (hotplug_worker refEnv hw_replug dev_unplugged {}).1.hdmi_connected = true ∧
    (hotplug_worker refEnv hw_replug (hotplug_worker refEnv hw_replug dev_unplugged {}).1
      (hotplug_worker refEnv hw_replug dev_unplugged {}).2).1.hp_state =
      .HDMI_HOTPLUG_DISCONNECTED ∧
    (hotplug_worker refEnv hw_replug (hotplug_worker refEnv hw_replug dev_unplugged {}).1
      (hotplug_worker refEnv hw_replug dev_unplugged {}).2).1.hdmi_connected = true ∧
    link_step refEnv hw_replug false false
      (hotplug_worker refEnv hw_replug (hotplug_worker refEnv hw_replug dev_unplugged {}).1
        (hotplug_worker refEnv hw_replug dev_unplugged {}).2)
      (run_hdmi_connected refEnv false false reply_fail reply_fail
        (hotplug_worker refEnv hw_replug (hotplug_worker refEnv hw_replug dev_unplugged {}).1
          (hotplug_worker refEnv hw_replug dev_unplugged {}).2).1,
        (hotplug_worker refEnv hw_replug (hotplug_worker refEnv hw_replug dev_unplugged {}).1
          (hotplug_worker refEnv hw_replug dev_unplugged {}).2).2) ∧
    (run_hdmi_connected refEnv false false reply_fail reply_fail
      (hotplug_worker refEnv hw_replug (hotplug_worker refEnv hw_replug dev_unplugged {}).1
        (hotplug_worker refEnv hw_replug dev_unplugged {}).2).1).hp_state =
      .HDMI_HOTPLUG_CONNECTED_HDMI :=
  ⟨by decide, by decide, by decide, by decide, by decide, by decide,
    Or.inr ⟨by decide, reply_fail, reply_fail, rfl⟩, by decide⟩

/-- C26, amended. In the step relation formed by the hotplug worker and the
cable-connected worker, `HDMI_HOTPLUG_CONNECTED_HDMI` or
`HDMI_HOTPLUG_CONNECTED_DVI` is entered only by a run of the cable-connected
worker, which needs the work item queued; the hotplug worker ends in
`HDMI_HOTPLUG_CONNECTED_NO_EDID` on its plug-in branch and in
`HDMI_HOTPLUG_DISCONNECTED` on its plug-out branch, and the plug-out branch
leaves a queued work item queued. The cable-connected worker does not look at
the state it starts from: from each of the four states, `p`, it ends in
`HDMI_HOTPLUG_CONNECTED_HDMI` or `HDMI_HOTPLUG_CONNECTED_DVI`. -/
theorem C26_link_steps (E : Env) (hw : hdmi_hw) (ignore_edid hdcp_init : Bool)
    (s t : mxc_hdmi × hdmi_regs) (h : link_step E hw ignore_edid hdcp_init s t) :
    (t.1.hp_state = .HDMI_HOTPLUG_CONNECTED_HDMI ∨
        t.1.hp_state = .HDMI_HOTPLUG_CONNECTED_DVI →
      s.1.hdmi_connected = true ∧
      ∃ first retry : edid_reply,
        t = (run_hdmi_connected E ignore_edid hdcp_init first retry s.1, s.2)) ∧
    (t = hotplug_worker E hw s.1 s.2 →
      (plug_asserted hw s.1 s.2 → t.1.hp_state = .HDMI_HOTPLUG_CONNECTED_NO_EDID) ∧
      (¬ plug_asserted hw s.1 s.2 →
        t.1.hp_state = .HDMI_HOTPLUG_DISCONNECTED ∧
        t.1.hdmi_connected = s.1.hdmi_connected)) ∧
    (∀ (p : hotplug_state) (first retry : edid_reply),
      (run_hdmi_connected E ignore_edid hdcp_init first retry
          { s.1 with hp_state := p }).hp_state = .HDMI_HOTPLUG_CONNECTED_HDMI ∨
      (run_hdmi_connected E ignore_edid hdcp_init first retry
          { s.1 with hp_state := p }).hp_state = .HDMI_HOTPLUG_CONNECTED_DVI) := by
  refine ⟨fun ht => ?_, fun ht => ?_, fun p first retry =>
    run_connected_state E ignore_edid hdcp_init first retry _⟩
  · rcases h with h | h
    · exfalso
      by_cases ha : plug_asserted hw s.1 s.2
      · have := hotplug_asserted_state E hw s.1 s.2 ha
        rw [h, this] at ht
        rcases ht with ht | ht <;> cases ht
      · have := (hotplug_deasserted_state E hw s.1 s.2 ha).1
        rw [h, this] at ht
        rcases ht with ht | ht <;> cases ht
    · exact h
  · subst ht
    exact ⟨hotplug_asserted_state E hw s.1 s.2, hotplug_deasserted_state E hw s.1 s.2⟩

set_option maxRecDepth 100000 in
/-- Witness of C26: the step of the cable-connected worker on the device
`dev_unplugged` with the work item queued. -/
theorem C26_link_steps_witness :
    link_step refEnv hw_replug false false (schedule_work dev_unplugged, {})
      (run_hdmi_connected refEnv false false reply_fail reply_fail
        (schedule_work dev_unplugged), {}) ∧
    (schedule_work dev_unplugged).hdmi_connected = true :=
  ⟨Or.inr ⟨rfl, reply_fail, reply_fail, rfl⟩,
    ((C26_link_steps refEnv hw_replug false false (schedule_work dev_unplugged, {})
      (run_hdmi_connected refEnv false false reply_fail reply_fail
        (schedule_work dev_unplugged), {})
      (Or.inr ⟨rfl, reply_fail, reply_fail, rfl⟩)).1 (by decide)).1⟩

/-! ### C27: `ALIGN2` -/

/-- The macro `ALIGN(x, 8)` on a 32-bit value: the sum `x + 7` wraps, then the
low three bits are cleared. -/
theorem ALIGN_eq (x : Nat) : ALIGN x 8 = (x + 7) % 2 ^ 32 / 8 * 8 := by
  have hn : not32 (8 - 1) = 0xFFFFFFF8 := by decide
  unfold ALIGN
  rw [hn, and_mask8 _ (Nat.mod_lt _ (by decide))]

/-- C27. `ALIGN2(x, 8)` rounds down and never up: for every 32-bit unsigned
`x`, `ALIGN2(x, 8) = x - (x mod 8)`; the result is a multiple of 8, is at most
`x`, differs from `x` by less than 8, equals `x` when `x` is a multiple of 8,
and `ALIGN2` is idempotent. This holds also where the intermediate
`ALIGN(x, 8)` wraps around modulo `2^32`: for `x` above `2^32 - 8` it is 0,
and `ALIGN2(x, 8)` is `2^32 - 8`. -/
theorem C27_align_down (x : Nat) (hx : x < 2 ^ 32) :
    ALIGN2 x 8 = x - x % 8 ∧ ALIGN2 x 8 % 8 = 0 ∧ ALIGN2 x 8 ≤ x ∧ x - ALIGN2 x 8 < 8 ∧
    (x % 8 = 0 → ALIGN2 x 8 = x) ∧ ALIGN2 (ALIGN2 x 8) 8 = ALIGN2 x 8 ∧
    (2 ^ 32 - 8 < x → ALIGN x 8 = 0 ∧ ALIGN2 x 8 = 2 ^ 32 - 8) := by
  have h := ALIGN2_eq x hx
  have hA := ALIGN_eq x
  refine ⟨by omega, by omega, by omega, by omega, fun _ => by omega, ALIGN2_idem x hx,
    fun hw => ⟨by omega, by omega⟩⟩

/-- Witness of C27: the largest 32-bit value, where `ALIGN` wraps to 0. -/
theorem C27_align_down_witness :
    (4294967295 : Nat) < 2 ^ 32 ∧ ALIGN 4294967295 8 = 0 ∧ ALIGN2 4294967295 8 = 4294967288 :=
  ⟨by decide, ((C27_align_down 4294967295 (by decide)).2.2.2.2.2.2 (by decide)).1,
    ((C27_align_down 4294967295 (by decide)).2.2.2.2.2.2 (by decide)).2⟩

/-! ### C28 - C30: slips in the mode-list builder -/

set_option maxRecDepth 100000 in
/-- C28, the code at the failing input: a detailed 60 Hz timing of width 5
passes the test of line 2233, is aligned down to width 0 by line 2243 and is
appended: the list holds an entry with `xres = 0`. -/
theorem C28_zero_width_listed :
    raw_width_5.xres = 5 ∧ raw_width_5.refresh = 60 ∧
    (mxc_hdmi_edid_rebuild_modelist refEnv
        (dev_plain { hdmi_cap := true } [raw_width_5])).fbi.modelist =
      [vga_mode refEnv, { raw_width_5 with xres := 0 }] ∧
    ∃ e ∈ (mxc_hdmi_edid_rebuild_modelist refEnv
        (dev_plain { hdmi_cap := true } [raw_width_5])).fbi.modelist, e.xres = 0 := by
  decide

set_option maxRecDepth 100000 in
/-- C29, the code at the failing inputs: with `hdmi_3d_struct_all = 0x8` (bit
3, the code 3 that the per-timing path takes for side-by-side full) the
all-modes path appends nothing; with `hdmi_3d_struct_all = 0x2` or `0x4` it
appends the side-by-side-full variant; the per-timing path appends it for the
structure code 3. The other three structures are tested on the bits 0, 6 and
8. -/
theorem C29_sbs_full_bits :
    rebuild_all_3d refEnv (cfg_3d_all 0x8) (raw_of_vic 4 16) 1 [] = [] ∧
    rebuild_all_3d refEnv (cfg_3d_all 0x2) (raw_of_vic 4 16) 1 [] =
      [{ raw_of_vic 4 16 with flag := 64, vmode := 0x20 ||| 0x800 }] ∧
    rebuild_all_3d refEnv (cfg_3d_all 0x4) (raw_of_vic 4 16) 1 [] =
      [{ raw_of_vic 4 16 with flag := 64, vmode := 0x20 ||| 0x800 }] ∧
    rebuild_format_3d refEnv
        { hdmi_3d_len := 1, hdmi_3d_format := [⟨0, 3⟩] } (raw_of_vic 4 16) 1 [] =
      [{ raw_of_vic 4 16 with flag := 64, vmode := 0x20 ||| 0x800 }] ∧
    rebuild_all_3d refEnv (cfg_3d_all 0x1) (raw_of_vic 4 16) 1 [] =
      [{ raw_of_vic 4 16 with flag := 64, vmode := 0x20 ||| 0x200 }] ∧
    rebuild_all_3d refEnv (cfg_3d_all 0x40) (raw_of_vic 4 16) 1 [] =
      [{ raw_of_vic 4 16 with flag := 64, vmode := 0x20 ||| 0x100 }] ∧
    rebuild_all_3d refEnv (cfg_3d_all 0x100) (raw_of_vic 4 16) 1 [] =
      [{ raw_of_vic 4 16 with flag := 64, vmode := 0x20 ||| 0x400 }] := by
  decide

set_option maxRecDepth 100000 in
/-- C30, the code at the failing inputs. For a sink whose only timing is a
detailed timing without a VIC, the entry is appended while `nvic` is still 0,
and the mask test is evaluated with the shift count -1. For a sink that lists
1920x1080 at 60 Hz sixteen times and then 1280x720 at 60 Hz as a detailed
timing, every copy is counted, and the mask test for the second timing is
evaluated with the shift count 16. -/
theorem C30_shift_out_of_range :
    (∃ it ∈ rebuild_run refEnv (dev_with cfg_3d_mask [raw_1924]),
      mask_test_evaluated refEnv (dev_with cfg_3d_mask [raw_1924]) it ∧
        mask_shift refEnv it = -1) ∧
    (∃ it ∈ rebuild_run refEnv
        (dev_with cfg_3d_mask (List.replicate 16 (raw_of_vic 16 2) ++ [raw_of_vic 4 1])),
      mask_test_evaluated refEnv
        (dev_with cfg_3d_mask (List.replicate 16 (raw_of_vic 16 2) ++ [raw_of_vic 4 1])) it ∧
        mask_shift refEnv it = 16) := by
  decide

end MxcHdmi
